import Mathlib

/-!
The kvset builder of HSE (`src/cn/kvset_builder.c`).

A shallow embedding of the kvset builder of HSE and theorems about it.

Conventions of the embedding

* C unsigned integers are `Nat`; the arithmetic on the fields of the builder is
  reduced modulo the width of the C type (`uint` is 32 bits, `u64` is 64 bits).
  Arguments of a call are values of their C type: a `seq` is at most `U64_MAX`.
* A pointer to bytes is `Option (List Nat)`: `none` is the null pointer.
* `assert(...)` is compiled out (release build), so it is not part of the model.
  The block under `DEBUG_KVSET_BUILDER_ADD_VAL` is compiled out as well (the
  define is commented out in the source), so the `debug` argument is dropped.
* `ev(x)` counts an event and yields `x`; it is the identity here.
* The sub-writers (key-block writer `kbb_*`, value-block writer `vbb_*`), the
  allocator and `kvset_vbuilder_vblock_exists` are outside this file of the
  repository.  What they answer during one call is given by an environment
  argument of that call; what the builder asks of the two writers is appended
  to the `calls` field of the builder, oldest call first.  The calls
  `kvset_builder_merge_vblocks` makes on the writer of `dst` and the calls of
  the two setters are returned by these functions as lists of their own.
-/

namespace KvsetBuilder

/-! ## Machine integers and error values -/

/-- Largest `u64`. -/
def U64_MAX : Nat := 2 ^ 64 - 1

/-- Modulus of the C type `uint`. -/
def UINT_MOD : Nat := 2 ^ 32

/-- Modulus of the C type `u64`. -/
def U64_MOD : Nat := 2 ^ 64

/-- Values of `merr_t`.  `ok` is `0`.  `EINVAL`, `ENOMEM` and `EBUG` are the values
built by `merr(...)` inside `kvset_builder.c`; `merr` packs the file and line of
its call site with the errno, so an error made elsewhere (by a sub-writer) is a
different value: `other code`. -/
inductive merr_t where
  | ok
  | EINVAL
  | ENOMEM
  | EBUG
  | other (code : Nat)
  deriving DecidableEq, Repr

/-! ## Data model -/

/-- The `vdata` argument of `kvset_builder_add_val`: a null pointer, one of the two
tombstone sentinels (compared by pointer identity, never dereferenced), or a
pointer to value bytes. -/
inductive vdata_t where
  | null
  | HSE_CORE_TOMB_REG
  | HSE_CORE_TOMB_PFX
  | data (bytes : List Nat)
  deriving DecidableEq, Repr

/-- The kinds of `enum kmd_vtype`. -/
inductive kmd_vtype where
  | vtype_val
  | vtype_zval
  | vtype_tomb
  | vtype_ptomb
  | vtype_ival
  | vtype_cval
  deriving DecidableEq, Repr

/-- One key-metadata record, with the fields its encoder is given. -/
inductive kmd_rec where
  | val (seq vbidx vboff vlen : Nat)
  | cval (seq vbidx vboff vlen complen : Nat)
  | ival (seq : Nat) (vdata : vdata_t) (vlen : Nat)
  | zval (seq : Nat)
  | tomb (seq : Nat)
  | ptomb (seq : Nat)
  deriving DecidableEq, Repr

/-- Modelled from the spec: the byte layout of the `kmd_add_*` encoders (`omf.h`)
is not in these sources and the spec leaves it to the implementer, so the bytes
of a record are given by a function of this type. -/
abbrev kmd_encoding := kmd_rec → List Nat

/-- A stand-in encoding used when the model is evaluated on concrete inputs: a tag
followed by the numeric fields (and the inlined bytes of an `ival`). -/
def kmd_enc_simple : kmd_encoding
  | .val seq vbidx vboff vlen => [1, seq, vbidx, vboff, vlen]
  | .cval seq vbidx vboff vlen complen => [2, seq, vbidx, vboff, vlen, complen]
  | .ival seq (.data bytes) vlen => [3, seq, vlen] ++ bytes.take vlen
  | .ival seq _ vlen => [3, seq, vlen]
  | .zval seq => [4, seq]
  | .tomb seq => [5, seq]
  | .ptomb seq => [6, seq]

/-- Constants and sizes of headers that are not part of the two source files,
and the record encoding; they are parameters of the model.  `last_ptomb_sz` is
`sizeof(self->last_ptomb)`. -/
structure params where
  HSE_KVS_KLEN_MAX : Nat
  HSE_KVS_VLEN_MAX : Nat
  CN_SMALL_VALUE_THRESHOLD : Nat
  PAGE_SIZE : Nat
  CN_CFLAG_CAPPED : Nat
  last_ptomb_sz : Nat
  kmd_enc : kmd_encoding

/-- The values these constants have in HSE (`hse_limits.h`, `limits.h`, `cn.h`),
with the stand-in record encoding. -/
def hse_params : params :=
  { HSE_KVS_KLEN_MAX := 1344
    HSE_KVS_VLEN_MAX := 1024 * 1024
    CN_SMALL_VALUE_THRESHOLD := 8
    PAGE_SIZE := 4096
    CN_CFLAG_CAPPED := 1
    last_ptomb_sz := 32
    kmd_enc := kmd_enc_simple }

/-- The type `struct key_stats` (declared in `kblock_builder.h`): three `uint`
counters and five `u64` fields. -/
structure key_stats where
  nvals : Nat
  ntombs : Nat
  nptombs : Nat
  tot_vlen : Nat
  c0_vlen : Nat
  c1_vlen : Nat
  seqno_prev : Nat
  seqno_prev_ptomb : Nat
  deriving DecidableEq, Repr

/-- The type `struct kmd_info`: buffer pointer, capacity and bytes in use
(the last two are `uint`). -/
structure kmd_info where
  kmd : Option (List Nat)
  kmd_size : Nat
  kmd_used : Nat
  deriving DecidableEq, Repr

/-- The type `struct blk_list`: array of block ids (null when empty) and its count. -/
structure blk_list where
  blks : Option (List Nat)
  n_blks : Nat
  deriving DecidableEq, Repr

/-- The compression operations `struct compress_ops`.  `cop_estimate vdata vlen` is
the estimated output length (`0` for "do not compress"); `cop_compress vdata vlen
cap` yields the error value, the length stored through the `complen` pointer and
the bytes written to the destination buffer. -/
structure compress_ops where
  cop_estimate : vdata_t → Nat → Nat
  cop_compress : vdata_t → Nat → Nat → merr_t × Nat × List Nat

/-- The owner `struct cn` as far as the builder looks at it: `cn_get_flags(cn)` and
`vcomp_compress_ops(cn_get_rp(cn))`. -/
structure cn_t where
  flags : Nat
  rp_compress : Option compress_ops

/-- A call the builder makes to one of the two sub-writers or to the media layer,
with the arguments it passes.  The argument of `kbb_destroy` and `vbb_destroy`
tells whether the handle passed is non-null. -/
inductive ext_call where
  | kbb_create
  | vbb_create
  | kbb_add_ptomb (key : List Nat) (kmd : Option (List Nat)) (kmd_used : Nat) (stats : key_stats)
  | kbb_add_entry (key : List Nat) (kmd : Option (List Nat)) (kmd_used : Nat) (stats : key_stats)
  | vbb_add_entry (vdata : vdata_t) (omlen : Nat)
  | kbb_finish (seqno_min seqno_max : Nat)
  | vbb_finish
  | kbb_destroy (handle : Bool)
  | vbb_destroy (handle : Bool)
  | abort_mblocks (list : blk_list)
  deriving DecidableEq, Repr

/-- The type `struct kvset_builder` (declared in `kvset_builder_internal.h`), with the
calls made so far in `calls`.  `vbb` is `false` once the pointer has been set
to `0`. -/
structure kvset_builder where
  cn : cn_t
  kbb : Bool
  vbb : Bool
  kblk_list : blk_list
  vblk_list : blk_list
  seqno_max : Nat
  seqno_min : Nat
  vused : Nat
  key_stats : key_stats
  main : kmd_info
  sec : kmd_info
  compress : Option compress_ops
  compress_buf : Option (List Nat)
  compress_buf_sz : Nat
  last_ptomb : List Nat
  last_ptlen : Nat
  last_ptseq : Nat
  vblk_baseidx : Nat
  calls : List ext_call

/-- The output `struct kvset_mblocks`. -/
structure kvset_mblocks where
  kblks : blk_list
  vblks : blk_list
  bl_vused : Nat
  bl_seqno_max : Nat
  bl_seqno_min : Nat
  bl_last_ptomb : List Nat
  bl_last_ptlen : Nat
  bl_last_ptseq : Nat
  deriving DecidableEq, Repr

/-! ## Memory helpers -/

/-- A freshly allocated block of `n` bytes whose (arbitrary) initial content is `f`. -/
def mem_block (n : Nat) (f : Nat → Nat) : List Nat :=
  (List.range n).map f

/-- The effect of `memcpy(dst, src, n)` on `dst`. -/
def memcpy (dst src : List Nat) (n : Nat) : List Nat :=
  src.take n ++ dst.drop n

/-- Storing `bytes` into `buf` from offset `off` on. -/
def mem_write (buf : List Nat) (off : Nat) (bytes : List Nat) : List Nat :=
  buf.take off ++ bytes ++ buf.drop (off + bytes.length)

/-- The macro `ALIGN(x, a)`: `x` rounded up to a multiple of `a` (no wrap-around:
the lengths it is used on are far below `2 ^ 32`). -/
def ALIGN (x a : Nat) : Nat :=
  ((x + (a - 1)) / a) * a

/-! ## `reserve_kmd` (lines 72-104) -/

/-- The function `reserve_kmd`.  `malloc` is the answer of `malloc(new_size)` should the
call be made: `none` for a null result, `some f` for a block with content `f`.
The result is `0` or `-1`. -/
def reserve_kmd (malloc : Option (Nat → Nat)) (ki : kmd_info) : Int × kmd_info :=
  let initial := 16 * 1024
  let need := 256
  let min_size := (ki.kmd_used + need) % UINT_MOD
  if ki.kmd_size ≥ min_size then (0, ki)
  else
    let new_size := if ki.kmd_size ≠ 0 then (2 * ki.kmd_size) % UINT_MOD else initial
    let new_size := if new_size < min_size then min_size else new_size
    match malloc with
    | none => (-1, ki)
    | some f =>
      let new_mem := mem_block new_size f
      let new_mem :=
        match ki.kmd with
        | some old => memcpy new_mem old ki.kmd_used
        | none => new_mem
      (0, { ki with kmd := some new_mem, kmd_size := new_size })

/-! ## The KMD encoders -/

/-- Modelled from the spec: the encoders `kmd_add_*` live in another file of the
repository; each "appends to a (buf, used-ptr) pair and advances used".  The
record bytes are stored at offset `kmd_used`, which then moves past them. -/
def kmd_add (P : params) (ki : kmd_info) (r : kmd_rec) : kmd_info :=
  { ki with
    kmd := ki.kmd.map (fun buf => mem_write buf ki.kmd_used (P.kmd_enc r))
    kmd_used := (ki.kmd_used + (P.kmd_enc r).length) % UINT_MOD }

/-- The encoder `kmd_add_tomb(kmd, &used, seq)`. -/
def kmd_add_tomb (P : params) (ki : kmd_info) (seq : Nat) : kmd_info :=
  kmd_add P ki (.tomb seq)

/-- The encoder `kmd_add_ptomb(kmd, &used, seq)`. -/
def kmd_add_ptomb (P : params) (ki : kmd_info) (seq : Nat) : kmd_info :=
  kmd_add P ki (.ptomb seq)

/-- The encoder `kmd_add_zval(kmd, &used, seq)`. -/
def kmd_add_zval (P : params) (ki : kmd_info) (seq : Nat) : kmd_info :=
  kmd_add P ki (.zval seq)

/-- The encoder `kmd_add_ival(kmd, &used, seq, vdata, vlen)`. -/
def kmd_add_ival (P : params) (ki : kmd_info) (seq : Nat) (vdata : vdata_t)
    (vlen : Nat) : kmd_info :=
  kmd_add P ki (.ival seq vdata vlen)

/-- The encoder `kmd_add_val(kmd, &used, seq, vbidx, vboff, vlen)`. -/
def kmd_add_val (P : params) (ki : kmd_info) (seq vbidx vboff vlen : Nat) : kmd_info :=
  kmd_add P ki (.val seq vbidx vboff vlen)

/-- The encoder `kmd_add_cval(kmd, &used, seq, vbidx, vboff, vlen, complen)`. -/
def kmd_add_cval (P : params) (ki : kmd_info) (seq vbidx vboff vlen complen : Nat) :
    kmd_info :=
  kmd_add P ki (.cval seq vbidx vboff vlen complen)

/-! ## Answers of the outside world during one call -/

/-- What the outside answers during one `kvset_builder_add_val`, `_add_vref` or
`_add_nonval` call, for each request the call may make:
`malloc_kmd` for the `malloc` of `reserve_kmd`;
`vblock_exists` for `kvset_vbuilder_vblock_exists` (`some (vbidx, vboff, vbid)`
when it returns true); `malloc_compress_buf` for the `malloc` of the compression
scratch; `vbb_add_entry` for the value-block writer: the error value and the
`(vbid, vbidx, vboff)` it stores. -/
structure add_env where
  malloc_kmd : Option (Nat → Nat)
  vblock_exists : Option (Nat × Nat × Nat)
  malloc_compress_buf : Option (Nat → Nat)
  vbb_add_entry : merr_t × Nat × Nat × Nat

/-- What the key-block writer answers during one `kvset_builder_add_key` call. -/
structure add_key_env where
  kbb_add_ptomb : merr_t
  kbb_add_entry : merr_t

/-- What the two writers answer during `kvset_builder_finish`: the error value and
the block list they store. -/
structure finish_env where
  kbb_finish : merr_t × blk_list
  vbb_finish : merr_t × blk_list

/-- What the outside answers during `kvset_builder_create`: whether `malloc` gives
memory, and the error values of the two writer constructors. -/
structure create_env where
  malloc : Bool
  kbb_create : merr_t
  vbb_create : merr_t

/-! ## `kvset_builder_create` (lines 29-70) -/

/-- The function `kvset_builder_create`: the error value, the builder stored in
`*bld_out` (none when nothing is stored) and the calls made. -/
def kvset_builder_create (P : params) (cn : cn_t) (env : create_env) :
    merr_t × Option kvset_builder × List ext_call :=
  if ¬ env.malloc then (.ENOMEM, none, [])
  else
    let bld : kvset_builder :=
      { cn := { flags := 0, rp_compress := none }
        kbb := false
        vbb := false
        kblk_list := { blks := none, n_blks := 0 }
        vblk_list := { blks := none, n_blks := 0 }
        seqno_max := 0
        seqno_min := 0
        vused := 0
        key_stats :=
          { nvals := 0, ntombs := 0, nptombs := 0, tot_vlen := 0, c0_vlen := 0, c1_vlen := 0,
            seqno_prev := 0, seqno_prev_ptomb := 0 }
        main := { kmd := none, kmd_size := 0, kmd_used := 0 }
        sec := { kmd := none, kmd_size := 0, kmd_used := 0 }
        compress := none
        compress_buf := none
        compress_buf_sz := 0
        last_ptomb := List.replicate P.last_ptomb_sz 0
        last_ptlen := 0
        last_ptseq := 0
        vblk_baseidx := 0
        calls := [] }
    let bld := { bld with seqno_min := U64_MAX }
    let bld := { bld with calls := bld.calls ++ [ext_call.kbb_create] }
    if env.kbb_create ≠ .ok then (env.kbb_create, none, bld.calls)
    else
      let bld := { bld with kbb := true }
      let bld := { bld with calls := bld.calls ++ [ext_call.vbb_create] }
      if env.vbb_create ≠ .ok then
        (env.vbb_create, none, bld.calls ++ [ext_call.kbb_destroy bld.kbb])
      else
        let bld := { bld with vbb := true }
        let bld := { bld with cn := cn }
        let bld := { bld with key_stats := { bld.key_stats with seqno_prev := U64_MAX } }
        let bld := { bld with key_stats := { bld.key_stats with seqno_prev_ptomb := U64_MAX } }
        let bld := { bld with compress := cn.rp_compress }
        (.ok, some bld, bld.calls)

/-! ## `kvset_builder_add_key` (lines 106-146) -/

/-- Modelled from the spec: the accessor `key_obj_len` of the key object (an
"opaque, length-prefixed byte sequence with helper accessors for length and byte
copy"); a key object is the list of its bytes. -/
def key_obj_len (kobj : List Nat) : Nat :=
  kobj.length

/-- Modelled from the spec: the accessor `key_obj_copy(buf, bufsz, &len, kobj)`:
the key bytes that fit are copied to the start of `buf`, and the key length is
stored in `len`. -/
def key_obj_copy (buf : List Nat) (bufsz : Nat) (kobj : List Nat) : List Nat × Nat :=
  (memcpy buf kobj (min (key_obj_len kobj) bufsz), key_obj_len kobj)

/-- Lines 119-127 of `kvset_builder_add_key`: the prefix-tombstone commit. -/
def add_key_ptomb (P : params) (self : kvset_builder) (key : List Nat) (env : add_key_env) :
    merr_t × kvset_builder :=
  if self.key_stats.nptombs > 0 then
    let self1 :=
      { self with
        calls := self.calls ++
          [ext_call.kbb_add_ptomb key self.sec.kmd self.sec.kmd_used self.key_stats] }
    if env.kbb_add_ptomb ≠ .ok then (env.kbb_add_ptomb, self1)
    else if self1.cn.flags &&& P.CN_CFLAG_CAPPED ≠ 0 then
      (env.kbb_add_ptomb,
        { self1 with
          last_ptomb := (key_obj_copy self1.last_ptomb P.last_ptomb_sz key).1
          last_ptlen := (key_obj_copy self1.last_ptomb P.last_ptomb_sz key).2 })
    else (env.kbb_add_ptomb, self1)
  else (.ok, self)

/-- Lines 129-133 of `kvset_builder_add_key`: the entry commit.  `err` is the value
the variable `err` has on entry. -/
def add_key_entry (self : kvset_builder) (key : List Nat) (env : add_key_env) (err : merr_t) :
    merr_t × kvset_builder :=
  if self.key_stats.nvals > 0 then
    (env.kbb_add_entry,
      { self with
        calls := self.calls ++
          [ext_call.kbb_add_entry key self.main.kmd self.main.kmd_used self.key_stats] })
  else (err, self)

/-- Lines 135-143 of `kvset_builder_add_key`: the per-key state is cleared. -/
def add_key_reset (self : kvset_builder) : kvset_builder :=
  { self with
    key_stats :=
      { self.key_stats with
        nvals := 0
        ntombs := 0
        nptombs := 0
        tot_vlen := 0
        seqno_prev := U64_MAX
        seqno_prev_ptomb := U64_MAX }
    main := { self.main with kmd_used := 0 }
    sec := { self.sec with kmd_used := 0 } }

/-- Lines 119-145 of `kvset_builder_add_key`: what the function does once the key
has passed the length check. -/
def add_key_commit (P : params) (self : kvset_builder) (key : List Nat) (env : add_key_env) :
    merr_t × kvset_builder :=
  let r1 := add_key_ptomb P self key env
  if r1.1 ≠ .ok then r1
  else
    let r2 := add_key_entry r1.2 key env r1.1
    if r2.1 ≠ .ok then r2
    else (r2.1, add_key_reset r2.2)

/-- The function `kvset_builder_add_key`.  `kobj` is `none` for a null key object. -/
def kvset_builder_add_key (P : params) (self : kvset_builder) (kobj : Option (List Nat))
    (env : add_key_env) : merr_t × kvset_builder :=
  match kobj with
  | none => (.EINVAL, self)
  | some key =>
    let klen := key_obj_len key
    if klen = 0 ∨ klen > P.HSE_KVS_KLEN_MAX then (.EINVAL, self)
    else add_key_commit P self key env

/-! ## `kvset_builder_add_val` (lines 179-359) -/

/-- Lines 277-284 of `kvset_builder_add_val`: the compressor runs on the scratch
buffer; the result is the builder, the new `vdata` and the new `complen`. -/
def add_val_run_compress (P : params) (self : kvset_builder) (ops : compress_ops)
    (vdata : vdata_t) (vlen : Nat) : kvset_builder × vdata_t × Nat :=
  let r := ops.cop_compress vdata vlen self.compress_buf_sz
  let self1 :=
    { self with compress_buf := self.compress_buf.map (fun buf => mem_write buf 0 r.2.2) }
  if r.2.1 > P.HSE_KVS_VLEN_MAX ∨ r.1 ≠ .ok then (self1, vdata, 0)
  else
    (self1,
      match self1.compress_buf with
      | some buf => vdata_t.data buf
      | none => vdata_t.null,
      r.2.1)

/-- Lines 253-285 of `kvset_builder_add_val`: the attempt to compress; the result is
the builder, the new `vdata` and the new `complen`. -/
def add_val_compress (P : params) (self : kvset_builder) (vdata : vdata_t) (vlen complen : Nat)
    (env : add_env) : kvset_builder × vdata_t × Nat :=
  match self.compress with
  | none => (self, vdata, complen)
  | some ops =>
    if complen ≠ 0 then (self, vdata, complen)
    else
      let complen1 := ops.cop_estimate vdata vlen
      if complen1 = 0 then (self, vdata, complen1)
      else if self.compress_buf_sz < complen1 then
        match env.malloc_compress_buf with
        | none => ({ self with compress_buf := none, compress_buf_sz := 0 }, vdata, 0)
        | some f =>
          add_val_run_compress P
            { self with
              compress_buf := some (mem_block (ALIGN complen1 P.PAGE_SIZE) f)
              compress_buf_sz := ALIGN complen1 P.PAGE_SIZE }
            ops vdata vlen
      else add_val_run_compress P self ops vdata vlen

/-- Lines 305-316 of `kvset_builder_add_val`: the `cval` or `val` record is appended
to the main buffer and `omlen` is added to `vused` and `tot_vlen`. -/
def add_val_kmd (P : params) (self : kvset_builder) (seq vbidx vboff vlen complen omlen : Nat) :
    kvset_builder :=
  { self with
    main :=
      if complen ≠ 0 then kmd_add_cval P self.main seq vbidx vboff vlen complen
      else kmd_add_val P self.main seq vbidx vboff vlen
    vused := (self.vused + omlen) % U64_MOD
    key_stats :=
      { self.key_stats with tot_vlen := (self.key_stats.tot_vlen + omlen) % U64_MOD } }

/-- Lines 236-248 and 305-316 of `kvset_builder_add_val`: the value was found
upstream at `(vbidx, vboff)`.  The result is the error value (`ok` when the
path does not return), the builder and `vdata`. -/
def add_val_reuse (P : params) (self : kvset_builder) (seq : Nat) (vdata : vdata_t)
    (vlen complen vbidx vboff : Nat) : merr_t × kvset_builder × vdata_t :=
  if complen > 0 then (.EBUG, self, vdata)
  else
    let omlen := vlen
    let self1 :=
      { self with
        key_stats :=
          { self.key_stats with c1_vlen := (self.key_stats.c1_vlen + vlen) % U64_MOD } }
    (.ok, add_val_kmd P self1 seq vbidx vboff vlen complen omlen, vdata)

/-- Lines 287-316 of `kvset_builder_add_val` (from the label `add_entry` on): the
bytes go to the value-block writer and the record is appended.  `vdata` and
`complen` are the values these variables have at the label.  The result is the
error value (`ok` when the path does not return), the builder and `vdata`. -/
def add_val_write (P : params) (self : kvset_builder) (seq : Nat) (vdata : vdata_t)
    (vlen complen : Nat) (env : add_env) : merr_t × kvset_builder × vdata_t :=
  let omlen := if complen ≠ 0 then complen else vlen
  let self1 := { self with calls := self.calls ++ [ext_call.vbb_add_entry vdata omlen] }
  if env.vbb_add_entry.1 ≠ .ok then (env.vbb_add_entry.1, self1, vdata)
  else
    let self2 :=
      { self1 with
        key_stats :=
          { self1.key_stats with c0_vlen := (self1.key_stats.c0_vlen + omlen) % U64_MOD } }
    (.ok,
      add_val_kmd P self2 seq env.vbb_add_entry.2.2.1 env.vbb_add_entry.2.2.2 vlen complen omlen,
      vdata)

/-- Lines 226-316 of `kvset_builder_add_val`: the out-of-line path.  The result is the
error value (`ok` when the path does not return), the builder and the final
`vdata`.  `c1` tells whether the handle `c1` is non-null. -/
def add_val_ool (P : params) (self : kvset_builder) (seq : Nat) (vdata : vdata_t)
    (vlen complen : Nat) (c1 : Bool) (env : add_env) : merr_t × kvset_builder × vdata_t :=
  let c1value := if c1 then env.vblock_exists else none
  match c1value with
  | some (vbidx, vboff, _) => add_val_reuse P self seq vdata vlen complen vbidx vboff
  | none =>
    let c := add_val_compress P self vdata vlen complen env
    add_val_write P c.1 seq c.2.1 vlen c.2.2 env

/-- Lines 209-317 of `kvset_builder_add_val`: the record is chosen and appended.  The
result is the error value (`ok` when this part does not return), the builder and
the final `vdata`. -/
def add_val_record (P : params) (self : kvset_builder) (seq : Nat) (vdata : vdata_t)
    (vlen complen : Nat) (c1 : Bool) (env : add_env) : merr_t × kvset_builder × vdata_t :=
  if vdata = .HSE_CORE_TOMB_REG then
    (.ok,
      { self with
        main := kmd_add_tomb P self.main seq
        key_stats := { self.key_stats with ntombs := (self.key_stats.ntombs + 1) % UINT_MOD } },
      vdata)
  else if vdata = .HSE_CORE_TOMB_PFX then
    (.ok,
      { self with
        sec := kmd_add_ptomb P self.sec seq
        key_stats := { self.key_stats with nptombs := (self.key_stats.nptombs + 1) % UINT_MOD }
        last_ptseq := seq },
      vdata)
  else if vdata = .null ∨ vlen = 0 then
    (.ok, { self with main := kmd_add_zval P self.main seq }, vdata)
  else if complen = 0 ∧ vlen ≤ P.CN_SMALL_VALUE_THRESHOLD then
    (.ok,
      { self with
        main := kmd_add_ival P self.main seq vdata vlen
        key_stats :=
          { self.key_stats with tot_vlen := (self.key_stats.tot_vlen + vlen) % U64_MOD } },
      vdata)
  else add_val_ool P self seq vdata vlen complen c1 env

/-- Lines 319-334 and 358 of `kvset_builder_add_val`: `seq` is folded into
`seqno_max` and `seqno_min`, the previous seqno of the stream is read and
replaced by `seq`, and then `seq` is compared with the value read. -/
def add_val_seqno (self : kvset_builder) (seq : Nat) (vdata : vdata_t) : merr_t × kvset_builder :=
  let self1 :=
    { self with seqno_max := max self.seqno_max seq, seqno_min := min self.seqno_min seq }
  let seqno_prev :=
    if vdata = .HSE_CORE_TOMB_PFX then self1.key_stats.seqno_prev_ptomb
    else self1.key_stats.seqno_prev
  let self2 :=
    if vdata = .HSE_CORE_TOMB_PFX then
      { self1 with key_stats := { self1.key_stats with seqno_prev_ptomb := seq } }
    else
      { self1 with
        key_stats :=
          { self1.key_stats with
            nvals := (self1.key_stats.nvals + 1) % UINT_MOD
            seqno_prev := seq } }
  if seq > seqno_prev then (.EINVAL, self2) else (.ok, self2)

/-- Lines 191 and 206 of `kvset_builder_add_val`: the buffer of the stream is chosen
(secondary for `HSE_CORE_TOMB_PFX`, main otherwise) and `reserve_kmd` runs on
it.  The result is the value of `reserve_kmd` and the builder. -/
def add_val_reserve (self : kvset_builder) (vdata : vdata_t) (env : add_env) :
    Int × kvset_builder :=
  let r := reserve_kmd env.malloc_kmd (if vdata = .HSE_CORE_TOMB_PFX then self.sec else self.main)
  (r.1, if vdata = .HSE_CORE_TOMB_PFX then { self with sec := r.2 } else { self with main := r.2 })

/-- The function `kvset_builder_add_val`.  `c1` tells whether the handle `c1` is
non-null. -/
def kvset_builder_add_val (P : params) (self : kvset_builder) (seq : Nat) (vdata : vdata_t)
    (vlen complen : Nat) (c1 : Bool) (env : add_env) : merr_t × kvset_builder :=
  let r := add_val_reserve self vdata env
  if r.1 ≠ 0 then (.ENOMEM, r.2)
  else
    let b := add_val_record P r.2 seq vdata vlen complen c1 env
    if b.1 ≠ .ok then (b.1, b.2.1)
    else add_val_seqno b.2.1 seq b.2.2

/-! ## `kvset_builder_add_vref` (lines 367-394) -/

/-- The function `kvset_builder_add_vref`. -/
def kvset_builder_add_vref (P : params) (self : kvset_builder) (seq vbidx vboff vlen complen : Nat)
    (env : add_env) : merr_t × kvset_builder :=
  let om_len := if complen ≠ 0 then complen else vlen
  let r := reserve_kmd env.malloc_kmd self.main
  let self1 := { self with main := r.2 }
  if r.1 ≠ 0 then (.ENOMEM, self1)
  else
    let self2 :=
      { self1 with
        main :=
          if complen > 0 then kmd_add_cval P self1.main seq vbidx vboff vlen complen
          else kmd_add_val P self1.main seq vbidx vboff vlen }
    let self3 :=
      { self2 with
        vused := (self2.vused + om_len) % U64_MOD
        key_stats :=
          { self2.key_stats with
            tot_vlen := (self2.key_stats.tot_vlen + om_len) % U64_MOD
            nvals := (self2.key_stats.nvals + 1) % UINT_MOD } }
    (.ok,
      { self3 with seqno_max := max self3.seqno_max seq, seqno_min := min self3.seqno_min seq })

/-! ## `kvset_builder_add_nonval` (lines 396-420) -/

/-- The function `kvset_builder_add_nonval`. -/
def kvset_builder_add_nonval (P : params) (self : kvset_builder) (seq : Nat) (vtype : kmd_vtype)
    (env : add_env) : merr_t × kvset_builder :=
  let r := reserve_kmd env.malloc_kmd (if vtype = .vtype_ptomb then self.sec else self.main)
  let self1 := if vtype = .vtype_ptomb then { self with sec := r.2 } else { self with main := r.2 }
  if r.1 ≠ 0 then (.ENOMEM, self1)
  else if vtype = .vtype_tomb then
    let self2 :=
      { self1 with
        main := kmd_add_tomb P self1.main seq
        key_stats :=
          { self1.key_stats with
            ntombs := (self1.key_stats.ntombs + 1) % UINT_MOD
            nvals := (self1.key_stats.nvals + 1) % UINT_MOD } }
    (.ok,
      { self2 with seqno_max := max self2.seqno_max seq, seqno_min := min self2.seqno_min seq })
  else if vtype = .vtype_ptomb then
    let self2 :=
      { self1 with
        sec := kmd_add_ptomb P self1.sec seq
        key_stats :=
          { self1.key_stats with nptombs := (self1.key_stats.nptombs + 1) % UINT_MOD } }
    (.ok,
      { self2 with seqno_max := max self2.seqno_max seq, seqno_min := min self2.seqno_min seq })
  else (.EBUG, self1)

/-! ## `kvset_builder_destroy` (lines 422-441) -/

/-- The function `kvset_builder_destroy`: the calls it makes on the media layer and
on the two writers (`none` is a null builder). -/
def kvset_builder_destroy (bld : Option kvset_builder) : List ext_call :=
  match bld with
  | none => []
  | some b =>
    [ext_call.abort_mblocks b.kblk_list, ext_call.abort_mblocks b.vblk_list,
      ext_call.kbb_destroy b.kbb, ext_call.vbb_destroy b.vbb]

/-! ## `kvset_builder_finish` and `kvset_builder_get_mblocks` (lines 452-519) -/

/-- The function `kvset_builder_finish`. -/
def kvset_builder_finish (imp : kvset_builder) (env : finish_env) : merr_t × kvset_builder :=
  let imp1 :=
    { imp with
      calls := imp.calls ++ [ext_call.kbb_finish imp.seqno_min imp.seqno_max]
      kblk_list := env.kbb_finish.2 }
  if env.kbb_finish.1 ≠ .ok then (env.kbb_finish.1, imp1)
  else if imp1.kblk_list.n_blks = 0 then
    (.ok, { imp1 with calls := imp1.calls ++ [ext_call.vbb_destroy imp1.vbb], vbb := false })
  else
    let imp2 :=
      { imp1 with calls := imp1.calls ++ [ext_call.vbb_finish], vblk_list := env.vbb_finish.2 }
    if env.vbb_finish.1 ≠ .ok then (env.vbb_finish.1, imp2)
    else (.ok, imp2)

/-- The function `kvset_builder_get_mblocks`: the error value, the builder and the
output structure `*mblks`. -/
def kvset_builder_get_mblocks (P : params) (self : kvset_builder) (mblks : kvset_mblocks)
    (env : finish_env) : merr_t × kvset_builder × kvset_mblocks :=
  let f := kvset_builder_finish self env
  if f.1 ≠ .ok then (f.1, f.2, mblks)
  else
    let self1 := f.2
    let mblks1 := { mblks with kblks := self1.kblk_list }
    let self2 := { self1 with kblk_list := { self1.kblk_list with blks := none, n_blks := 0 } }
    let mblks2 := { mblks1 with vblks := self2.vblk_list }
    let self3 := { self2 with vblk_list := { self2.vblk_list with blks := none, n_blks := 0 } }
    let mblks3 :=
      { mblks2 with
        bl_vused := self3.vused
        bl_seqno_max := self3.seqno_max
        bl_seqno_min := self3.seqno_min }
    if self3.cn.flags &&& P.CN_CFLAG_CAPPED ≠ 0 then
      (.ok, self3,
        { mblks3 with
          bl_last_ptomb := self3.last_ptomb
          bl_last_ptlen := self3.last_ptlen
          bl_last_ptseq := self3.last_ptseq })
    else (.ok, self3, mblks3)

/-! ## Sequences of calls -/

/-- One call of the streaming interface, with its arguments and the answers the
outside gives during it. -/
inductive op where
  | add_val (seq : Nat) (vdata : vdata_t) (vlen complen : Nat) (c1 : Bool) (env : add_env)
  | add_vref (seq vbidx vboff vlen complen : Nat) (env : add_env)
  | add_nonval (seq : Nat) (vtype : kmd_vtype) (env : add_env)
  | add_key (kobj : Option (List Nat)) (env : add_key_env)

/-- The call `o` made on the builder `s`. -/
def step (P : params) (s : kvset_builder) : op → merr_t × kvset_builder
  | .add_val seq vdata vlen complen c1 env =>
    kvset_builder_add_val P s seq vdata vlen complen c1 env
  | .add_vref seq vbidx vboff vlen complen env =>
    kvset_builder_add_vref P s seq vbidx vboff vlen complen env
  | .add_nonval seq vtype env => kvset_builder_add_nonval P s seq vtype env
  | .add_key kobj env => kvset_builder_add_key P s kobj env

/-- The calls `os` made one after the other on `s`, as long as each returns `0`:
the builder after the last call, or `none` when some call returned an error. -/
def run_ok (P : params) (s : kvset_builder) : List op → Option kvset_builder
  | [] => some s
  | o :: os => if (step P s o).1 = .ok then run_ok P (step P s o).2 os else none

/-- The calls `os` made one after the other on `s` whatever they return. -/
def run_any (P : params) (s : kvset_builder) : List op → kvset_builder
  | [] => s
  | o :: os => run_any P (step P s o).2 os

/-! ## Sample inputs -/

/-- An owner without the capped flag and without compression. -/
def cn_plain : cn_t :=
  { flags := 0, rp_compress := none }

/-- Answers of an outside in which every allocation and every writer call succeeds
and no value is found upstream; the value-block writer places the value in
block 0 at offset 0 (block id 7). -/
def env_good : add_env :=
  { malloc_kmd := some (fun _ => 0)
    vblock_exists := none
    malloc_compress_buf := some (fun _ => 0)
    vbb_add_entry := (.ok, 7, 0, 0) }

/-- Answers as in `env_good`, but the value looked up is found upstream, in block 2
at offset 64 (block id 9). -/
def env_upstream : add_env :=
  { env_good with vblock_exists := some (2, 64, 9) }

/-- A key-block writer that accepts what it is given. -/
def key_env_good : add_key_env :=
  { kbb_add_ptomb := .ok, kbb_add_entry := .ok }

/-- The builder `kvset_builder_create` stores when all three of its requests succeed. -/
def fresh_builder (P : params) (cn : cn_t) : kvset_builder :=
  { cn := cn
    kbb := true
    vbb := true
    kblk_list := { blks := none, n_blks := 0 }
    vblk_list := { blks := none, n_blks := 0 }
    seqno_max := 0
    seqno_min := U64_MAX
    vused := 0
    key_stats :=
      { nvals := 0, ntombs := 0, nptombs := 0, tot_vlen := 0, c0_vlen := 0, c1_vlen := 0,
        seqno_prev := U64_MAX, seqno_prev_ptomb := U64_MAX }
    main := { kmd := none, kmd_size := 0, kmd_used := 0 }
    sec := { kmd := none, kmd_size := 0, kmd_used := 0 }
    compress := cn.rp_compress
    compress_buf := none
    compress_buf_sz := 0
    last_ptomb := List.replicate P.last_ptomb_sz 0
    last_ptlen := 0
    last_ptseq := 0
    vblk_baseidx := 0
    calls := [ext_call.kbb_create, ext_call.vbb_create] }

/-- The builder after `(seq = 5, "a")` was added to a fresh builder. -/
def bld_after_5a : kvset_builder :=
  (kvset_builder_add_val hse_params (fresh_builder hse_params cn_plain) 5 (.data [97]) 1 0 false
    env_good).2

/-- A value of nine bytes, one more than `CN_SMALL_VALUE_THRESHOLD` of `hse_params`. -/
def nine_bytes : vdata_t :=
  .data [1, 2, 3, 4, 5, 6, 7, 8, 9]

/-! ## Predicates used in the statements -/

/-- The fields no part of the record stage of `kvset_builder_add_val` writes. -/
def record_frame (s t : kvset_builder) : Prop :=
  t.seqno_min = s.seqno_min ∧ t.seqno_max = s.seqno_max ∧
  t.key_stats.seqno_prev = s.key_stats.seqno_prev ∧
  t.key_stats.seqno_prev_ptomb = s.key_stats.seqno_prev_ptomb ∧
  t.key_stats.nvals = s.key_stats.nvals ∧
  t.cn = s.cn ∧ t.kbb = s.kbb ∧ t.vbb = s.vbb ∧
  t.kblk_list = s.kblk_list ∧ t.vblk_list = s.vblk_list ∧
  t.last_ptomb = s.last_ptomb ∧ t.last_ptlen = s.last_ptlen ∧
  t.vblk_baseidx = s.vblk_baseidx ∧ t.compress = s.compress

/-- The arguments of `kvset_builder_add_val` that reach the out-of-line path (the
last `else` of the record stage, line 224). -/
def takes_ool (P : params) (vdata : vdata_t) (vlen complen : Nat) : Prop :=
  vdata ≠ .HSE_CORE_TOMB_REG ∧ vdata ≠ .HSE_CORE_TOMB_PFX ∧ ¬ (vdata = .null ∨ vlen = 0) ∧
    ¬ (complen = 0 ∧ vlen ≤ P.CN_SMALL_VALUE_THRESHOLD)

instance (P : params) (vdata : vdata_t) (vlen complen : Nat) :
    Decidable (takes_ool P vdata vlen complen) := by
  unfold takes_ool
  exact inferInstance

/-- The variable `c1value` of line 233: the handle is non-null and the value is
found upstream. -/
def found_upstream (c1 : Bool) (env : add_env) : Prop :=
  c1 = true ∧ env.vblock_exists.isSome = true

instance (c1 : Bool) (env : add_env) : Decidable (found_upstream c1 env) := by
  unfold found_upstream
  exact inferInstance

/-- The sum of the on-media lengths the builder handed to the value-block writer:
the `omlen` arguments of the `vbb_add_entry` calls of a call list. -/
def written_omlen : List ext_call → Nat
  | [] => 0
  | .vbb_add_entry _ omlen :: cs => omlen + written_omlen cs
  | _ :: cs => written_omlen cs

/-- The on-media length of an `add_val` call served by upstream reuse (`vlen`), and
`0` for every other call. -/
def reused_omlen (P : params) : op → Nat
  | .add_val _ vdata vlen complen c1 env =>
    if takes_ool P vdata vlen complen ∧ found_upstream c1 env then vlen else 0
  | _ => 0

/-- The `seq` argument of a call that adds an entry; `add_key` has none. -/
def op_seq : op → Option Nat
  | .add_val seq _ _ _ _ _ => some seq
  | .add_vref seq _ _ _ _ _ => some seq
  | .add_nonval seq _ _ => some seq
  | .add_key _ _ => none

/-- The seqnos of the `add_val` calls of one stream, in call order: the secondary
stream (`HSE_CORE_TOMB_PFX`) for `sec = true`, the main stream otherwise. -/
def stream_seqs (sec : Bool) : List op → List Nat
  | [] => []
  | .add_val seq vdata _ _ _ _ :: os =>
    if decide (vdata = .HSE_CORE_TOMB_PFX) = sec then seq :: stream_seqs sec os
    else stream_seqs sec os
  | _ :: os => stream_seqs sec os

/-- Whether a call is `add_key`. -/
def is_add_key : op → Bool
  | .add_key _ _ => true
  | _ => false

/-- Whether a call is `add_val`. -/
def is_add_val : op → Bool
  | .add_val _ _ _ _ _ _ => true
  | _ => false

/-- The number of entry-adding calls (`add_val`, `add_vref`, `add_nonval`) that
returned `0` when `os` is run on `s`. -/
def accepted (P : params) (s : kvset_builder) : List op → Nat
  | [] => 0
  | o :: os =>
    (if (op_seq o).isSome ∧ (step P s o).1 = .ok then 1 else 0) + accepted P (step P s o).2 os

/-- The three calls of the scenario "single key, three values, descending seqnos". -/
def ops_30_20_10 : List op :=
  [.add_val 30 (.data [118, 51]) 2 0 false env_good,
    .add_val 20 (.data [118, 50]) 2 0 false env_good,
    .add_val 10 (.data [118, 49]) 2 0 false env_good]

/-- Four values for one key: an inlined one, one written to a vblock, one found
upstream and a tombstone. -/
def ops_mixed : List op :=
  [.add_val 40 (.data [118]) 1 0 false env_good,
    .add_val 30 nine_bytes 9 0 false env_good,
    .add_val 20 nine_bytes 9 0 true env_upstream,
    .add_val 10 .HSE_CORE_TOMB_REG 0 0 false env_good]

/-- A key of 1345 bytes, one more than `HSE_KVS_KLEN_MAX` of `hse_params`. -/
def key_too_long : List Nat :=
  List.replicate 1345 0

/-! ## Further sample inputs and predicates -/

/-- An owner with the capped flag (`CN_CFLAG_CAPPED` of `hse_params`) and without
compression. -/
def cn_capped : cn_t :=
  { flags := 1, rp_compress := none }

/-- A compressor that reports success and stores the length `0`. -/
def ops_zero_len : compress_ops :=
  { cop_estimate := fun _ vlen => vlen + 16
    cop_compress := fun _ _ _ => (.ok, 0, []) }

/-- A compressor that reports success and whose output is as long as its input: it
copies the value. -/
def ops_same_len : compress_ops :=
  { cop_estimate := fun _ vlen => vlen + 16
    cop_compress := fun vdata vlen _ =>
      (.ok, vlen,
        match vdata with
        | .data bytes => bytes.take vlen
        | _ => []) }

/-- A compressor whose estimator always answers `0`. -/
def ops_estimate_zero : compress_ops :=
  { cop_estimate := fun _ _ => 0
    cop_compress := fun _ _ _ => (.ok, 1, [0]) }

/-- An owner whose compressor is `ops_zero_len`. -/
def cn_zero_len : cn_t :=
  { flags := 0, rp_compress := some ops_zero_len }

/-- An owner whose compressor is `ops_same_len`. -/
def cn_same_len : cn_t :=
  { flags := 0, rp_compress := some ops_same_len }

/-- A value of ten bytes. -/
def ten_bytes : vdata_t :=
  .data [10, 11, 12, 13, 14, 15, 16, 17, 18, 19]

/-- An output structure with every field zero. -/
def mblks_zero : kvset_mblocks :=
  { kblks := { blks := none, n_blks := 0 }
    vblks := { blks := none, n_blks := 0 }
    bl_vused := 0
    bl_seqno_max := 0
    bl_seqno_min := 0
    bl_last_ptomb := []
    bl_last_ptlen := 0
    bl_last_ptseq := 0 }

/-- Writers whose `finish` succeeds: the key-block writer with no block, the
value-block writer (not asked in that case) with block 21. -/
def fin_env_no_kblock : finish_env :=
  { kbb_finish := (.ok, { blks := none, n_blks := 0 })
    vbb_finish := (.ok, { blks := some [21], n_blks := 1 }) }

/-- Writers whose `finish` succeeds: the key-block writer with block 11, the
value-block writer with blocks 21 and 22. -/
def fin_env_blocks : finish_env :=
  { kbb_finish := (.ok, { blks := some [11], n_blks := 1 })
    vbb_finish := (.ok, { blks := some [21, 22], n_blks := 2 }) }

/-- The fields that `add_val`, `add_vref`, `add_nonval` and `add_key` never write:
the owner, the two writer handles, the two block lists, the compression
operations and `vblk_baseidx`. -/
def handles_frame (s t : kvset_builder) : Prop :=
  t.cn = s.cn ∧ t.kbb = s.kbb ∧ t.vbb = s.vbb ∧ t.kblk_list = s.kblk_list ∧
  t.vblk_list = s.vblk_list ∧ t.compress = s.compress ∧ t.vblk_baseidx = s.vblk_baseidx

/-- The calls the three entry-adding operations and `add_key` make:
`kbb_add_ptomb`, `kbb_add_entry` and `vbb_add_entry`. -/
def is_add_call : ext_call → Bool
  | .kbb_add_ptomb _ _ _ _ => true
  | .kbb_add_entry _ _ _ _ => true
  | .vbb_add_entry _ _ => true
  | _ => false

/-- The number of `vbb_destroy` calls of a call list that were given a non-null
handle. -/
def vbb_destroy_count : List ext_call → Nat
  | [] => 0
  | .vbb_destroy true :: cs => 1 + vbb_destroy_count cs
  | _ :: cs => vbb_destroy_count cs

/-- The number of `vbb_finish` calls of a call list. -/
def vbb_finish_count : List ext_call → Nat
  | [] => 0
  | .vbb_finish :: cs => 1 + vbb_finish_count cs
  | _ :: cs => vbb_finish_count cs

/-! ## `kvset_builder_merge_vblocks` (lines 521-557) -/

/-- What the two value-block writers answer during one `kvset_builder_merge_vblocks`
call: `vbb_finish` for the finish of the writer of `src` (the error value and
the block list it stores in `blk`), `blk_count_before` and `blk_count_after`
for the two `vbb_get_blk_count` calls on the writer of `dst`, and
`vbb_blk_list_merge` for the splice. -/
structure merge_env where
  vbb_finish : merr_t × blk_list
  blk_count_before : Nat
  vbb_blk_list_merge : merr_t
  blk_count_after : Nat

/-- A call `kvset_builder_merge_vblocks` makes on the value-block writer of `dst`;
`handle` is the handle it is given. -/
inductive merge_call where
  | vbb_get_blk_count (handle : Bool)
  | vbb_blk_list_merge (dst src : Bool) (blk : blk_list)
  deriving DecidableEq

/-- The function `kvset_builder_merge_vblocks`: the error value, the builder `src`
after the call, and the calls made on the value-block writer of `dst`, oldest
first.  The finish of the writer of `src` is appended to `src.calls`.  The
locals `nblks` and `count` are read by the assertion only. -/
def kvset_builder_merge_vblocks (dst src : kvset_builder) (env : merge_env) :
    merr_t × kvset_builder × List merge_call :=
  let src1 := { src with calls := src.calls ++ [ext_call.vbb_finish] }
  if env.vbb_finish.1 ≠ .ok then (env.vbb_finish.1, src1, [])
  else
    let baseidx := env.blk_count_before % UINT_MOD
    let calls := [merge_call.vbb_get_blk_count dst.vbb]
    let src2 := { src1 with vblk_baseidx := baseidx }
    let calls := calls ++ [merge_call.vbb_blk_list_merge dst.vbb src2.vbb env.vbb_finish.2]
    if env.vbb_blk_list_merge ≠ .ok then (env.vbb_blk_list_merge, src2, calls)
    else (.ok, src2, calls ++ [merge_call.vbb_get_blk_count dst.vbb])

/-- The condition of the assertion of line 554, `count == (baseidx + nblks)`, on
the three `u32` locals. -/
def merge_count_ok (env : merge_env) : Prop :=
  env.blk_count_after % UINT_MOD =
    (env.blk_count_before % UINT_MOD + env.vbb_finish.2.n_blks % UINT_MOD) % UINT_MOD

/-- Modelled from the spec: the value-block writer of `dst` as the list of its
blocks; `vbb_get_blk_count` is the number of blocks. -/
def vbb_get_blk_count (blocks : List Nat) : Nat :=
  blocks.length

/-- Modelled from the spec: the splice `vbb_blk_list_merge` "appends the src blocks
to dst's VBW". -/
def vbb_blk_list_merge (blocks : List Nat) (blk : blk_list) : List Nat :=
  blocks ++ blk.blks.getD []

/-- The answers of a `kvset_builder_merge_vblocks` call whose `dst` writer holds
`blocks`, whose `src` writer finishes with the answer `fin`, and whose splice
succeeds and appends. -/
def merge_env_of (blocks : List Nat) (fin : merr_t × blk_list) : merge_env :=
  { vbb_finish := fin
    blk_count_before := vbb_get_blk_count blocks
    vbb_blk_list_merge := .ok
    blk_count_after := vbb_get_blk_count (vbb_blk_list_merge blocks fin.2) }

/-! ## Sample inputs and predicates for the KMD buffers -/

/-- Answers as in `env_good`, but `malloc` returns null. -/
def env_nomem : add_env :=
  { env_good with malloc_kmd := none }

/-- Answers as in `env_good`, but the value-block writer refuses the entry with
error 5. -/
def env_vbb_fail : add_env :=
  { env_good with vbb_add_entry := (.other 5, 0, 0, 0) }

/-- An empty KMD buffer, as `kvset_builder_create` leaves it. -/
def ki_empty : kmd_info :=
  { kmd := none, kmd_size := 0, kmd_used := 0 }

/-- A KMD buffer of four bytes of which three are used. -/
def ki_small : kmd_info :=
  { kmd := some [1, 2, 3, 4], kmd_size := 4, kmd_used := 3 }

/-- A KMD buffer of 16384 bytes (content left open) of which 16200 are used. -/
def ki_nearly_full (f : Nat → Nat) : kmd_info :=
  { kmd := some (mem_block 16384 f), kmd_size := 16384, kmd_used := 16200 }

/-- The state of a KMD buffer an encoder may append to: 256 bytes of room and a
buffer pointer that is not null. -/
def kmd_ready (ki : kmd_info) : Prop :=
  ki.kmd_used + 256 ≤ ki.kmd_size ∧ ki.kmd ≠ none

/-- A null buffer pointer goes with capacity `0`. -/
def kmd_null_ok (ki : kmd_info) : Prop :=
  ki.kmd = none → ki.kmd_size = 0

/-- The buffer of a stream: the secondary one for `sec = true`, the main one
otherwise. -/
def stream_buf (s : kvset_builder) (sec : Bool) : kmd_info :=
  if sec then s.sec else s.main

/-- The stream whose buffer the call reserves (the variable `ki` of lines 191, 376
and 399): `some true` for the secondary buffer, `some false` for the main one,
`none` for `add_key`, which reserves nothing. -/
def op_target : op → Option Bool
  | .add_val _ vdata _ _ _ _ => some (decide (vdata = .HSE_CORE_TOMB_PFX))
  | .add_vref _ _ _ _ _ _ => some false
  | .add_nonval _ vtype _ => some (decide (vtype = .vtype_ptomb))
  | .add_key _ _ => none

/-- The answer `malloc` gives to `reserve_kmd` during the call. -/
def op_malloc : op → Option (Nat → Nat)
  | .add_val _ _ _ _ _ env => env.malloc_kmd
  | .add_vref _ _ _ _ _ env => env.malloc_kmd
  | .add_nonval _ _ env => env.malloc_kmd
  | .add_key _ _ => none

/-- The outcome of the compression attempt (lines 253-285) of a
`kvset_builder_add_val` call on `s` whose reservation of the main buffer
succeeded: the builder, the final `vdata` and the final `complen`. -/
def add_val_compressed (P : params) (s : kvset_builder) (vdata : vdata_t) (vlen complen : Nat)
    (env : add_env) : kvset_builder × vdata_t × Nat :=
  add_val_compress P { s with main := (reserve_kmd env.malloc_kmd s.main).2 } vdata vlen complen
    env

/-- The length `omlen` of line 287 for the final `complen`. -/
def final_omlen (P : params) (s : kvset_builder) (vdata : vdata_t) (vlen complen : Nat)
    (env : add_env) : Nat :=
  if (add_val_compressed P s vdata vlen complen env).2.2 ≠ 0 then
    (add_val_compressed P s vdata vlen complen env).2.2
  else vlen

/-- The accounting relation between `vused` and the two per-key byte counters
`c0_vlen` and `c1_vlen`, in the 64-bit arithmetic of the three fields. -/
def vused_accounted (s : kvset_builder) : Prop :=
  s.vused = (s.key_stats.c0_vlen + s.key_stats.c1_vlen) % U64_MOD

/-- Whether a call is `add_vref`. -/
def is_add_vref : op → Bool
  | .add_vref _ _ _ _ _ _ => true
  | _ => false

/-- A key with a value written to a vblock, a value refused by the value-block
writer, a value found upstream, a rejected `add_nonval`, and the `add_key`. -/
def ops_accounting : List op :=
  [.add_val 40 nine_bytes 9 0 false env_good,
    .add_val 30 nine_bytes 9 0 false env_vbb_fail,
    .add_val 20 nine_bytes 9 0 true env_upstream,
    .add_nonval 10 .vtype_val env_good,
    .add_key (some [107]) key_env_good]

/-- A finished `src` writer with blocks 31 and 32. -/
def fin_two_blocks : merr_t × blk_list :=
  (.ok, { blks := some [31, 32], n_blks := 2 })

/-- A `src` writer whose finish fails with error 9. -/
def merge_env_finish_fails : merge_env :=
  { vbb_finish := (.other 9, { blks := none, n_blks := 0 })
    blk_count_before := 3
    vbb_blk_list_merge := .ok
    blk_count_after := 3 }

/-! ## The setters (lines 559-572) and the operations that drive a builder -/

/-- A call one of the two setters makes on a writer; `handle` is the handle it is
given. -/
inductive set_call where
  | kbb_set_agegroup (handle : Bool) (age : Nat)
  | vbb_set_agegroup (handle : Bool) (age : Nat)
  | kbb_set_merge_stats (handle : Bool) (stats : Nat)
  | vbb_set_merge_stats (handle : Bool) (stats : Nat)
  deriving DecidableEq

/-- The function `kvset_builder_set_agegroup`: the builder, which it does not write,
and the calls it makes on the two writers. -/
def kvset_builder_set_agegroup (self : kvset_builder) (age : Nat) :
    kvset_builder × List set_call :=
  (self, [set_call.kbb_set_agegroup self.kbb age, set_call.vbb_set_agegroup self.vbb age])

/-- The function `kvset_builder_set_merge_stats`: the builder, which it does not
write, and the calls it makes on the two writers; `stats` names the structure
the pointer refers to. -/
def kvset_builder_set_merge_stats (self : kvset_builder) (stats : Nat) :
    kvset_builder × List set_call :=
  (self, [set_call.kbb_set_merge_stats self.kbb stats, set_call.vbb_set_merge_stats self.vbb stats])

/-- One public operation on a builder between `kvset_builder_create` and
`kvset_builder_get_mblocks`: a call of the streaming interface,
`kvset_builder_merge_vblocks` with the builder as `src` (into `dst`) or as `dst`
(taking the blocks of `src`), or one of the two setters. -/
inductive pub_op where
  | stream (o : op)
  | merge_src (dst : kvset_builder) (env : merge_env)
  | merge_dst (src : kvset_builder) (env : merge_env)
  | set_agegroup (age : Nat)
  | set_merge_stats (stats : Nat)

/-- The builder after the operation `o` was made on the builder `s`.  As `dst` of a
merge the builder itself is not written (only its value-block writer is). -/
def pub_step (P : params) (s : kvset_builder) : pub_op → kvset_builder
  | .stream o => (step P s o).2
  | .merge_src dst env => (kvset_builder_merge_vblocks dst s env).2.1
  | .merge_dst _ _ => s
  | .set_agegroup age => (kvset_builder_set_agegroup s age).1
  | .set_merge_stats stats => (kvset_builder_set_merge_stats s stats).1

/-- The operations `os` made one after the other on `s` whatever they return. -/
def run_pub (P : params) (s : kvset_builder) : List pub_op → kvset_builder
  | [] => s
  | o :: os => run_pub P (pub_step P s o) os

/-- Whether an operation is a merge with the builder as `src`. -/
def is_merge_src : pub_op → Bool
  | .merge_src _ _ => true
  | _ => false

/-- A value is added, the builder is the `src` of a merge, its age group is set and
the key is added. -/
def ops_merged : List pub_op :=
  [.stream (.add_val 40 nine_bytes 9 0 false env_good),
    .merge_src bld_after_5a (merge_env_of [11, 12, 13] fin_two_blocks),
    .set_agegroup 1,
    .stream (.add_key (some [107]) key_env_good)]

/-- The calls of `ops_mixed` as public operations, with the age group set first. -/
def ops_mixed_pub : List pub_op :=
  .set_agegroup 1 :: ops_mixed.map .stream

/-- A key of 40 bytes, eight more than `last_ptomb` of `hse_params` holds. -/
def key_40 : List Nat :=
  List.replicate 40 112

/-! # Theorems -/

theorem create_ok_eq (P : params) (cn : cn_t) (env : create_env) (b : kvset_builder)
    (cl : List ext_call) (h : kvset_builder_create P cn env = (.ok, some b, cl)) :
    b = fresh_builder P cn := by
  unfold kvset_builder_create at h
  split_ifs at h <;> simp at h
  rw [← h.1]
  rfl

/-! ## Frame lemmas for the parts of `kvset_builder_add_val` -/

theorem run_compress_frame (P : params) (self : kvset_builder) (ops : compress_ops)
    (vdata : vdata_t) (vlen : Nat) :
    ∃ buf, (add_val_run_compress P self ops vdata vlen).1 = { self with compress_buf := buf } := by
  unfold add_val_run_compress
  dsimp only
  split_ifs <;> exact ⟨_, rfl⟩

theorem run_compress_vdata (P : params) (self : kvset_builder) (ops : compress_ops)
    (vdata : vdata_t) (vlen : Nat)
    (h : (add_val_run_compress P self ops vdata vlen).2.1 = .HSE_CORE_TOMB_PFX) :
    vdata = .HSE_CORE_TOMB_PFX := by
  unfold add_val_run_compress at h
  dsimp only at h
  split_ifs at h
  · exact h
  · dsimp only at h
    split at h <;> simp at h

theorem compress_frame (P : params) (self : kvset_builder) (vdata : vdata_t) (vlen complen : Nat)
    (env : add_env) :
    ∃ buf sz, (add_val_compress P self vdata vlen complen env).1 =
      { self with compress_buf := buf, compress_buf_sz := sz } := by
  unfold add_val_compress
  dsimp only
  repeat' split
  all_goals first
    | exact ⟨_, _, rfl⟩
    | (obtain ⟨buf, h⟩ := run_compress_frame P self ‹compress_ops› vdata vlen
       exact ⟨_, _, h⟩)
    | (obtain ⟨buf, h⟩ := run_compress_frame P
          { self with
            compress_buf := some (mem_block
              (ALIGN ((‹compress_ops›).cop_estimate vdata vlen) P.PAGE_SIZE) ‹Nat → Nat›)
            compress_buf_sz := ALIGN ((‹compress_ops›).cop_estimate vdata vlen) P.PAGE_SIZE }
          ‹compress_ops› vdata vlen
       exact ⟨_, _, h⟩)

theorem compress_vdata (P : params) (self : kvset_builder) (vdata : vdata_t) (vlen complen : Nat)
    (env : add_env)
    (h : (add_val_compress P self vdata vlen complen env).2.1 = .HSE_CORE_TOMB_PFX) :
    vdata = .HSE_CORE_TOMB_PFX := by
  unfold add_val_compress at h
  dsimp only at h
  repeat' split at h
  all_goals first
    | exact h
    | exact run_compress_vdata _ _ _ _ _ h

theorem reuse_frame (P : params) (self : kvset_builder) (seq : Nat) (vdata : vdata_t)
    (vlen complen vbidx vboff : Nat) :
    record_frame self (add_val_reuse P self seq vdata vlen complen vbidx vboff).2.1 ∧
    (add_val_reuse P self seq vdata vlen complen vbidx vboff).2.2 = vdata := by
  unfold add_val_reuse
  split_ifs <;> simp [record_frame, add_val_kmd]

theorem write_frame (P : params) (self : kvset_builder) (seq : Nat) (vdata : vdata_t)
    (vlen complen : Nat) (env : add_env) :
    record_frame self (add_val_write P self seq vdata vlen complen env).2.1 ∧
    (add_val_write P self seq vdata vlen complen env).2.2 = vdata := by
  unfold add_val_write
  by_cases h : env.vbb_add_entry.1 = .ok <;> simp [h, record_frame, add_val_kmd]

theorem ool_reused_eq (P : params) (self : kvset_builder) (seq : Nat) (vdata : vdata_t)
    (vlen complen : Nat) (c1 : Bool) (env : add_env) (vbidx vboff vbid : Nat)
    (hcv : (if c1 = true then env.vblock_exists else none) = some (vbidx, vboff, vbid)) :
    add_val_ool P self seq vdata vlen complen c1 env =
      add_val_reuse P self seq vdata vlen complen vbidx vboff := by
  unfold add_val_ool
  simp only [hcv]

theorem ool_written_eq (P : params) (self : kvset_builder) (seq : Nat) (vdata : vdata_t)
    (vlen complen : Nat) (c1 : Bool) (env : add_env)
    (hcv : (if c1 = true then env.vblock_exists else none) = none) :
    add_val_ool P self seq vdata vlen complen c1 env =
      add_val_write P (add_val_compress P self vdata vlen complen env).1 seq
        (add_val_compress P self vdata vlen complen env).2.1 vlen
        (add_val_compress P self vdata vlen complen env).2.2 env := by
  unfold add_val_ool
  simp only [hcv]

theorem ool_frame (P : params) (self : kvset_builder) (seq : Nat) (vdata : vdata_t)
    (vlen complen : Nat) (c1 : Bool) (env : add_env) :
    record_frame self (add_val_ool P self seq vdata vlen complen c1 env).2.1 := by
  obtain ⟨buf, sz, hc⟩ := compress_frame P self vdata vlen complen env
  rcases hcv : (if c1 = true then env.vblock_exists else none) with _ | ⟨vbidx, vboff, vbid⟩
  · rw [ool_written_eq _ _ _ _ _ _ _ _ hcv]
    have h := (write_frame P (add_val_compress P self vdata vlen complen env).1 seq
      (add_val_compress P self vdata vlen complen env).2.1 vlen
      (add_val_compress P self vdata vlen complen env).2.2 env).1
    rw [hc] at h ⊢
    exact h
  · rw [ool_reused_eq _ _ _ _ _ _ _ _ _ _ _ hcv]
    exact (reuse_frame _ _ _ _ _ _ _ _).1

theorem ool_vdata (P : params) (self : kvset_builder) (seq : Nat) (vdata : vdata_t)
    (vlen complen : Nat) (c1 : Bool) (env : add_env)
    (h : (add_val_ool P self seq vdata vlen complen c1 env).2.2 = .HSE_CORE_TOMB_PFX) :
    vdata = .HSE_CORE_TOMB_PFX := by
  rcases hcv : (if c1 = true then env.vblock_exists else none) with _ | ⟨vbidx, vboff, vbid⟩
  · rw [ool_written_eq _ _ _ _ _ _ _ _ hcv, (write_frame _ _ _ _ _ _ _).2] at h
    exact compress_vdata _ _ _ _ _ _ h
  · rw [ool_reused_eq _ _ _ _ _ _ _ _ _ _ _ hcv, (reuse_frame _ _ _ _ _ _ _ _).2] at h
    exact h

theorem record_frame_holds (P : params) (self : kvset_builder) (seq : Nat) (vdata : vdata_t)
    (vlen complen : Nat) (c1 : Bool) (env : add_env) :
    record_frame self (add_val_record P self seq vdata vlen complen c1 env).2.1 := by
  unfold add_val_record
  split_ifs
  · simp [record_frame]
  · simp [record_frame]
  · simp [record_frame]
  · simp [record_frame]
  · exact ool_frame _ _ _ _ _ _ _ _

theorem record_vdata (P : params) (self : kvset_builder) (seq : Nat) (vdata : vdata_t)
    (vlen complen : Nat) (c1 : Bool) (env : add_env) :
    (add_val_record P self seq vdata vlen complen c1 env).2.2 = .HSE_CORE_TOMB_PFX ↔
      vdata = .HSE_CORE_TOMB_PFX := by
  unfold add_val_record
  split_ifs with h1 h2 h3 h4
  · simp
  · simp
  · simp
  · simp
  · constructor
    · exact ool_vdata _ _ _ _ _ _ _ _
    · intro h
      exact absurd h h2

theorem reserve_frame (self : kvset_builder) (vdata : vdata_t) (env : add_env) :
    record_frame self (add_val_reserve self vdata env).2 ∧
    (add_val_reserve self vdata env).2.key_stats = self.key_stats ∧
    (add_val_reserve self vdata env).2.vused = self.vused ∧
    (add_val_reserve self vdata env).2.calls = self.calls := by
  unfold add_val_reserve
  dsimp only
  split_ifs <;> simp [record_frame]

theorem add_key_ok_seqno_prev (P : params) (s : kvset_builder) (kobj : Option (List Nat))
    (env : add_key_env) (h : (kvset_builder_add_key P s kobj env).1 = .ok) :
    (kvset_builder_add_key P s kobj env).2.key_stats.seqno_prev = U64_MAX ∧
    (kvset_builder_add_key P s kobj env).2.key_stats.seqno_prev_ptomb = U64_MAX := by
  unfold kvset_builder_add_key at h ⊢
  cases kobj with
  | none => simp at h
  | some key =>
    simp only [add_key_commit] at h ⊢
    split_ifs at h ⊢
    all_goals first
      | exact absurd h ‹_›
      | (simp at h; done)
      | simp [add_key_reset]

/-- The result of `kvset_builder_add_val` once the reservation and the record stage
are passed: the comparison of `seq` with the previous seqno of the stream. -/
theorem add_val_result_of_passed (P : params) (self : kvset_builder) (seq : Nat) (vdata : vdata_t)
    (vlen complen : Nat) (c1 : Bool) (env : add_env)
    (hres : (add_val_reserve self vdata env).1 = 0)
    (hrec : (add_val_record P (add_val_reserve self vdata env).2 seq vdata vlen complen c1 env).1
      = .ok) :
    (kvset_builder_add_val P self seq vdata vlen complen c1 env).1 =
      if seq > (if vdata = .HSE_CORE_TOMB_PFX then self.key_stats.seqno_prev_ptomb
          else self.key_stats.seqno_prev) then .EINVAL else .ok := by
  have hf := record_frame_holds P (add_val_reserve self vdata env).2 seq vdata vlen complen c1 env
  have hv := record_vdata P (add_val_reserve self vdata env).2 seq vdata vlen complen c1 env
  have hr := (reserve_frame self vdata env).2.1
  obtain ⟨-, -, hp, hpp, -⟩ := hf
  unfold kvset_builder_add_val
  simp only [hres, hrec, ne_eq, not_true_eq_false, if_false]
  unfold add_val_seqno
  dsimp only
  by_cases hpfx : vdata = .HSE_CORE_TOMB_PFX
  · rw [if_pos (hv.mpr hpfx), if_pos hpfx, hpp, hr]
    split_ifs <;> rfl
  · rw [if_neg (fun h => hpfx (hv.mp h)), if_neg hpfx, hp, hr]
    split_ifs <;> rfl

/-- C1: a `kvset_builder_add_val` call that gets past the KMD reservation and the
record stage (upstream-reuse check, value-block write) returns `EINVAL` exactly
when `seq` is greater than the previous seqno of its own stream
(`seqno_prev_ptomb` for `HSE_CORE_TOMB_PFX`, `seqno_prev` otherwise) and `0`
otherwise; so on a builder just created, or just returned by a successful
`kvset_builder_add_key`, every `u64` seq is accepted. -/
theorem add_val_einval_iff (P : params) (self : kvset_builder) (seq : Nat) (vdata : vdata_t)
    (vlen complen : Nat) (c1 : Bool) (env : add_env)
    (hres : (add_val_reserve self vdata env).1 = 0)
    (hrec : (add_val_record P (add_val_reserve self vdata env).2 seq vdata vlen complen c1 env).1
      = .ok) :
    ((kvset_builder_add_val P self seq vdata vlen complen c1 env).1 = .EINVAL ↔
      seq > (if vdata = .HSE_CORE_TOMB_PFX then self.key_stats.seqno_prev_ptomb
          else self.key_stats.seqno_prev)) ∧
    (¬ seq > (if vdata = .HSE_CORE_TOMB_PFX then self.key_stats.seqno_prev_ptomb
          else self.key_stats.seqno_prev) →
      (kvset_builder_add_val P self seq vdata vlen complen c1 env).1 = .ok) ∧
    (∀ cn cenv cl, kvset_builder_create P cn cenv = (.ok, some self, cl) → seq ≤ U64_MAX →
      (kvset_builder_add_val P self seq vdata vlen complen c1 env).1 = .ok) ∧
    (∀ s0 kobj kenv, kvset_builder_add_key P s0 kobj kenv = (.ok, self) → seq ≤ U64_MAX →
      (kvset_builder_add_val P self seq vdata vlen complen c1 env).1 = .ok) := by
  have hmain := add_val_result_of_passed P self seq vdata vlen complen c1 env hres hrec
  refine ⟨?_, ?_, ?_, ?_⟩
  · rw [hmain]
    split_ifs <;> simp_all
  · intro h
    rw [hmain, if_neg h]
  · intro cn cenv cl hc hseq
    have hb := create_ok_eq P cn cenv self cl hc
    rw [hmain, if_neg]
    rw [hb]
    simp only [fresh_builder, ite_self]
    omega
  · intro s0 kobj kenv hk hseq
    have h1 : (kvset_builder_add_key P s0 kobj kenv).1 = .ok := by rw [hk]
    have h2 := add_key_ok_seqno_prev P s0 kobj kenv h1
    rw [hk] at h2
    rw [hmain, if_neg]
    rw [h2.1, h2.2]
    simp only [ite_self]
    omega

theorem add_val_einval_iff_witness :
    (add_val_reserve bld_after_5a (.data [98]) env_good).1 = 0 ∧
    (add_val_record hse_params (add_val_reserve bld_after_5a (.data [98]) env_good).2 6
      (.data [98]) 1 0 false env_good).1 = .ok ∧
    ((kvset_builder_add_val hse_params bld_after_5a 6 (.data [98]) 1 0 false env_good).1 = .EINVAL ↔
      6 > (if vdata_t.data [98] = .HSE_CORE_TOMB_PFX then bld_after_5a.key_stats.seqno_prev_ptomb
          else bld_after_5a.key_stats.seqno_prev)) :=
  ⟨by decide, by decide,
    (add_val_einval_iff hse_params bld_after_5a 6 (.data [98]) 1 0 false env_good
      (by decide) (by decide)).1⟩

/-! ## What a passed `kvset_builder_add_val` call leaves -/

theorem add_val_ok_passed (P : params) (self : kvset_builder) (seq : Nat) (vdata : vdata_t)
    (vlen complen : Nat) (c1 : Bool) (env : add_env)
    (h : (kvset_builder_add_val P self seq vdata vlen complen c1 env).1 = .ok) :
    (add_val_reserve self vdata env).1 = 0 ∧
    (add_val_record P (add_val_reserve self vdata env).2 seq vdata vlen complen c1 env).1 = .ok := by
  by_cases h1 : (add_val_reserve self vdata env).1 = 0
  · by_cases h2 :
        (add_val_record P (add_val_reserve self vdata env).2 seq vdata vlen complen c1 env).1 = .ok
    · exact ⟨h1, h2⟩
    · unfold kvset_builder_add_val at h
      simp only [h1, h2, ne_eq, not_true_eq_false, not_false_eq_true, if_false, if_true] at h
  · unfold kvset_builder_add_val at h
    simp [h1] at h

theorem add_val_state_of_passed (P : params) (self : kvset_builder) (seq : Nat) (vdata : vdata_t)
    (vlen complen : Nat) (c1 : Bool) (env : add_env)
    (hres : (add_val_reserve self vdata env).1 = 0)
    (hrec : (add_val_record P (add_val_reserve self vdata env).2 seq vdata vlen complen c1 env).1
      = .ok) :
    (kvset_builder_add_val P self seq vdata vlen complen c1 env).2 =
      (add_val_seqno
        (add_val_record P (add_val_reserve self vdata env).2 seq vdata vlen complen c1 env).2.1 seq
        (add_val_record P (add_val_reserve self vdata env).2 seq vdata vlen complen c1 env).2.2).2 := by
  unfold kvset_builder_add_val
  simp only [hres, hrec, ne_eq, not_true_eq_false, if_false]

theorem seqno_state (self : kvset_builder) (seq : Nat) (vdata : vdata_t) :
    (add_val_seqno self seq vdata).2 =
      if vdata = .HSE_CORE_TOMB_PFX then
        { self with
          seqno_max := max self.seqno_max seq
          seqno_min := min self.seqno_min seq
          key_stats := { self.key_stats with seqno_prev_ptomb := seq } }
      else
        { self with
          seqno_max := max self.seqno_max seq
          seqno_min := min self.seqno_min seq
          key_stats :=
            { self.key_stats with
              nvals := (self.key_stats.nvals + 1) % UINT_MOD
              seqno_prev := seq } } := by
  unfold add_val_seqno
  dsimp only
  split_ifs <;> rfl

theorem written_omlen_append (a b : List ext_call) :
    written_omlen (a ++ b) = written_omlen a + written_omlen b := by
  induction a with
  | nil => simp [written_omlen]
  | cons c cs ih =>
    cases c <;> simp [written_omlen, ih]
    omega

theorem reuse_effect (P : params) (self : kvset_builder) (seq : Nat) (vdata : vdata_t)
    (vlen complen vbidx vboff : Nat)
    (h : (add_val_reuse P self seq vdata vlen complen vbidx vboff).1 = .ok) :
    complen = 0 ∧
    (add_val_reuse P self seq vdata vlen complen vbidx vboff).2.1 =
      { self with
        main := kmd_add P self.main (.val seq vbidx vboff vlen)
        vused := (self.vused + vlen) % U64_MOD
        key_stats :=
          { self.key_stats with
            c1_vlen := (self.key_stats.c1_vlen + vlen) % U64_MOD
            tot_vlen := (self.key_stats.tot_vlen + vlen) % U64_MOD } } := by
  unfold add_val_reuse at h ⊢
  by_cases hc : complen > 0
  · simp [hc] at h
  · have hz : complen = 0 := by omega
    subst hz
    simp [add_val_kmd, kmd_add_val]

theorem write_effect (P : params) (self : kvset_builder) (seq : Nat) (vdata : vdata_t)
    (vlen complen : Nat) (env : add_env)
    (h : (add_val_write P self seq vdata vlen complen env).1 = .ok) :
    (add_val_write P self seq vdata vlen complen env).2.1 =
      { self with
        calls := self.calls ++
          [ext_call.vbb_add_entry vdata (if complen ≠ 0 then complen else vlen)]
        main :=
          kmd_add P self.main
            (if complen ≠ 0 then
              .cval seq env.vbb_add_entry.2.2.1 env.vbb_add_entry.2.2.2 vlen complen
            else .val seq env.vbb_add_entry.2.2.1 env.vbb_add_entry.2.2.2 vlen)
        vused := (self.vused + (if complen ≠ 0 then complen else vlen)) % U64_MOD
        key_stats :=
          { self.key_stats with
            c0_vlen :=
              (self.key_stats.c0_vlen + (if complen ≠ 0 then complen else vlen)) % U64_MOD
            tot_vlen :=
              (self.key_stats.tot_vlen + (if complen ≠ 0 then complen else vlen)) % U64_MOD } } := by
  unfold add_val_write at h ⊢
  by_cases he : env.vbb_add_entry.1 = .ok
  · by_cases hc : complen = 0 <;> simp [he, hc, add_val_kmd, kmd_add_val, kmd_add_cval]
  · simp only [ne_eq, he, not_false_eq_true, if_true] at h

/-- The buffers after the record stage: a record has been appended to the buffer
of the stream and the other buffer is as before. -/
theorem record_appends (P : params) (self : kvset_builder) (seq : Nat) (vdata : vdata_t)
    (vlen complen : Nat) (c1 : Bool) (env : add_env)
    (h : (add_val_record P self seq vdata vlen complen c1 env).1 = .ok) :
    (vdata = .HSE_CORE_TOMB_PFX →
      (add_val_record P self seq vdata vlen complen c1 env).2.1.sec =
        kmd_add P self.sec (.ptomb seq) ∧
      (add_val_record P self seq vdata vlen complen c1 env).2.1.main = self.main) ∧
    (vdata ≠ .HSE_CORE_TOMB_PFX →
      (∃ r, (add_val_record P self seq vdata vlen complen c1 env).2.1.main =
        kmd_add P self.main r) ∧
      (add_val_record P self seq vdata vlen complen c1 env).2.1.sec = self.sec) := by
  obtain ⟨buf, sz, hc⟩ := compress_frame P self vdata vlen complen env
  unfold add_val_record at h ⊢
  split_ifs at h ⊢ with h1 h2 h3 h4
  · simp [h1, kmd_add_tomb]
  · simp [h2, kmd_add_ptomb]
  · simp [h2, kmd_add_zval]
  · simp [h2, kmd_add_ival]
  · refine ⟨fun hp => absurd hp h2, fun _ => ?_⟩
    rcases hcv : (if c1 = true then env.vblock_exists else none) with _ | ⟨vbidx, vboff, vbid⟩
    · rw [ool_written_eq _ _ _ _ _ _ _ _ hcv] at h ⊢
      rw [write_effect _ _ _ _ _ _ _ h, hc]
      exact ⟨⟨_, rfl⟩, rfl⟩
    · rw [ool_reused_eq _ _ _ _ _ _ _ _ _ _ _ hcv] at h ⊢
      rw [(reuse_effect _ _ _ _ _ _ _ _ h).2]
      exact ⟨⟨_, rfl⟩, rfl⟩

/-- The value-block writer calls and `vused` after the record stage. -/
theorem record_vused (P : params) (self : kvset_builder) (seq : Nat) (vdata : vdata_t)
    (vlen complen : Nat) (c1 : Bool) (env : add_env)
    (h : (add_val_record P self seq vdata vlen complen c1 env).1 = .ok) :
    ∃ nc,
      (add_val_record P self seq vdata vlen complen c1 env).2.1.calls = self.calls ++ nc ∧
      ((written_omlen nc + reused_omlen P (.add_val seq vdata vlen complen c1 env) = 0 ∧
          (add_val_record P self seq vdata vlen complen c1 env).2.1.vused = self.vused) ∨
        (add_val_record P self seq vdata vlen complen c1 env).2.1.vused =
          (self.vused + (written_omlen nc +
            reused_omlen P (.add_val seq vdata vlen complen c1 env))) % U64_MOD) := by
  obtain ⟨buf, sz, hc⟩ := compress_frame P self vdata vlen complen env
  unfold add_val_record at h ⊢
  split_ifs at h ⊢ with h1 h2 h3 h4
  · exact ⟨[], by simp, Or.inl ⟨by simp [written_omlen, reused_omlen, takes_ool, h1], rfl⟩⟩
  · exact ⟨[], by simp, Or.inl ⟨by simp [written_omlen, reused_omlen, takes_ool, h2], rfl⟩⟩
  · exact ⟨[], by simp, Or.inl ⟨by
      simp only [written_omlen, reused_omlen, takes_ool]
      rw [if_neg]
      exact fun hh => hh.1.2.2.1 h3, rfl⟩⟩
  · exact ⟨[], by simp, Or.inl ⟨by
      simp only [written_omlen, reused_omlen, takes_ool]
      rw [if_neg]
      exact fun hh => hh.1.2.2.2 h4, rfl⟩⟩
  · have hool : takes_ool P vdata vlen complen := ⟨h1, h2, h3, h4⟩
    rcases hcv : (if c1 = true then env.vblock_exists else none) with _ | ⟨vbidx, vboff, vbid⟩
    · have hfu : ¬ found_upstream c1 env := by
        unfold found_upstream
        cases c1 <;> simp_all
      rw [ool_written_eq _ _ _ _ _ _ _ _ hcv] at h ⊢
      rw [write_effect _ _ _ _ _ _ _ h, hc]
      refine ⟨[ext_call.vbb_add_entry _ _], rfl, Or.inr ?_⟩
      simp [written_omlen, reused_omlen, hfu]
    · have hfu : found_upstream c1 env := by
        unfold found_upstream
        cases c1 <;> simp_all
      rw [ool_reused_eq _ _ _ _ _ _ _ _ _ _ _ hcv] at h ⊢
      rw [(reuse_effect _ _ _ _ _ _ _ _ h).2]
      refine ⟨[], by simp, Or.inr ?_⟩
      simp [written_omlen, reused_omlen, hool, hfu]

theorem reserve_other (self : kvset_builder) (vdata : vdata_t) (env : add_env) :
    (vdata = .HSE_CORE_TOMB_PFX → (add_val_reserve self vdata env).2.main = self.main) ∧
    (vdata ≠ .HSE_CORE_TOMB_PFX → (add_val_reserve self vdata env).2.sec = self.sec) := by
  unfold add_val_reserve
  dsimp only
  split_ifs with h <;> simp [h]

/-- C2 (counterexample): after `(seq = 5, "a")` the call for `seq = 6` with a value of
nine bytes is rejected with `EINVAL`, yet the builder is not the one from before
the call: a record was appended to the main buffer, `nvals`, `tot_vlen`,
`c0_vlen`, `vused`, `seqno_max` and `seqno_prev` changed, and the nine bytes were
handed to the value-block writer. -/
theorem add_val_reject_changes_state :
    6 > bld_after_5a.key_stats.seqno_prev ∧
    (kvset_builder_add_val hse_params bld_after_5a 6 nine_bytes 9 0 false env_good).1 = .EINVAL ∧
    (kvset_builder_add_val hse_params bld_after_5a 6 nine_bytes 9 0 false env_good).2.main.kmd_used
      ≠ bld_after_5a.main.kmd_used ∧
    (kvset_builder_add_val hse_params bld_after_5a 6 nine_bytes 9 0 false env_good).2.key_stats.nvals
      ≠ bld_after_5a.key_stats.nvals ∧
    (kvset_builder_add_val hse_params bld_after_5a 6 nine_bytes 9 0 false env_good).2.key_stats.tot_vlen
      ≠ bld_after_5a.key_stats.tot_vlen ∧
    (kvset_builder_add_val hse_params bld_after_5a 6 nine_bytes 9 0 false env_good).2.key_stats.c0_vlen
      ≠ bld_after_5a.key_stats.c0_vlen ∧
    (kvset_builder_add_val hse_params bld_after_5a 6 nine_bytes 9 0 false
      env_good).2.key_stats.seqno_prev ≠ bld_after_5a.key_stats.seqno_prev ∧
    (kvset_builder_add_val hse_params bld_after_5a 6 nine_bytes 9 0 false env_good).2.vused
      ≠ bld_after_5a.vused ∧
    (kvset_builder_add_val hse_params bld_after_5a 6 nine_bytes 9 0 false env_good).2.seqno_max
      ≠ bld_after_5a.seqno_max ∧
    (kvset_builder_add_val hse_params bld_after_5a 6 nine_bytes 9 0 false env_good).2.calls =
      bld_after_5a.calls ++ [ext_call.vbb_add_entry nine_bytes 9] := by
  decide

/-- The state a `kvset_builder_add_val` call leaves once the reservation and the
record stage are passed, whatever the seqno comparison then says. -/
theorem add_val_passed_effect (P : params) (self : kvset_builder) (seq : Nat) (vdata : vdata_t)
    (vlen complen : Nat) (c1 : Bool) (env : add_env)
    (hres : (add_val_reserve self vdata env).1 = 0)
    (hrec : (add_val_record P (add_val_reserve self vdata env).2 seq vdata vlen complen c1 env).1
      = .ok) :
    (kvset_builder_add_val P self seq vdata vlen complen c1 env).2.seqno_max
      = max self.seqno_max seq ∧
    (kvset_builder_add_val P self seq vdata vlen complen c1 env).2.seqno_min
      = min self.seqno_min seq ∧
    (vdata = .HSE_CORE_TOMB_PFX →
      (kvset_builder_add_val P self seq vdata vlen complen c1 env).2.sec =
        kmd_add P (add_val_reserve self vdata env).2.sec (.ptomb seq) ∧
      (kvset_builder_add_val P self seq vdata vlen complen c1 env).2.key_stats.seqno_prev_ptomb
        = seq ∧
      (kvset_builder_add_val P self seq vdata vlen complen c1 env).2.main = self.main ∧
      (kvset_builder_add_val P self seq vdata vlen complen c1 env).2.key_stats.seqno_prev
        = self.key_stats.seqno_prev ∧
      (kvset_builder_add_val P self seq vdata vlen complen c1 env).2.key_stats.nvals
        = self.key_stats.nvals) ∧
    (vdata ≠ .HSE_CORE_TOMB_PFX →
      (∃ r, (kvset_builder_add_val P self seq vdata vlen complen c1 env).2.main =
        kmd_add P (add_val_reserve self vdata env).2.main r) ∧
      (kvset_builder_add_val P self seq vdata vlen complen c1 env).2.key_stats.seqno_prev = seq ∧
      (kvset_builder_add_val P self seq vdata vlen complen c1 env).2.key_stats.nvals
        = (self.key_stats.nvals + 1) % UINT_MOD ∧
      (kvset_builder_add_val P self seq vdata vlen complen c1 env).2.sec = self.sec ∧
      (kvset_builder_add_val P self seq vdata vlen complen c1 env).2.key_stats.seqno_prev_ptomb
        = self.key_stats.seqno_prev_ptomb) := by
  have hst := add_val_state_of_passed P self seq vdata vlen complen c1 env hres hrec
  have hf := record_frame_holds P (add_val_reserve self vdata env).2 seq vdata vlen complen c1 env
  have hv := record_vdata P (add_val_reserve self vdata env).2 seq vdata vlen complen c1 env
  have hap := record_appends P (add_val_reserve self vdata env).2 seq vdata vlen complen c1 env hrec
  obtain ⟨⟨hrmin, hrmax, hrp, hrpp, hrn, -⟩, hrk, -, -⟩ := reserve_frame self vdata env
  have hro := reserve_other self vdata env
  obtain ⟨hmin, hmax, hp, hpp, hn, -⟩ := hf
  rw [hst, seqno_state]
  refine ⟨?_, ?_, ?_, ?_⟩
  · split_ifs <;> simp [hmax, hrmax]
  · split_ifs <;> simp [hmin, hrmin]
  · intro hpfx
    rw [if_pos (hv.mpr hpfx)]
    obtain ⟨h1, h2⟩ := hap.1 hpfx
    refine ⟨h1, rfl, ?_, ?_, ?_⟩
    · simp only [h2, hro.1 hpfx]
    · simp only [hp, hrp]
    · simp only [hn, hrn]
  · intro hpfx
    rw [if_neg (fun h => hpfx (hv.mp h))]
    obtain ⟨h1, h2⟩ := hap.2 hpfx
    refine ⟨h1, rfl, ?_, ?_, ?_⟩
    · simp only [hn, hrn]
    · simp only [h2, hro.2 hpfx]
    · simp only [hpp, hrpp]

/-- C2 (amended): when `kvset_builder_add_val` rejects an entry because its seq is
greater than the previous seqno of its stream, the entry has already been
recorded: the call returns `EINVAL`, seq is folded into `seqno_max` and
`seqno_min`, a record is appended to the buffer of the stream and the previous
seqno of the stream is seq (with `nvals` one higher for the main stream); the
buffer and the previous seqno of the other stream are as before the call. -/
theorem add_val_reject_recorded (P : params) (self : kvset_builder) (seq : Nat) (vdata : vdata_t)
    (vlen complen : Nat) (c1 : Bool) (env : add_env)
    (hres : (add_val_reserve self vdata env).1 = 0)
    (hrec : (add_val_record P (add_val_reserve self vdata env).2 seq vdata vlen complen c1 env).1
      = .ok)
    (hgt : seq > (if vdata = .HSE_CORE_TOMB_PFX then self.key_stats.seqno_prev_ptomb
      else self.key_stats.seqno_prev)) :
    (kvset_builder_add_val P self seq vdata vlen complen c1 env).1 = .EINVAL ∧
    (kvset_builder_add_val P self seq vdata vlen complen c1 env).2.seqno_max
      = max self.seqno_max seq ∧
    (kvset_builder_add_val P self seq vdata vlen complen c1 env).2.seqno_min
      = min self.seqno_min seq ∧
    (vdata = .HSE_CORE_TOMB_PFX →
      (kvset_builder_add_val P self seq vdata vlen complen c1 env).2.sec =
        kmd_add P (add_val_reserve self vdata env).2.sec (.ptomb seq) ∧
      (kvset_builder_add_val P self seq vdata vlen complen c1 env).2.key_stats.seqno_prev_ptomb
        = seq ∧
      (kvset_builder_add_val P self seq vdata vlen complen c1 env).2.main = self.main ∧
      (kvset_builder_add_val P self seq vdata vlen complen c1 env).2.key_stats.seqno_prev
        = self.key_stats.seqno_prev ∧
      (kvset_builder_add_val P self seq vdata vlen complen c1 env).2.key_stats.nvals
        = self.key_stats.nvals) ∧
    (vdata ≠ .HSE_CORE_TOMB_PFX →
      (∃ r, (kvset_builder_add_val P self seq vdata vlen complen c1 env).2.main =
        kmd_add P (add_val_reserve self vdata env).2.main r) ∧
      (kvset_builder_add_val P self seq vdata vlen complen c1 env).2.key_stats.seqno_prev = seq ∧
      (kvset_builder_add_val P self seq vdata vlen complen c1 env).2.key_stats.nvals
        = (self.key_stats.nvals + 1) % UINT_MOD ∧
      (kvset_builder_add_val P self seq vdata vlen complen c1 env).2.sec = self.sec ∧
      (kvset_builder_add_val P self seq vdata vlen complen c1 env).2.key_stats.seqno_prev_ptomb
        = self.key_stats.seqno_prev_ptomb) :=
  ⟨by rw [add_val_result_of_passed P self seq vdata vlen complen c1 env hres hrec, if_pos hgt],
    add_val_passed_effect P self seq vdata vlen complen c1 env hres hrec⟩

theorem add_val_reject_recorded_witness :
    (kvset_builder_add_val hse_params bld_after_5a 6 nine_bytes 9 0 false env_good).1 = .EINVAL ∧
    (kvset_builder_add_val hse_params bld_after_5a 6 nine_bytes 9 0 false env_good).2.seqno_max
      = max bld_after_5a.seqno_max 6 :=
  ⟨(add_val_reject_recorded hse_params bld_after_5a 6 nine_bytes 9 0 false env_good
      (by decide) (by decide) (by decide)).1,
    (add_val_reject_recorded hse_params bld_after_5a 6 nine_bytes 9 0 false env_good
      (by decide) (by decide) (by decide)).2.1⟩

/-! ## Seqno order within a key -/

theorem add_val_ok_prev (P : params) (self : kvset_builder) (seq : Nat) (vdata : vdata_t)
    (vlen complen : Nat) (c1 : Bool) (env : add_env)
    (h : (kvset_builder_add_val P self seq vdata vlen complen c1 env).1 = .ok) :
    (vdata = .HSE_CORE_TOMB_PFX →
      seq ≤ self.key_stats.seqno_prev_ptomb ∧
      (kvset_builder_add_val P self seq vdata vlen complen c1 env).2.key_stats.seqno_prev_ptomb
        = seq ∧
      (kvset_builder_add_val P self seq vdata vlen complen c1 env).2.key_stats.seqno_prev
        = self.key_stats.seqno_prev) ∧
    (vdata ≠ .HSE_CORE_TOMB_PFX →
      seq ≤ self.key_stats.seqno_prev ∧
      (kvset_builder_add_val P self seq vdata vlen complen c1 env).2.key_stats.seqno_prev = seq ∧
      (kvset_builder_add_val P self seq vdata vlen complen c1 env).2.key_stats.seqno_prev_ptomb
        = self.key_stats.seqno_prev_ptomb) := by
  obtain ⟨hres, hrec⟩ := add_val_ok_passed P self seq vdata vlen complen c1 env h
  have hmain := add_val_result_of_passed P self seq vdata vlen complen c1 env hres hrec
  obtain ⟨-, -, e1, e2⟩ := add_val_passed_effect P self seq vdata vlen complen c1 env hres hrec
  rw [h] at hmain
  constructor
  · intro hp
    rw [if_pos hp] at hmain
    refine ⟨?_, (e1 hp).2.1, (e1 hp).2.2.2.1⟩
    by_contra hc
    rw [if_pos (by omega)] at hmain
    exact absurd hmain (by simp)
  · intro hp
    rw [if_neg hp] at hmain
    refine ⟨?_, (e2 hp).2.1, (e2 hp).2.2.2.2⟩
    by_contra hc
    rw [if_pos (by omega)] at hmain
    exact absurd hmain (by simp)

theorem add_vref_prev (P : params) (self : kvset_builder) (seq vbidx vboff vlen complen : Nat)
    (env : add_env) :
    (kvset_builder_add_vref P self seq vbidx vboff vlen complen env).2.key_stats.seqno_prev
      = self.key_stats.seqno_prev ∧
    (kvset_builder_add_vref P self seq vbidx vboff vlen complen env).2.key_stats.seqno_prev_ptomb
      = self.key_stats.seqno_prev_ptomb := by
  unfold kvset_builder_add_vref
  dsimp only
  split_ifs <;> simp

theorem add_nonval_prev (P : params) (self : kvset_builder) (seq : Nat) (vtype : kmd_vtype)
    (env : add_env) :
    (kvset_builder_add_nonval P self seq vtype env).2.key_stats.seqno_prev
      = self.key_stats.seqno_prev ∧
    (kvset_builder_add_nonval P self seq vtype env).2.key_stats.seqno_prev_ptomb
      = self.key_stats.seqno_prev_ptomb := by
  unfold kvset_builder_add_nonval
  dsimp only
  split_ifs <;> simp

/-- C3 (counterexample): two `kvset_builder_add_val` calls for one key with the same
seq 5 both return `0`, so the seqnos accepted on the main stream, `[5, 5]`, are
not strictly descending. -/
theorem add_val_equal_seq_accepted :
    (run_ok hse_params (fresh_builder hse_params cn_plain)
      [.add_val 5 (.data [97]) 1 0 false env_good,
        .add_val 5 (.data [98]) 1 0 false env_good]).isSome = true ∧
    stream_seqs false
      [.add_val 5 (.data [97]) 1 0 false env_good,
        .add_val 5 (.data [98]) 1 0 false env_good] = [5, 5] ∧
    ¬ List.Chain' (fun a b => b < a) [5, 5] := by
  refine ⟨by decide, by decide, by simp⟩

/-- C3 (amended): when every call of a sequence without `add_key` returns `0`, the
seqnos of the `add_val` calls of each stream (main, and ptomb-secondary) never
increase: each is less than or equal to the one accepted before it on the same
stream, the first being at most the previous seqno the stream had at the start. -/
theorem add_val_seqs_nonincreasing (P : params) (ops : List op) (s t : kvset_builder)
    (hk : ∀ o ∈ ops, is_add_key o = false) (hrun : run_ok P s ops = some t) :
    List.Chain (fun a b => b ≤ a) s.key_stats.seqno_prev (stream_seqs false ops) ∧
    List.Chain (fun a b => b ≤ a) s.key_stats.seqno_prev_ptomb (stream_seqs true ops) := by
  induction ops generalizing s with
  | nil => simp [stream_seqs]
  | cons o os ih =>
    have hk2 : ∀ o ∈ os, is_add_key o = false := fun x hx => hk x (List.mem_cons_of_mem _ hx)
    have hko := hk o (List.mem_cons_self _ _)
    unfold run_ok at hrun
    split_ifs at hrun with hok
    have ih2 := ih (step P s o).2 hk2 hrun
    cases o with
    | add_val seq vdata vlen complen c1 env =>
      have hp := add_val_ok_prev P s seq vdata vlen complen c1 env hok
      simp only [step] at ih2
      by_cases hpfx : vdata = .HSE_CORE_TOMB_PFX
      · obtain ⟨h1, h2, h3⟩ := hp.1 hpfx
        rw [h2, h3] at ih2
        simp only [stream_seqs, hpfx, decide_True, Bool.true_eq_false, if_false, if_true]
        exact ⟨ih2.1, List.Chain.cons h1 ih2.2⟩
      · obtain ⟨h1, h2, h3⟩ := hp.2 hpfx
        rw [h2, h3] at ih2
        simp only [stream_seqs, hpfx, decide_False, Bool.false_eq_true, if_false, if_true]
        exact ⟨List.Chain.cons h1 ih2.1, ih2.2⟩
    | add_vref seq vbidx vboff vlen complen env =>
      have hp := add_vref_prev P s seq vbidx vboff vlen complen env
      simp only [step] at ih2
      rw [hp.1, hp.2] at ih2
      simpa only [stream_seqs] using ih2
    | add_nonval seq vtype env =>
      have hp := add_nonval_prev P s seq vtype env
      simp only [step] at ih2
      rw [hp.1, hp.2] at ih2
      simpa only [stream_seqs] using ih2
    | add_key kobj env => simp [is_add_key] at hko

theorem add_val_seqs_nonincreasing_witness :
    List.Chain (fun a b => b ≤ a) (fresh_builder hse_params cn_plain).key_stats.seqno_prev
      (stream_seqs false
        [.add_val 30 (.data [118, 51]) 2 0 false env_good,
          .add_val 7 .HSE_CORE_TOMB_PFX 0 0 false env_good,
          .add_val 20 (.data [118, 50]) 2 0 false env_good]) :=
  (add_val_seqs_nonincreasing hse_params
    [.add_val 30 (.data [118, 51]) 2 0 false env_good,
      .add_val 7 .HSE_CORE_TOMB_PFX 0 0 false env_good,
      .add_val 20 (.data [118, 50]) 2 0 false env_good]
    (fresh_builder hse_params cn_plain)
    (run_any hse_params (fresh_builder hse_params cn_plain)
      [.add_val 30 (.data [118, 51]) 2 0 false env_good,
        .add_val 7 .HSE_CORE_TOMB_PFX 0 0 false env_good,
        .add_val 20 (.data [118, 50]) 2 0 false env_good])
    (by decide) (by rfl)).1

/-! ## `kvset_builder_add_nonval` and the seqno order -/

/-- C4 (counterexample): after a tombstone with seq 5 was accepted by
`kvset_builder_add_nonval`, a tombstone with the greater seq 6 for the same key
returns `0`; the same holds for two prefix tombstones on the secondary stream. -/
theorem add_nonval_accepts_greater_seq :
    (kvset_builder_add_nonval hse_params (fresh_builder hse_params cn_plain) 5 .vtype_tomb
      env_good).1 = .ok ∧
    (kvset_builder_add_nonval hse_params
      (kvset_builder_add_nonval hse_params (fresh_builder hse_params cn_plain) 5 .vtype_tomb
        env_good).2 6 .vtype_tomb env_good).1 = .ok ∧
    (kvset_builder_add_nonval hse_params (fresh_builder hse_params cn_plain) 5 .vtype_ptomb
      env_good).1 = .ok ∧
    (kvset_builder_add_nonval hse_params
      (kvset_builder_add_nonval hse_params (fresh_builder hse_params cn_plain) 5 .vtype_ptomb
        env_good).2 6 .vtype_ptomb env_good).1 = .ok := by
  decide

/-- C4 (amended): `kvset_builder_add_nonval` makes no seqno comparison: a tomb or
ptomb call whose KMD reservation succeeds returns `0` for every seq, whatever
was accepted before on its stream, and it leaves `seqno_prev` and
`seqno_prev_ptomb` as they were. -/
theorem add_nonval_no_seqno_check (P : params) (self : kvset_builder) (seq : Nat)
    (vtype : kmd_vtype) (env : add_env)
    (hv : vtype = .vtype_tomb ∨ vtype = .vtype_ptomb)
    (hres : (reserve_kmd env.malloc_kmd
      (if vtype = .vtype_ptomb then self.sec else self.main)).1 = 0) :
    (kvset_builder_add_nonval P self seq vtype env).1 = .ok ∧
    (kvset_builder_add_nonval P self seq vtype env).2.key_stats.seqno_prev
      = self.key_stats.seqno_prev ∧
    (kvset_builder_add_nonval P self seq vtype env).2.key_stats.seqno_prev_ptomb
      = self.key_stats.seqno_prev_ptomb := by
  refine ⟨?_, add_nonval_prev P self seq vtype env⟩
  unfold kvset_builder_add_nonval
  rcases hv with hv | hv <;> subst hv <;> simp at hres <;> simp [hres]

theorem add_nonval_no_seqno_check_witness :
    (kvset_builder_add_nonval hse_params
      (kvset_builder_add_nonval hse_params (fresh_builder hse_params cn_plain) 5 .vtype_tomb
        env_good).2 6 .vtype_tomb env_good).1 = .ok :=
  (add_nonval_no_seqno_check hse_params
    (kvset_builder_add_nonval hse_params (fresh_builder hse_params cn_plain) 5 .vtype_tomb
      env_good).2 6 .vtype_tomb env_good (Or.inl rfl) (by decide)).1

/-! ## `seqno_min` and `seqno_max` -/

theorem add_val_seqno_cases (P : params) (self : kvset_builder) (seq : Nat) (vdata : vdata_t)
    (vlen complen : Nat) (c1 : Bool) (env : add_env) :
    ((kvset_builder_add_val P self seq vdata vlen complen c1 env).1 ≠ .ok ∧
      (kvset_builder_add_val P self seq vdata vlen complen c1 env).2.seqno_min = self.seqno_min ∧
      (kvset_builder_add_val P self seq vdata vlen complen c1 env).2.seqno_max = self.seqno_max) ∨
    ((kvset_builder_add_val P self seq vdata vlen complen c1 env).2.seqno_min
        = min self.seqno_min seq ∧
      (kvset_builder_add_val P self seq vdata vlen complen c1 env).2.seqno_max
        = max self.seqno_max seq) := by
  by_cases h1 : (add_val_reserve self vdata env).1 = 0
  · by_cases h2 :
        (add_val_record P (add_val_reserve self vdata env).2 seq vdata vlen complen c1 env).1 = .ok
    · obtain ⟨e1, e2, -⟩ := add_val_passed_effect P self seq vdata vlen complen c1 env h1 h2
      exact Or.inr ⟨e2, e1⟩
    · left
      obtain ⟨hmin, hmax, -⟩ :=
        record_frame_holds P (add_val_reserve self vdata env).2 seq vdata vlen complen c1 env
      obtain ⟨⟨hrmin, hrmax, -⟩, -⟩ := reserve_frame self vdata env
      unfold kvset_builder_add_val
      simp only [h1, h2, ne_eq, not_true_eq_false, not_false_eq_true, if_false, if_true]
      exact ⟨trivial, by rw [hmin, hrmin], by rw [hmax, hrmax]⟩
  · left
    obtain ⟨⟨hrmin, hrmax, -⟩, -⟩ := reserve_frame self vdata env
    unfold kvset_builder_add_val
    simp only [h1, ne_eq, not_false_eq_true, if_true]
    exact ⟨by simp, hrmin, hrmax⟩

theorem add_vref_seqno_cases (P : params) (self : kvset_builder) (seq vbidx vboff vlen complen : Nat)
    (env : add_env) :
    ((kvset_builder_add_vref P self seq vbidx vboff vlen complen env).1 ≠ .ok ∧
      (kvset_builder_add_vref P self seq vbidx vboff vlen complen env).2.seqno_min
        = self.seqno_min ∧
      (kvset_builder_add_vref P self seq vbidx vboff vlen complen env).2.seqno_max
        = self.seqno_max) ∨
    ((kvset_builder_add_vref P self seq vbidx vboff vlen complen env).2.seqno_min
        = min self.seqno_min seq ∧
      (kvset_builder_add_vref P self seq vbidx vboff vlen complen env).2.seqno_max
        = max self.seqno_max seq) := by
  unfold kvset_builder_add_vref
  dsimp only
  split_ifs <;> simp

theorem add_nonval_seqno_cases (P : params) (self : kvset_builder) (seq : Nat) (vtype : kmd_vtype)
    (env : add_env) :
    ((kvset_builder_add_nonval P self seq vtype env).1 ≠ .ok ∧
      (kvset_builder_add_nonval P self seq vtype env).2.seqno_min = self.seqno_min ∧
      (kvset_builder_add_nonval P self seq vtype env).2.seqno_max = self.seqno_max) ∨
    ((kvset_builder_add_nonval P self seq vtype env).2.seqno_min = min self.seqno_min seq ∧
      (kvset_builder_add_nonval P self seq vtype env).2.seqno_max = max self.seqno_max seq) := by
  unfold kvset_builder_add_nonval
  dsimp only
  split_ifs <;> simp

theorem add_key_seqno (P : params) (self : kvset_builder) (kobj : Option (List Nat))
    (env : add_key_env) :
    (kvset_builder_add_key P self kobj env).2.seqno_min = self.seqno_min ∧
    (kvset_builder_add_key P self kobj env).2.seqno_max = self.seqno_max := by
  unfold kvset_builder_add_key
  cases kobj with
  | none => simp
  | some key =>
    simp only [add_key_commit, add_key_ptomb, add_key_entry, add_key_reset]
    split_ifs <;> simp

/-- What one call does to `seqno_min` and `seqno_max`: a call that returns `0` folds
its seq in (an `add_key` has none and changes neither); a call that returns an
error leaves both or folds its seq in. -/
theorem step_seqno (P : params) (s : kvset_builder) (o : op) :
    ((step P s o).1 = .ok →
      (step P s o).2.seqno_min = (match op_seq o with
        | some q => min s.seqno_min q
        | none => s.seqno_min) ∧
      (step P s o).2.seqno_max = (match op_seq o with
        | some q => max s.seqno_max q
        | none => s.seqno_max)) ∧
    (((step P s o).2.seqno_min = s.seqno_min ∧ (step P s o).2.seqno_max = s.seqno_max) ∨
      ∃ q, (step P s o).2.seqno_min = min s.seqno_min q ∧
        (step P s o).2.seqno_max = max s.seqno_max q) := by
  cases o with
  | add_val seq vdata vlen complen c1 env =>
    simp only [step, op_seq]
    rcases add_val_seqno_cases P s seq vdata vlen complen c1 env with h | h
    · exact ⟨fun hok => absurd hok h.1, Or.inl h.2⟩
    · exact ⟨fun _ => h, Or.inr ⟨seq, h⟩⟩
  | add_vref seq vbidx vboff vlen complen env =>
    simp only [step, op_seq]
    rcases add_vref_seqno_cases P s seq vbidx vboff vlen complen env with h | h
    · exact ⟨fun hok => absurd hok h.1, Or.inl h.2⟩
    · exact ⟨fun _ => h, Or.inr ⟨seq, h⟩⟩
  | add_nonval seq vtype env =>
    simp only [step, op_seq]
    rcases add_nonval_seqno_cases P s seq vtype env with h | h
    · exact ⟨fun hok => absurd hok h.1, Or.inl h.2⟩
    · exact ⟨fun _ => h, Or.inr ⟨seq, h⟩⟩
  | add_key kobj env =>
    simp only [step, op_seq]
    exact ⟨fun _ => add_key_seqno P s kobj env, Or.inl (add_key_seqno P s kobj env)⟩

theorem run_ok_seqno (P : params) (ops : List op) (s t : kvset_builder)
    (hrun : run_ok P s ops = some t) :
    t.seqno_min = (ops.filterMap op_seq).foldl min s.seqno_min ∧
    t.seqno_max = (ops.filterMap op_seq).foldl max s.seqno_max := by
  induction ops generalizing s with
  | nil =>
    simp only [run_ok, Option.some.injEq] at hrun
    simp [hrun]
  | cons o os ih =>
    unfold run_ok at hrun
    split_ifs at hrun with hok
    obtain ⟨h1, h2⟩ := ih _ hrun
    obtain ⟨e1, e2⟩ := (step_seqno P s o).1 hok
    rw [h1, h2, e1, e2]
    cases hq : op_seq o <;> simp [List.filterMap_cons, hq]

theorem foldl_min_le (l : List Nat) (a : Nat) :
    l.foldl min a ≤ a ∧ (∀ q ∈ l, l.foldl min a ≤ q) ∧ (l.foldl min a = a ∨ l.foldl min a ∈ l) := by
  induction l generalizing a with
  | nil => simp
  | cons x xs ih =>
    obtain ⟨h1, h2, h3⟩ := ih (min a x)
    simp only [List.foldl_cons, List.mem_cons]
    refine ⟨by omega, ?_, ?_⟩
    · intro q hq
      rcases hq with hq | hq
      · subst hq
        omega
      · exact h2 q hq
    · rcases h3 with h3 | h3
      · rcases Nat.le_total a x with hax | hax
        · left
          rw [h3]
          exact Nat.min_eq_left hax
        · right
          left
          rw [h3]
          exact Nat.min_eq_right hax
      · exact Or.inr (Or.inr h3)

theorem foldl_max_ge (l : List Nat) (a : Nat) :
    a ≤ l.foldl max a ∧ (∀ q ∈ l, q ≤ l.foldl max a) ∧ (l.foldl max a = a ∨ l.foldl max a ∈ l) := by
  induction l generalizing a with
  | nil => simp
  | cons x xs ih =>
    obtain ⟨h1, h2, h3⟩ := ih (max a x)
    simp only [List.foldl_cons, List.mem_cons]
    refine ⟨by omega, ?_, ?_⟩
    · intro q hq
      rcases hq with hq | hq
      · subst hq
        omega
      · exact h2 q hq
    · rcases h3 with h3 | h3
      · rcases Nat.le_total a x with hax | hax
        · right
          left
          rw [h3]
          exact Nat.max_eq_right hax
        · left
          rw [h3]
          exact Nat.max_eq_left hax
      · exact Or.inr (Or.inr h3)

theorem get_mblocks_stats (P : params) (self : kvset_builder) (mblks : kvset_mblocks)
    (env : finish_env) (h : (kvset_builder_get_mblocks P self mblks env).1 = .ok) :
    (kvset_builder_get_mblocks P self mblks env).2.2.bl_seqno_min = self.seqno_min ∧
    (kvset_builder_get_mblocks P self mblks env).2.2.bl_seqno_max = self.seqno_max ∧
    (kvset_builder_get_mblocks P self mblks env).2.2.bl_vused = self.vused := by
  have hf : (kvset_builder_finish self env).2.seqno_min = self.seqno_min ∧
      (kvset_builder_finish self env).2.seqno_max = self.seqno_max ∧
      (kvset_builder_finish self env).2.vused = self.vused := by
    unfold kvset_builder_finish
    dsimp only
    split_ifs <;> simp
  unfold kvset_builder_get_mblocks at h ⊢
  dsimp only at h ⊢
  split_ifs at h ⊢ with h1 h2
  · exact absurd h h1
  · exact hf
  · exact hf

/-- C5: when every call of a sequence of `add_val`, `add_vref`, `add_nonval` and
`add_key` calls on a freshly created builder returns `0`, `seqno_min` is the
least and `seqno_max` the greatest of the seq arguments of the entry-adding
calls, they are `U64_MAX` and `0` when there is no such call, and
`kvset_builder_get_mblocks` reports the two as `bl_seqno_min` and
`bl_seqno_max`. -/
theorem seqno_min_max_of_run (P : params) (cn : cn_t) (cenv : create_env) (b : kvset_builder)
    (cl : List ext_call) (ops : List op) (t : kvset_builder)
    (hc : kvset_builder_create P cn cenv = (.ok, some b, cl))
    (hrun : run_ok P b ops = some t)
    (hseq : ∀ q ∈ ops.filterMap op_seq, q ≤ U64_MAX) :
    (ops.filterMap op_seq = [] → t.seqno_min = U64_MAX ∧ t.seqno_max = 0) ∧
    (ops.filterMap op_seq ≠ [] →
      t.seqno_min ∈ ops.filterMap op_seq ∧ (∀ q ∈ ops.filterMap op_seq, t.seqno_min ≤ q) ∧
      t.seqno_max ∈ ops.filterMap op_seq ∧ (∀ q ∈ ops.filterMap op_seq, q ≤ t.seqno_max)) ∧
    (∀ mblks fenv, (kvset_builder_get_mblocks P t mblks fenv).1 = .ok →
      (kvset_builder_get_mblocks P t mblks fenv).2.2.bl_seqno_min = t.seqno_min ∧
      (kvset_builder_get_mblocks P t mblks fenv).2.2.bl_seqno_max = t.seqno_max) := by
  have hb := create_ok_eq P cn cenv b cl hc
  obtain ⟨hmin, hmax⟩ := run_ok_seqno P ops b t hrun
  have hbmin : b.seqno_min = U64_MAX := by rw [hb]; rfl
  have hbmax : b.seqno_max = 0 := by rw [hb]; rfl
  rw [hbmin] at hmin
  rw [hbmax] at hmax
  obtain ⟨m1, m2, m3⟩ := foldl_min_le (ops.filterMap op_seq) U64_MAX
  obtain ⟨x1, x2, x3⟩ := foldl_max_ge (ops.filterMap op_seq) 0
  rw [← hmin] at m1 m2 m3
  rw [← hmax] at x1 x2 x3
  refine ⟨?_, ?_, ?_⟩
  · intro hnil
    rw [hmin, hmax, hnil]
    simp
  · intro hne
    obtain ⟨q0, hq0⟩ := List.exists_mem_of_ne_nil _ hne
    refine ⟨?_, m2, ?_, x2⟩
    · rcases m3 with m3 | m3
      · have h1 := m2 q0 hq0
        have h2 := hseq q0 hq0
        have : q0 = t.seqno_min := by omega
        rw [← this]
        exact hq0
      · exact m3
    · rcases x3 with x3 | x3
      · have h1 := x2 q0 hq0
        have : q0 = t.seqno_max := by omega
        rw [← this]
        exact hq0
      · exact x3
  · intro mblks fenv hok
    obtain ⟨g1, g2, -⟩ := get_mblocks_stats P t mblks fenv hok
    exact ⟨g1, g2⟩

theorem seqno_min_max_of_run_witness :
    (run_any hse_params (fresh_builder hse_params cn_plain) ops_30_20_10).key_stats.nvals = 3 ∧
    (run_any hse_params (fresh_builder hse_params cn_plain) ops_30_20_10).seqno_min = 10 ∧
    (run_any hse_params (fresh_builder hse_params cn_plain) ops_30_20_10).seqno_max = 30 ∧
    ((run_any hse_params (fresh_builder hse_params cn_plain) ops_30_20_10).seqno_min
        ∈ ops_30_20_10.filterMap op_seq ∧
      (∀ q ∈ ops_30_20_10.filterMap op_seq,
        (run_any hse_params (fresh_builder hse_params cn_plain) ops_30_20_10).seqno_min ≤ q) ∧
      (run_any hse_params (fresh_builder hse_params cn_plain) ops_30_20_10).seqno_max
        ∈ ops_30_20_10.filterMap op_seq ∧
      (∀ q ∈ ops_30_20_10.filterMap op_seq,
        q ≤ (run_any hse_params (fresh_builder hse_params cn_plain) ops_30_20_10).seqno_max)) :=
  ⟨by decide, by decide, by decide,
    (seqno_min_max_of_run hse_params cn_plain
      { malloc := true, kbb_create := .ok, vbb_create := .ok }
      (fresh_builder hse_params cn_plain) [ext_call.kbb_create, ext_call.vbb_create] ops_30_20_10
      (run_any hse_params (fresh_builder hse_params cn_plain) ops_30_20_10)
      (by rfl) (by rfl) (by decide)).2.1 (by decide)⟩

/-! ## `seqno_min ≤ seqno_max` -/

theorem run_any_seqno_le (P : params) (ops : List op) (s : kvset_builder)
    (h : s.seqno_min ≤ s.seqno_max ∨ 0 < accepted P s ops) :
    (run_any P s ops).seqno_min ≤ (run_any P s ops).seqno_max := by
  induction ops generalizing s with
  | nil =>
    rcases h with h | h
    · exact h
    · simp [accepted] at h
  | cons o os ih =>
    simp only [run_any]
    apply ih
    obtain ⟨hok, hany⟩ := step_seqno P s o
    rcases h with h | h
    · left
      rcases hany with ⟨e1, e2⟩ | ⟨q, e1, e2⟩
      · rw [e1, e2]
        exact h
      · rw [e1, e2]
        omega
    · unfold accepted at h
      by_cases hacc : (op_seq o).isSome = true ∧ (step P s o).1 = .ok
      · left
        obtain ⟨e1, e2⟩ := hok hacc.2
        obtain ⟨q, hq⟩ := Option.isSome_iff_exists.mp hacc.1
        rw [e1, e2, hq]
        exact le_trans (min_le_right _ _) (le_max_right _ _)
      · right
        rw [if_neg hacc] at h
        omega

theorem run_any_seqno_inv (P : params) (ops : List op) (s : kvset_builder)
    (h : (s.seqno_min = U64_MAX ∧ s.seqno_max = 0) ∨ s.seqno_min ≤ s.seqno_max) :
    ((run_any P s ops).seqno_min = U64_MAX ∧ (run_any P s ops).seqno_max = 0) ∨
      (run_any P s ops).seqno_min ≤ (run_any P s ops).seqno_max := by
  induction ops generalizing s with
  | nil => exact h
  | cons o os ih =>
    simp only [run_any]
    apply ih
    rcases (step_seqno P s o).2 with ⟨e1, e2⟩ | ⟨q, e1, e2⟩
    · rw [e1, e2]
      exact h
    · right
      rw [e1, e2]
      omega

/-- C6 (counterexample): in the builder `kvset_builder_create` returns, before any
entry has been added, `seqno_min` is `U64_MAX` and `seqno_max` is `0`, so
`seqno_min ≤ seqno_max` does not hold. -/
theorem create_seqno_min_gt_max :
    kvset_builder_create hse_params cn_plain
      { malloc := true, kbb_create := .ok, vbb_create := .ok } =
      (.ok, some (fresh_builder hse_params cn_plain), [ext_call.kbb_create, ext_call.vbb_create]) ∧
    ¬ (fresh_builder hse_params cn_plain).seqno_min ≤ (fresh_builder hse_params cn_plain).seqno_max :=
  ⟨by rfl, by decide⟩

/-- C6 (amended): in every builder state reached from `kvset_builder_create` by
`add_val`, `add_vref`, `add_nonval` and `add_key` calls (whatever they return),
either no seq has been folded in yet and `seqno_min = U64_MAX`, `seqno_max = 0`,
or `seqno_min ≤ seqno_max`; and `seqno_min ≤ seqno_max` holds as soon as one
entry-adding call has returned `0`. -/
theorem seqno_min_le_max_reachable (P : params) (cn : cn_t) (cenv : create_env)
    (b : kvset_builder) (cl : List ext_call) (ops : List op)
    (hc : kvset_builder_create P cn cenv = (.ok, some b, cl)) :
    (((run_any P b ops).seqno_min = U64_MAX ∧ (run_any P b ops).seqno_max = 0) ∨
      (run_any P b ops).seqno_min ≤ (run_any P b ops).seqno_max) ∧
    (0 < accepted P b ops → (run_any P b ops).seqno_min ≤ (run_any P b ops).seqno_max) := by
  have hb := create_ok_eq P cn cenv b cl hc
  refine ⟨run_any_seqno_inv P ops b (Or.inl ?_), fun h => run_any_seqno_le P ops b (Or.inr h)⟩
  rw [hb]
  exact ⟨rfl, rfl⟩

theorem seqno_min_le_max_reachable_witness :
    0 < accepted hse_params (fresh_builder hse_params cn_plain) ops_30_20_10 ∧
    (run_any hse_params (fresh_builder hse_params cn_plain) ops_30_20_10).seqno_min ≤
      (run_any hse_params (fresh_builder hse_params cn_plain) ops_30_20_10).seqno_max :=
  ⟨by decide,
    (seqno_min_le_max_reachable hse_params cn_plain
      { malloc := true, kbb_create := .ok, vbb_create := .ok }
      (fresh_builder hse_params cn_plain) [ext_call.kbb_create, ext_call.vbb_create] ops_30_20_10
      (by rfl)).2 (by decide)⟩

/-! ## `vused` -/

theorem add_val_ok_vused (P : params) (self : kvset_builder) (seq : Nat) (vdata : vdata_t)
    (vlen complen : Nat) (c1 : Bool) (env : add_env)
    (h : (kvset_builder_add_val P self seq vdata vlen complen c1 env).1 = .ok) :
    ∃ nc,
      (kvset_builder_add_val P self seq vdata vlen complen c1 env).2.calls = self.calls ++ nc ∧
      ((written_omlen nc + reused_omlen P (.add_val seq vdata vlen complen c1 env) = 0 ∧
          (kvset_builder_add_val P self seq vdata vlen complen c1 env).2.vused = self.vused) ∨
        (kvset_builder_add_val P self seq vdata vlen complen c1 env).2.vused =
          (self.vused + (written_omlen nc +
            reused_omlen P (.add_val seq vdata vlen complen c1 env))) % U64_MOD) := by
  obtain ⟨hres, hrec⟩ := add_val_ok_passed P self seq vdata vlen complen c1 env h
  obtain ⟨nc, hcalls, hv⟩ :=
    record_vused P (add_val_reserve self vdata env).2 seq vdata vlen complen c1 env hrec
  obtain ⟨-, -, hrv, hrc⟩ := reserve_frame self vdata env
  rw [hrc] at hcalls
  rw [hrv] at hv
  refine ⟨nc, ?_, ?_⟩
  · rw [add_val_state_of_passed P self seq vdata vlen complen c1 env hres hrec, seqno_state]
    split_ifs <;> exact hcalls
  · rw [add_val_state_of_passed P self seq vdata vlen complen c1 env hres hrec, seqno_state]
    split_ifs <;> exact hv

theorem run_ok_vused (P : params) (ops : List op) (s t : kvset_builder) (X : Nat)
    (hv : ∀ o ∈ ops, is_add_val o = true) (hrun : run_ok P s ops = some t)
    (hX : s.vused = X % U64_MOD) :
    ∃ nc, t.calls = s.calls ++ nc ∧
      t.vused = (X + written_omlen nc + (ops.map (reused_omlen P)).sum) % U64_MOD := by
  induction ops generalizing s X with
  | nil =>
    simp only [run_ok, Option.some.injEq] at hrun
    subst hrun
    exact ⟨[], by simp, by simp [written_omlen, hX]⟩
  | cons o os ih =>
    have hv2 : ∀ o ∈ os, is_add_val o = true := fun x hx => hv x (List.mem_cons_of_mem _ hx)
    have hvo := hv o (List.mem_cons_self _ _)
    unfold run_ok at hrun
    split_ifs at hrun with hok
    cases o with
    | add_val seq vdata vlen complen c1 env =>
      simp only [step] at hok hrun
      obtain ⟨nc1, hc1, hu1⟩ := add_val_ok_vused P s seq vdata vlen complen c1 env hok
      have hX2 : (kvset_builder_add_val P s seq vdata vlen complen c1 env).2.vused =
          (X + (written_omlen nc1 + reused_omlen P (.add_val seq vdata vlen complen c1 env)))
            % U64_MOD := by
        rcases hu1 with ⟨hz, hu1⟩ | hu1
        · rw [hu1, hX, hz, Nat.add_zero]
        · rw [hu1, hX, Nat.mod_add_mod]
      obtain ⟨nc2, hc2, hu2⟩ := ih _ _ hv2 hrun hX2
      refine ⟨nc1 ++ nc2, ?_, ?_⟩
      · rw [hc2, hc1, List.append_assoc]
      · rw [hu2, written_omlen_append, List.map_cons, List.sum_cons]
        congr 1
        omega
    | add_vref seq vbidx vboff vlen complen env => simp [is_add_val] at hvo
    | add_nonval seq vtype env => simp [is_add_val] at hvo
    | add_key kobj env => simp [is_add_val] at hvo

/-- C7 (counterexample): one successful `kvset_builder_add_val` of a nine-byte value
that is found in an upstream vblock: nothing is handed to the value-block
writer (the sum over the entries this builder wrote is `0`), yet `vused` is 9. -/
theorem vused_counts_upstream_reuse :
    (kvset_builder_add_val hse_params (fresh_builder hse_params cn_plain) 5 nine_bytes 9 0 true
      env_upstream).1 = .ok ∧
    written_omlen (kvset_builder_add_val hse_params (fresh_builder hse_params cn_plain) 5
      nine_bytes 9 0 true env_upstream).2.calls = 0 ∧
    (kvset_builder_add_val hse_params (fresh_builder hse_params cn_plain) 5 nine_bytes 9 0 true
      env_upstream).2.vused = 9 := by
  decide

/-- C7 (amended): after a sequence of successful `kvset_builder_add_val` calls on a
freshly created builder, `vused` (and the `bl_vused` reported by
`kvset_builder_get_mblocks`) is, modulo `2^64`, the sum of the on-media length
`omlen` over all entries that took the out-of-line path: those handed to the
value-block writer by this builder and those served by upstream-vblock reuse
(with `omlen = vlen`); tombstones, zero-length values and inlined small values
contribute nothing. -/
theorem vused_of_run (P : params) (cn : cn_t) (cenv : create_env) (b : kvset_builder)
    (cl : List ext_call) (ops : List op) (t : kvset_builder)
    (hc : kvset_builder_create P cn cenv = (.ok, some b, cl))
    (hv : ∀ o ∈ ops, is_add_val o = true)
    (hrun : run_ok P b ops = some t) :
    t.vused = (written_omlen t.calls + (ops.map (reused_omlen P)).sum) % U64_MOD ∧
    (∀ mblks fenv, (kvset_builder_get_mblocks P t mblks fenv).1 = .ok →
      (kvset_builder_get_mblocks P t mblks fenv).2.2.bl_vused = t.vused) := by
  have hb := create_ok_eq P cn cenv b cl hc
  have h0 : b.vused = 0 % U64_MOD := by rw [hb]; rfl
  obtain ⟨nc, hcalls, hu⟩ := run_ok_vused P ops b t 0 hv hrun h0
  refine ⟨?_, fun mblks fenv hok => (get_mblocks_stats P t mblks fenv hok).2.2⟩
  rw [hu, hcalls, written_omlen_append, hb]
  simp [fresh_builder, written_omlen]

theorem vused_of_run_witness :
    (run_any hse_params (fresh_builder hse_params cn_plain) ops_mixed).vused = 18 ∧
    (run_any hse_params (fresh_builder hse_params cn_plain) ops_mixed).vused =
      (written_omlen (run_any hse_params (fresh_builder hse_params cn_plain) ops_mixed).calls +
        (ops_mixed.map (reused_omlen hse_params)).sum) % U64_MOD :=
  ⟨by decide,
    (vused_of_run hse_params cn_plain { malloc := true, kbb_create := .ok, vbb_create := .ok }
      (fresh_builder hse_params cn_plain) [ext_call.kbb_create, ext_call.vbb_create] ops_mixed
      (run_any hse_params (fresh_builder hse_params cn_plain) ops_mixed)
      (by rfl) (by decide) (by rfl)).1⟩

/-! ## `kvset_builder_add_key` -/

theorem add_key_commit_stats (P : params) (s : kvset_builder) (key : List Nat)
    (env : add_key_env) :
    (add_key_ptomb P s key env).2.key_stats = s.key_stats ∧
    (add_key_ptomb P s key env).2.main = s.main ∧
    (add_key_ptomb P s key env).2.sec = s.sec ∧
    (∀ u err, (add_key_entry u key env err).2.key_stats = u.key_stats ∧
      (add_key_entry u key env err).2.main = u.main ∧
      (add_key_entry u key env err).2.sec = u.sec) := by
  refine ⟨?_, ?_, ?_, ?_⟩
  · unfold add_key_ptomb
    dsimp only
    split_ifs <;> rfl
  · unfold add_key_ptomb
    dsimp only
    split_ifs <;> rfl
  · unfold add_key_ptomb
    dsimp only
    split_ifs <;> rfl
  · intro u err
    unfold add_key_entry
    split_ifs <;> exact ⟨rfl, rfl, rfl⟩

theorem add_key_ok_commit (P : params) (s : kvset_builder) (kobj : Option (List Nat))
    (env : add_key_env) (h : (kvset_builder_add_key P s kobj env).1 = .ok) :
    ∃ key, kobj = some key ∧
      (kvset_builder_add_key P s kobj env).2 =
        add_key_reset
          (add_key_entry (add_key_ptomb P s key env).2 key env (add_key_ptomb P s key env).1).2 := by
  unfold kvset_builder_add_key at h ⊢
  cases kobj with
  | none => simp at h
  | some key =>
    refine ⟨key, rfl, ?_⟩
    simp only [add_key_commit] at h ⊢
    split_ifs at h ⊢
    all_goals first
      | exact absurd h ‹_›
      | (simp at h; done)
      | rfl

/-- C8 (counterexample): a key with one value written to a vblock and one value
found upstream is committed by `kvset_builder_add_key`, which returns `0`; the
per-key counters `c0_vlen` and `c1_vlen` are still 9 afterwards, not zero. -/
theorem add_key_keeps_c0_c1_vlen :
    (kvset_builder_add_key hse_params
      (run_any hse_params (fresh_builder hse_params cn_plain) ops_mixed) (some [97])
      key_env_good).1 = .ok ∧
    (kvset_builder_add_key hse_params
      (run_any hse_params (fresh_builder hse_params cn_plain) ops_mixed) (some [97])
      key_env_good).2.key_stats.c0_vlen = 9 ∧
    (kvset_builder_add_key hse_params
      (run_any hse_params (fresh_builder hse_params cn_plain) ops_mixed) (some [97])
      key_env_good).2.key_stats.c1_vlen = 9 := by
  decide

/-- C8 (amended): after every `kvset_builder_add_key` call that returns `0`, the
per-key counters `nvals`, `ntombs`, `nptombs` and `tot_vlen` are zero,
`seqno_prev` and `seqno_prev_ptomb` are back at `U64_MAX`, and `main.kmd_used`
and `sec.kmd_used` are zero; `c0_vlen` and `c1_vlen` are not cleared, they keep
the values they had before the call. -/
theorem add_key_ok_clears (P : params) (s : kvset_builder) (kobj : Option (List Nat))
    (env : add_key_env) (h : (kvset_builder_add_key P s kobj env).1 = .ok) :
    (kvset_builder_add_key P s kobj env).2.key_stats.nvals = 0 ∧
    (kvset_builder_add_key P s kobj env).2.key_stats.ntombs = 0 ∧
    (kvset_builder_add_key P s kobj env).2.key_stats.nptombs = 0 ∧
    (kvset_builder_add_key P s kobj env).2.key_stats.tot_vlen = 0 ∧
    (kvset_builder_add_key P s kobj env).2.key_stats.seqno_prev = U64_MAX ∧
    (kvset_builder_add_key P s kobj env).2.key_stats.seqno_prev_ptomb = U64_MAX ∧
    (kvset_builder_add_key P s kobj env).2.main.kmd_used = 0 ∧
    (kvset_builder_add_key P s kobj env).2.sec.kmd_used = 0 ∧
    (kvset_builder_add_key P s kobj env).2.key_stats.c0_vlen = s.key_stats.c0_vlen ∧
    (kvset_builder_add_key P s kobj env).2.key_stats.c1_vlen = s.key_stats.c1_vlen := by
  obtain ⟨key, -, hst⟩ := add_key_ok_commit P s kobj env h
  obtain ⟨hp, -, -, he⟩ := add_key_commit_stats P s key env
  have hk := (he (add_key_ptomb P s key env).2 (add_key_ptomb P s key env).1).1
  rw [hst]
  simp only [add_key_reset, hk, hp, and_self]

theorem add_key_ok_clears_witness :
    (kvset_builder_add_key hse_params
      (run_any hse_params (fresh_builder hse_params cn_plain) ops_mixed) (some [97])
      key_env_good).2.key_stats.nvals = 0 ∧
    (kvset_builder_add_key hse_params
      (run_any hse_params (fresh_builder hse_params cn_plain) ops_mixed) (some [97])
      key_env_good).2.main.kmd_used = 0 :=
  ⟨(add_key_ok_clears hse_params
      (run_any hse_params (fresh_builder hse_params cn_plain) ops_mixed) (some [97])
      key_env_good (by decide)).1,
    (add_key_ok_clears hse_params
      (run_any hse_params (fresh_builder hse_params cn_plain) ops_mixed) (some [97])
      key_env_good (by decide)).2.2.2.2.2.2.1⟩

/-- C9: `kvset_builder_add_key` returns `EINVAL` when the key object is null, has
length 0 or has length greater than `HSE_KVS_KLEN_MAX`, and then the builder is
the one from before the call (so no key-block writer call was made and the
counters, both `kmd_used` fields and `last_ptomb`/`last_ptlen` are unchanged);
a key of length in `[1, HSE_KVS_KLEN_MAX]` passes the check: the call goes on
to the commit stage, and returns `0` when the key-block writer accepts what it
is given. -/
theorem add_key_length_check (P : params) (s : kvset_builder) (kobj : Option (List Nat))
    (env : add_key_env) :
    ((kobj = none ∨ ∃ key, kobj = some key ∧
        (key_obj_len key = 0 ∨ key_obj_len key > P.HSE_KVS_KLEN_MAX)) →
      kvset_builder_add_key P s kobj env = (.EINVAL, s) ∧
      (kvset_builder_add_key P s kobj env).2.calls = s.calls ∧
      (kvset_builder_add_key P s kobj env).2.key_stats = s.key_stats ∧
      (kvset_builder_add_key P s kobj env).2.main.kmd_used = s.main.kmd_used ∧
      (kvset_builder_add_key P s kobj env).2.sec.kmd_used = s.sec.kmd_used ∧
      (kvset_builder_add_key P s kobj env).2.last_ptomb = s.last_ptomb ∧
      (kvset_builder_add_key P s kobj env).2.last_ptlen = s.last_ptlen) ∧
    (∀ key, kobj = some key → 1 ≤ key_obj_len key → key_obj_len key ≤ P.HSE_KVS_KLEN_MAX →
      kvset_builder_add_key P s kobj env = add_key_commit P s key env ∧
      (env.kbb_add_ptomb = .ok → env.kbb_add_entry = .ok →
        (kvset_builder_add_key P s kobj env).1 = .ok)) := by
  constructor
  · intro h
    have heq : kvset_builder_add_key P s kobj env = (.EINVAL, s) := by
      unfold kvset_builder_add_key
      rcases h with h | ⟨key, hk, hlen⟩
      · subst h
        rfl
      · subst hk
        simp only [hlen, if_true]
    rw [heq]
    exact ⟨rfl, rfl, rfl, rfl, rfl, rfl, rfl⟩
  · intro key hk h1 h2
    subst hk
    have heq : kvset_builder_add_key P s (some key) env = add_key_commit P s key env := by
      unfold kvset_builder_add_key
      have hn : ¬ (key_obj_len key = 0 ∨ key_obj_len key > P.HSE_KVS_KLEN_MAX) := by omega
      simp only [hn, if_false]
    refine ⟨heq, fun hp he => ?_⟩
    rw [heq]
    simp only [add_key_commit, add_key_ptomb, add_key_entry, hp, he]
    split_ifs <;> simp

theorem add_key_length_check_witness :
    kvset_builder_add_key hse_params bld_after_5a none key_env_good = (.EINVAL, bld_after_5a) ∧
    kvset_builder_add_key hse_params bld_after_5a (some []) key_env_good
      = (.EINVAL, bld_after_5a) ∧
    kvset_builder_add_key hse_params bld_after_5a (some key_too_long) key_env_good
      = (.EINVAL, bld_after_5a) ∧
    (kvset_builder_add_key hse_params bld_after_5a (some [112, 47]) key_env_good).1 = .ok :=
  ⟨((add_key_length_check hse_params bld_after_5a none key_env_good).1 (Or.inl rfl)).1,
    ((add_key_length_check hse_params bld_after_5a (some []) key_env_good).1
      (Or.inr ⟨[], rfl, Or.inl rfl⟩)).1,
    ((add_key_length_check hse_params bld_after_5a (some key_too_long) key_env_good).1
      (Or.inr ⟨key_too_long, rfl, Or.inr (by
        simp only [key_too_long, key_obj_len, hse_params, List.length_replicate]
        omega)⟩)).1,
    ((add_key_length_check hse_params bld_after_5a (some [112, 47]) key_env_good).2
      [112, 47] rfl (by decide) (by decide)).2 rfl rfl⟩

/-- C10: for a key that passes the length check, `kvset_builder_add_key` calls the
key-block writer as follows: `kbb_add_ptomb` (with the secondary buffer and
`sec.kmd_used`) exactly when `nptombs > 0`, then `kbb_add_entry` (with the main
buffer and `main.kmd_used`) exactly when `nvals > 0` and `kbb_add_ptomb` did not
fail; and with `nptombs = 0` and `nvals = 0` no call is made and the result
is `0`. -/
theorem add_key_writer_calls (P : params) (s : kvset_builder) (key : List Nat)
    (env : add_key_env)
    (h1 : 1 ≤ key_obj_len key) (h2 : key_obj_len key ≤ P.HSE_KVS_KLEN_MAX) :
    (kvset_builder_add_key P s (some key) env).2.calls =
      s.calls ++
        (if s.key_stats.nptombs > 0 then
          [ext_call.kbb_add_ptomb key s.sec.kmd s.sec.kmd_used s.key_stats] else []) ++
        (if s.key_stats.nvals > 0 ∧ (s.key_stats.nptombs > 0 → env.kbb_add_ptomb = .ok) then
          [ext_call.kbb_add_entry key s.main.kmd s.main.kmd_used s.key_stats] else []) ∧
    (s.key_stats.nptombs = 0 → s.key_stats.nvals = 0 →
      (kvset_builder_add_key P s (some key) env).1 = .ok ∧
      (kvset_builder_add_key P s (some key) env).2.calls = s.calls) := by
  have hn : ¬ (key_obj_len key = 0 ∨ key_obj_len key > P.HSE_KVS_KLEN_MAX) := by omega
  have heq : kvset_builder_add_key P s (some key) env = add_key_commit P s key env := by
    unfold kvset_builder_add_key
    simp only [hn, if_false]
  rw [heq]
  constructor
  · simp only [add_key_commit, add_key_ptomb, add_key_entry, add_key_reset]
    by_cases hp : s.key_stats.nptombs > 0 <;> by_cases hv : s.key_stats.nvals > 0 <;>
      by_cases e1 : env.kbb_add_ptomb = .ok <;> by_cases e2 : env.kbb_add_entry = .ok <;>
      by_cases hcap : s.cn.flags &&& P.CN_CFLAG_CAPPED = 0 <;>
      simp [hp, hv, e1, e2, hcap]
  · intro hp hv
    simp [add_key_commit, add_key_ptomb, add_key_entry, add_key_reset, hp, hv]

theorem add_key_writer_calls_witness :
    (kvset_builder_add_key hse_params
      (run_any hse_params (fresh_builder hse_params cn_plain)
        [.add_val 7 .HSE_CORE_TOMB_PFX 0 0 false env_good,
          .add_val 5 (.data [97]) 1 0 false env_good])
      (some [112, 47]) key_env_good).2.calls =
      [ext_call.kbb_create, ext_call.vbb_create,
        ext_call.kbb_add_ptomb [112, 47] (some (mem_write (mem_block 16384 (fun _ => 0)) 0 [6, 7]))
          2 { nvals := 1, ntombs := 0, nptombs := 1, tot_vlen := 1, c0_vlen := 0, c1_vlen := 0,
              seqno_prev := 5, seqno_prev_ptomb := 7 },
        ext_call.kbb_add_entry [112, 47]
          (some (mem_write (mem_block 16384 (fun _ => 0)) 0 [3, 5, 1, 97]))
          4 { nvals := 1, ntombs := 0, nptombs := 1, tot_vlen := 1, c0_vlen := 0, c1_vlen := 0,
              seqno_prev := 5, seqno_prev_ptomb := 7 }] :=
  ((add_key_writer_calls hse_params
      (run_any hse_params (fresh_builder hse_params cn_plain)
        [.add_val 7 .HSE_CORE_TOMB_PFX 0 0 false env_good,
          .add_val 5 (.data [97]) 1 0 false env_good])
      [112, 47] key_env_good (by decide) (by decide)).1).trans (by rfl)

/-! ## The record stage, branch by branch -/

theorem add_val_of_reserved (P : params) (self : kvset_builder) (seq : Nat) (vdata : vdata_t)
    (vlen complen : Nat) (c1 : Bool) (env : add_env)
    (hres : (add_val_reserve self vdata env).1 = 0) :
    kvset_builder_add_val P self seq vdata vlen complen c1 env =
      if (add_val_record P (add_val_reserve self vdata env).2 seq vdata vlen complen c1 env).1
          ≠ .ok then
        ((add_val_record P (add_val_reserve self vdata env).2 seq vdata vlen complen c1 env).1,
          (add_val_record P (add_val_reserve self vdata env).2 seq vdata vlen complen c1 env).2.1)
      else
        add_val_seqno
          (add_val_record P (add_val_reserve self vdata env).2 seq vdata vlen complen c1 env).2.1
          seq
          (add_val_record P (add_val_reserve self vdata env).2 seq vdata vlen complen c1 env).2.2 := by
  unfold kvset_builder_add_val
  simp only [hres, ne_eq, not_true_eq_false, if_false]

theorem reserve_stream (self : kvset_builder) (vdata : vdata_t) (env : add_env) :
    (add_val_reserve self vdata env).1 =
      (reserve_kmd env.malloc_kmd
        (if vdata = .HSE_CORE_TOMB_PFX then self.sec else self.main)).1 ∧
    (vdata = .HSE_CORE_TOMB_PFX →
      (add_val_reserve self vdata env).2.sec = (reserve_kmd env.malloc_kmd self.sec).2) ∧
    (vdata ≠ .HSE_CORE_TOMB_PFX →
      (add_val_reserve self vdata env).2.main = (reserve_kmd env.malloc_kmd self.main).2) := by
  unfold add_val_reserve
  dsimp only
  refine ⟨rfl, ?_, ?_⟩
  · intro h
    simp [h]
  · intro h
    simp [h]

theorem reserve_kmd_used (malloc : Option (Nat → Nat)) (ki : kmd_info) :
    (reserve_kmd malloc ki).2.kmd_used = ki.kmd_used := by
  unfold reserve_kmd
  dsimp only
  split_ifs
  all_goals first
    | rfl
    | (cases malloc <;> rfl)

theorem record_tomb_eq (P : params) (self : kvset_builder) (seq vlen complen : Nat) (c1 : Bool)
    (env : add_env) :
    add_val_record P self seq .HSE_CORE_TOMB_REG vlen complen c1 env =
      (.ok,
        { self with
          main := kmd_add P self.main (.tomb seq)
          key_stats := { self.key_stats with ntombs := (self.key_stats.ntombs + 1) % UINT_MOD } },
        .HSE_CORE_TOMB_REG) := by
  simp [add_val_record, kmd_add_tomb]

theorem record_ptomb_eq (P : params) (self : kvset_builder) (seq vlen complen : Nat) (c1 : Bool)
    (env : add_env) :
    add_val_record P self seq .HSE_CORE_TOMB_PFX vlen complen c1 env =
      (.ok,
        { self with
          sec := kmd_add P self.sec (.ptomb seq)
          key_stats := { self.key_stats with nptombs := (self.key_stats.nptombs + 1) % UINT_MOD }
          last_ptseq := seq },
        .HSE_CORE_TOMB_PFX) := by
  simp [add_val_record, kmd_add_ptomb]

theorem record_zval_eq (P : params) (self : kvset_builder) (seq : Nat) (vdata : vdata_t)
    (vlen complen : Nat) (c1 : Bool) (env : add_env)
    (h1 : vdata ≠ .HSE_CORE_TOMB_REG) (h2 : vdata ≠ .HSE_CORE_TOMB_PFX)
    (h3 : vdata = .null ∨ vlen = 0) :
    add_val_record P self seq vdata vlen complen c1 env =
      (.ok, { self with main := kmd_add P self.main (.zval seq) }, vdata) := by
  simp [add_val_record, kmd_add_zval, h1, h2, h3]

theorem record_ival_eq (P : params) (self : kvset_builder) (seq : Nat) (vdata : vdata_t)
    (vlen complen : Nat) (c1 : Bool) (env : add_env)
    (h1 : vdata ≠ .HSE_CORE_TOMB_REG) (h2 : vdata ≠ .HSE_CORE_TOMB_PFX)
    (h3 : ¬ (vdata = .null ∨ vlen = 0))
    (h4 : complen = 0 ∧ vlen ≤ P.CN_SMALL_VALUE_THRESHOLD) :
    add_val_record P self seq vdata vlen complen c1 env =
      (.ok,
        { self with
          main := kmd_add P self.main (.ival seq vdata vlen)
          key_stats :=
            { self.key_stats with tot_vlen := (self.key_stats.tot_vlen + vlen) % U64_MOD } },
        vdata) := by
  unfold add_val_record
  rw [if_neg h1, if_neg h2, if_neg h3, if_pos h4]
  rfl

theorem record_ool_eq (P : params) (self : kvset_builder) (seq : Nat) (vdata : vdata_t)
    (vlen complen : Nat) (c1 : Bool) (env : add_env) (h : takes_ool P vdata vlen complen) :
    add_val_record P self seq vdata vlen complen c1 env =
      add_val_ool P self seq vdata vlen complen c1 env := by
  obtain ⟨h1, h2, h3, h4⟩ := h
  unfold add_val_record
  rw [if_neg h1, if_neg h2, if_neg h3, if_neg h4]

/-- The counters of the other stream and the secondary buffer after the
out-of-line path. -/
theorem ool_counts (P : params) (self : kvset_builder) (seq : Nat) (vdata : vdata_t)
    (vlen complen : Nat) (c1 : Bool) (env : add_env) :
    (add_val_ool P self seq vdata vlen complen c1 env).2.1.key_stats.ntombs
      = self.key_stats.ntombs ∧
    (add_val_ool P self seq vdata vlen complen c1 env).2.1.key_stats.nptombs
      = self.key_stats.nptombs ∧
    (add_val_ool P self seq vdata vlen complen c1 env).2.1.last_ptseq = self.last_ptseq ∧
    (add_val_ool P self seq vdata vlen complen c1 env).2.1.sec = self.sec := by
  obtain ⟨buf, sz, hc⟩ := compress_frame P self vdata vlen complen env
  rcases hcv : (if c1 = true then env.vblock_exists else none) with _ | ⟨vbidx, vboff, vbid⟩
  · rw [ool_written_eq _ _ _ _ _ _ _ _ hcv]
    unfold add_val_write
    rw [hc]
    by_cases h : env.vbb_add_entry.1 = .ok <;> simp [h, add_val_kmd]
  · rw [ool_reused_eq _ _ _ _ _ _ _ _ _ _ _ hcv]
    unfold add_val_reuse
    split_ifs <;> simp [add_val_kmd]

/-- What the record stage leaves of the other stream: a prefix tombstone changes
neither `ntombs` nor the main buffer, any other entry changes neither `nptombs`,
`last_ptseq` nor the secondary buffer. -/
theorem record_other_stream (P : params) (self : kvset_builder) (seq : Nat) (vdata : vdata_t)
    (vlen complen : Nat) (c1 : Bool) (env : add_env) :
    (vdata = .HSE_CORE_TOMB_PFX →
      (add_val_record P self seq vdata vlen complen c1 env).2.1.key_stats.ntombs
        = self.key_stats.ntombs ∧
      (add_val_record P self seq vdata vlen complen c1 env).2.1.main = self.main) ∧
    (vdata ≠ .HSE_CORE_TOMB_PFX →
      (add_val_record P self seq vdata vlen complen c1 env).2.1.key_stats.nptombs
        = self.key_stats.nptombs ∧
      (add_val_record P self seq vdata vlen complen c1 env).2.1.last_ptseq = self.last_ptseq ∧
      (add_val_record P self seq vdata vlen complen c1 env).2.1.sec = self.sec) := by
  constructor
  · intro h
    subst h
    rw [record_ptomb_eq]
    exact ⟨rfl, rfl⟩
  · intro h
    unfold add_val_record
    split_ifs with h1 h2 h3
    · exact ⟨rfl, rfl, rfl⟩
    · exact ⟨rfl, rfl, rfl⟩
    · exact ⟨rfl, rfl, rfl⟩
    · exact (ool_counts P self seq vdata vlen complen c1 env).2

theorem seqno_other_stream (self : kvset_builder) (seq : Nat) (vdata : vdata_t) :
    (add_val_seqno self seq vdata).2.key_stats.ntombs = self.key_stats.ntombs ∧
    (add_val_seqno self seq vdata).2.key_stats.nptombs = self.key_stats.nptombs ∧
    (add_val_seqno self seq vdata).2.last_ptseq = self.last_ptseq ∧
    (add_val_seqno self seq vdata).2.main = self.main ∧
    (add_val_seqno self seq vdata).2.sec = self.sec ∧
    (add_val_seqno self seq vdata).2.calls = self.calls ∧
    (add_val_seqno self seq vdata).2.vused = self.vused ∧
    (add_val_seqno self seq vdata).2.key_stats.tot_vlen = self.key_stats.tot_vlen ∧
    (add_val_seqno self seq vdata).2.key_stats.c0_vlen = self.key_stats.c0_vlen ∧
    (add_val_seqno self seq vdata).2.key_stats.c1_vlen = self.key_stats.c1_vlen ∧
    (add_val_seqno self seq vdata).2.compress_buf = self.compress_buf ∧
    (add_val_seqno self seq vdata).2.compress_buf_sz = self.compress_buf_sz := by
  rw [seqno_state]
  split_ifs <;> simp

/-! ## `kvset_builder_add_vref` and `kvset_builder_add_nonval` after a successful reservation -/

theorem add_vref_eq (P : params) (self : kvset_builder) (seq vbidx vboff vlen complen : Nat)
    (env : add_env) (hres : (reserve_kmd env.malloc_kmd self.main).1 = 0) :
    kvset_builder_add_vref P self seq vbidx vboff vlen complen env =
      (.ok,
        { self with
          main :=
            kmd_add P (reserve_kmd env.malloc_kmd self.main).2
              (if complen > 0 then .cval seq vbidx vboff vlen complen
                else .val seq vbidx vboff vlen)
          vused := (self.vused + (if complen ≠ 0 then complen else vlen)) % U64_MOD
          key_stats :=
            { self.key_stats with
              tot_vlen :=
                (self.key_stats.tot_vlen + (if complen ≠ 0 then complen else vlen)) % U64_MOD
              nvals := (self.key_stats.nvals + 1) % UINT_MOD }
          seqno_max := max self.seqno_max seq
          seqno_min := min self.seqno_min seq }) := by
  unfold kvset_builder_add_vref
  by_cases hc : complen > 0 <;>
    simp [hres, hc, kmd_add_cval, kmd_add_val]

theorem add_nonval_tomb_eq (P : params) (self : kvset_builder) (seq : Nat) (env : add_env)
    (hres : (reserve_kmd env.malloc_kmd self.main).1 = 0) :
    kvset_builder_add_nonval P self seq .vtype_tomb env =
      (.ok,
        { self with
          main := kmd_add P (reserve_kmd env.malloc_kmd self.main).2 (.tomb seq)
          key_stats :=
            { self.key_stats with
              ntombs := (self.key_stats.ntombs + 1) % UINT_MOD
              nvals := (self.key_stats.nvals + 1) % UINT_MOD }
          seqno_max := max self.seqno_max seq
          seqno_min := min self.seqno_min seq }) := by
  unfold kvset_builder_add_nonval
  simp [hres, kmd_add_tomb]

theorem add_nonval_ptomb_eq (P : params) (self : kvset_builder) (seq : Nat) (env : add_env)
    (hres : (reserve_kmd env.malloc_kmd self.sec).1 = 0) :
    kvset_builder_add_nonval P self seq .vtype_ptomb env =
      (.ok,
        { self with
          sec := kmd_add P (reserve_kmd env.malloc_kmd self.sec).2 (.ptomb seq)
          key_stats :=
            { self.key_stats with nptombs := (self.key_stats.nptombs + 1) % UINT_MOD }
          seqno_max := max self.seqno_max seq
          seqno_min := min self.seqno_min seq }) := by
  unfold kvset_builder_add_nonval
  simp [hres, kmd_add_ptomb]

theorem add_vref_ok_reserved (P : params) (self : kvset_builder)
    (seq vbidx vboff vlen complen : Nat) (env : add_env)
    (h : (kvset_builder_add_vref P self seq vbidx vboff vlen complen env).1 = .ok) :
    (reserve_kmd env.malloc_kmd self.main).1 = 0 := by
  by_contra hn
  unfold kvset_builder_add_vref at h
  simp [hn] at h

theorem add_nonval_ok_reserved (P : params) (self : kvset_builder) (seq : Nat)
    (vtype : kmd_vtype) (env : add_env)
    (h : (kvset_builder_add_nonval P self seq vtype env).1 = .ok) :
    (vtype = .vtype_tomb ∧ (reserve_kmd env.malloc_kmd self.main).1 = 0) ∨
    (vtype = .vtype_ptomb ∧ (reserve_kmd env.malloc_kmd self.sec).1 = 0) := by
  by_cases h1 : vtype = .vtype_tomb
  · subst h1
    refine Or.inl ⟨rfl, ?_⟩
    by_contra hn
    unfold kvset_builder_add_nonval at h
    simp [hn] at h
  · by_cases h2 : vtype = .vtype_ptomb
    · subst h2
      refine Or.inr ⟨rfl, ?_⟩
      by_contra hn
      unfold kvset_builder_add_nonval at h
      simp [hn] at h
    · exfalso
      unfold kvset_builder_add_nonval at h
      simp only [h1, h2, if_false] at h
      split_ifs at h

/-- The state after a passed `kvset_builder_add_val`: what is left of the stream
the entry does not belong to. -/
theorem add_val_passed_other (P : params) (self : kvset_builder) (seq : Nat) (vdata : vdata_t)
    (vlen complen : Nat) (c1 : Bool) (env : add_env)
    (hres : (add_val_reserve self vdata env).1 = 0)
    (hrec : (add_val_record P (add_val_reserve self vdata env).2 seq vdata vlen complen c1 env).1
      = .ok) :
    (vdata = .HSE_CORE_TOMB_PFX →
      (kvset_builder_add_val P self seq vdata vlen complen c1 env).2.key_stats.ntombs
        = self.key_stats.ntombs) ∧
    (vdata ≠ .HSE_CORE_TOMB_PFX →
      (kvset_builder_add_val P self seq vdata vlen complen c1 env).2.key_stats.nptombs
        = self.key_stats.nptombs ∧
      (kvset_builder_add_val P self seq vdata vlen complen c1 env).2.last_ptseq
        = self.last_ptseq) := by
  have hst := add_val_state_of_passed P self seq vdata vlen complen c1 env hres hrec
  have ho := record_other_stream P (add_val_reserve self vdata env).2 seq vdata vlen complen c1 env
  obtain ⟨hfr, hk, -, -⟩ := reserve_frame self vdata env
  have hl : (add_val_reserve self vdata env).2.last_ptseq = self.last_ptseq := by
    unfold add_val_reserve
    dsimp only
    split_ifs <;> rfl
  obtain ⟨s1, s2, s3, -⟩ := seqno_other_stream
    (add_val_record P (add_val_reserve self vdata env).2 seq vdata vlen complen c1 env).2.1 seq
    (add_val_record P (add_val_reserve self vdata env).2 seq vdata vlen complen c1 env).2.2
  rw [hst]
  constructor
  · intro hp
    rw [s1, (ho.1 hp).1, hk]
  · intro hp
    rw [s2, s3, (ho.2 hp).1, (ho.2 hp).2.1, hk, hl]
    exact ⟨rfl, rfl⟩

/-- C11: stream separation.  A successful `kvset_builder_add_val` with
`HSE_CORE_TOMB_PFX` and a successful `kvset_builder_add_nonval` with
`vtype_ptomb` append their ptomb record to the secondary buffer and leave the
main buffer (so `main.kmd_used`), `nvals`, `ntombs` and `seqno_prev` as they
were; every other successful `add_val`, `add_vref` or `add_nonval` appends its
record to the main buffer and leaves the secondary buffer (so `sec.kmd_used`),
`nptombs` and `seqno_prev_ptomb` as they were. -/
theorem stream_separation (P : params) (s : kvset_builder) (seq : Nat) (env : add_env) :
    (∀ vdata vlen complen c1,
      (kvset_builder_add_val P s seq vdata vlen complen c1 env).1 = .ok →
      (vdata = .HSE_CORE_TOMB_PFX →
        (kvset_builder_add_val P s seq vdata vlen complen c1 env).2.sec =
          kmd_add P (reserve_kmd env.malloc_kmd s.sec).2 (.ptomb seq) ∧
        (kvset_builder_add_val P s seq vdata vlen complen c1 env).2.main = s.main ∧
        (kvset_builder_add_val P s seq vdata vlen complen c1 env).2.key_stats.nvals
          = s.key_stats.nvals ∧
        (kvset_builder_add_val P s seq vdata vlen complen c1 env).2.key_stats.ntombs
          = s.key_stats.ntombs ∧
        (kvset_builder_add_val P s seq vdata vlen complen c1 env).2.key_stats.seqno_prev
          = s.key_stats.seqno_prev) ∧
      (vdata ≠ .HSE_CORE_TOMB_PFX →
        (∃ r, (kvset_builder_add_val P s seq vdata vlen complen c1 env).2.main =
          kmd_add P (reserve_kmd env.malloc_kmd s.main).2 r) ∧
        (kvset_builder_add_val P s seq vdata vlen complen c1 env).2.sec = s.sec ∧
        (kvset_builder_add_val P s seq vdata vlen complen c1 env).2.key_stats.nptombs
          = s.key_stats.nptombs ∧
        (kvset_builder_add_val P s seq vdata vlen complen c1 env).2.key_stats.seqno_prev_ptomb
          = s.key_stats.seqno_prev_ptomb)) ∧
    (∀ vbidx vboff vlen complen,
      (kvset_builder_add_vref P s seq vbidx vboff vlen complen env).1 = .ok →
      (∃ r, (kvset_builder_add_vref P s seq vbidx vboff vlen complen env).2.main =
        kmd_add P (reserve_kmd env.malloc_kmd s.main).2 r) ∧
      (kvset_builder_add_vref P s seq vbidx vboff vlen complen env).2.sec = s.sec ∧
      (kvset_builder_add_vref P s seq vbidx vboff vlen complen env).2.key_stats.nptombs
        = s.key_stats.nptombs ∧
      (kvset_builder_add_vref P s seq vbidx vboff vlen complen env).2.key_stats.seqno_prev_ptomb
        = s.key_stats.seqno_prev_ptomb) ∧
    (∀ vtype,
      (kvset_builder_add_nonval P s seq vtype env).1 = .ok →
      (vtype = .vtype_ptomb →
        (kvset_builder_add_nonval P s seq vtype env).2.sec =
          kmd_add P (reserve_kmd env.malloc_kmd s.sec).2 (.ptomb seq) ∧
        (kvset_builder_add_nonval P s seq vtype env).2.main = s.main ∧
        (kvset_builder_add_nonval P s seq vtype env).2.key_stats.nvals = s.key_stats.nvals ∧
        (kvset_builder_add_nonval P s seq vtype env).2.key_stats.ntombs = s.key_stats.ntombs ∧
        (kvset_builder_add_nonval P s seq vtype env).2.key_stats.seqno_prev
          = s.key_stats.seqno_prev) ∧
      (vtype ≠ .vtype_ptomb →
        (kvset_builder_add_nonval P s seq vtype env).2.main =
          kmd_add P (reserve_kmd env.malloc_kmd s.main).2 (.tomb seq) ∧
        (kvset_builder_add_nonval P s seq vtype env).2.sec = s.sec ∧
        (kvset_builder_add_nonval P s seq vtype env).2.key_stats.nptombs
          = s.key_stats.nptombs ∧
        (kvset_builder_add_nonval P s seq vtype env).2.key_stats.seqno_prev_ptomb
          = s.key_stats.seqno_prev_ptomb)) := by
  refine ⟨?_, ?_, ?_⟩
  · intro vdata vlen complen c1 hok
    obtain ⟨hres, hrec⟩ := add_val_ok_passed P s seq vdata vlen complen c1 env hok
    obtain ⟨-, -, e1, e2⟩ := add_val_passed_effect P s seq vdata vlen complen c1 env hres hrec
    obtain ⟨o1, o2⟩ := add_val_passed_other P s seq vdata vlen complen c1 env hres hrec
    obtain ⟨-, r1, r2⟩ := reserve_stream s vdata env
    constructor
    · intro hp
      obtain ⟨a1, -, a3, a4, a5⟩ := e1 hp
      rw [r1 hp] at a1
      exact ⟨a1, a3, a5, o1 hp, a4⟩
    · intro hp
      obtain ⟨⟨r, a1⟩, -, -, a4, a5⟩ := e2 hp
      rw [r2 hp] at a1
      exact ⟨⟨r, a1⟩, a4, (o2 hp).1, a5⟩
  · intro vbidx vboff vlen complen hok
    have hres := add_vref_ok_reserved P s seq vbidx vboff vlen complen env hok
    rw [add_vref_eq P s seq vbidx vboff vlen complen env hres]
    exact ⟨⟨_, rfl⟩, rfl, rfl, rfl⟩
  · intro vtype hok
    rcases add_nonval_ok_reserved P s seq vtype env hok with ⟨hv, hres⟩ | ⟨hv, hres⟩
    · subst hv
      rw [add_nonval_tomb_eq P s seq env hres]
      exact ⟨fun h => absurd h (by simp), fun _ => ⟨rfl, rfl, rfl, rfl⟩⟩
    · subst hv
      rw [add_nonval_ptomb_eq P s seq env hres]
      exact ⟨fun _ => ⟨rfl, rfl, rfl, rfl, rfl⟩, fun h => absurd rfl h⟩

theorem stream_separation_witness :
    (kvset_builder_add_val hse_params bld_after_5a 7 .HSE_CORE_TOMB_PFX 0 0 false env_good).2.sec =
      kmd_add hse_params (reserve_kmd env_good.malloc_kmd bld_after_5a.sec).2 (.ptomb 7) ∧
    (kvset_builder_add_val hse_params bld_after_5a 7 .HSE_CORE_TOMB_PFX 0 0 false env_good).2.main
      = bld_after_5a.main ∧
    (kvset_builder_add_val hse_params bld_after_5a 7 .HSE_CORE_TOMB_PFX 0 0 false
      env_good).2.key_stats.nvals = 1 :=
  ⟨(((stream_separation hse_params bld_after_5a 7 env_good).1 .HSE_CORE_TOMB_PFX 0 0 false
      (by decide)).1 rfl).1,
    (((stream_separation hse_params bld_after_5a 7 env_good).1 .HSE_CORE_TOMB_PFX 0 0 false
      (by decide)).1 rfl).2.1,
    by decide⟩

/-! ## The record kinds of `kvset_builder_add_val` -/

theorem reserve_eq_main (self : kvset_builder) (vdata : vdata_t) (env : add_env)
    (h : vdata ≠ .HSE_CORE_TOMB_PFX) :
    add_val_reserve self vdata env =
      ((reserve_kmd env.malloc_kmd self.main).1,
        { self with main := (reserve_kmd env.malloc_kmd self.main).2 }) := by
  unfold add_val_reserve
  simp [h]

theorem reserve_eq_sec (self : kvset_builder) (env : add_env) :
    add_val_reserve self .HSE_CORE_TOMB_PFX env =
      ((reserve_kmd env.malloc_kmd self.sec).1,
        { self with sec := (reserve_kmd env.malloc_kmd self.sec).2 }) := by
  unfold add_val_reserve
  simp

/-- The fields the seqno stage does not write, after a passed
`kvset_builder_add_val`: they are as the record stage left them. -/
theorem add_val_passed_fields (P : params) (self : kvset_builder) (seq : Nat) (vdata : vdata_t)
    (vlen complen : Nat) (c1 : Bool) (env : add_env)
    (hres : (add_val_reserve self vdata env).1 = 0)
    (hrec : (add_val_record P (add_val_reserve self vdata env).2 seq vdata vlen complen c1 env).1
      = .ok) :
    (kvset_builder_add_val P self seq vdata vlen complen c1 env).2.main =
      (add_val_record P (add_val_reserve self vdata env).2 seq vdata vlen complen c1 env).2.1.main ∧
    (kvset_builder_add_val P self seq vdata vlen complen c1 env).2.sec =
      (add_val_record P (add_val_reserve self vdata env).2 seq vdata vlen complen c1 env).2.1.sec ∧
    (kvset_builder_add_val P self seq vdata vlen complen c1 env).2.calls =
      (add_val_record P (add_val_reserve self vdata env).2 seq vdata vlen complen c1 env).2.1.calls ∧
    (kvset_builder_add_val P self seq vdata vlen complen c1 env).2.vused =
      (add_val_record P (add_val_reserve self vdata env).2 seq vdata vlen complen c1 env).2.1.vused ∧
    (kvset_builder_add_val P self seq vdata vlen complen c1 env).2.key_stats.tot_vlen =
      (add_val_record P (add_val_reserve self vdata env).2 seq vdata vlen complen c1
        env).2.1.key_stats.tot_vlen ∧
    (kvset_builder_add_val P self seq vdata vlen complen c1 env).2.key_stats.ntombs =
      (add_val_record P (add_val_reserve self vdata env).2 seq vdata vlen complen c1
        env).2.1.key_stats.ntombs := by
  rw [add_val_state_of_passed P self seq vdata vlen complen c1 env hres hrec]
  obtain ⟨s1, -, -, s4, s5, s6, s7, s8, -⟩ := seqno_other_stream
    (add_val_record P (add_val_reserve self vdata env).2 seq vdata vlen complen c1 env).2.1 seq
    (add_val_record P (add_val_reserve self vdata env).2 seq vdata vlen complen c1 env).2.2
  exact ⟨s4, s5, s6, s7, s8, s1⟩

/-- The record of the out-of-line path is a `val` or a `cval` with a non-zero
compressed length. -/
theorem ool_record (P : params) (self : kvset_builder) (seq : Nat) (vdata : vdata_t)
    (vlen complen : Nat) (c1 : Bool) (env : add_env)
    (h : (add_val_ool P self seq vdata vlen complen c1 env).1 = .ok) :
    ∃ vbidx vboff,
      (add_val_ool P self seq vdata vlen complen c1 env).2.1.main =
        kmd_add P self.main (.val seq vbidx vboff vlen) ∨
      ∃ c, c ≠ 0 ∧
        (add_val_ool P self seq vdata vlen complen c1 env).2.1.main =
          kmd_add P self.main (.cval seq vbidx vboff vlen c) := by
  obtain ⟨buf, sz, hc⟩ := compress_frame P self vdata vlen complen env
  rcases hcv : (if c1 = true then env.vblock_exists else none) with _ | ⟨vbidx, vboff, vbid⟩
  · rw [ool_written_eq _ _ _ _ _ _ _ _ hcv] at h ⊢
    rw [write_effect _ _ _ _ _ _ _ h, hc]
    refine ⟨env.vbb_add_entry.2.2.1, env.vbb_add_entry.2.2.2, ?_⟩
    by_cases hz : (add_val_compress P self vdata vlen complen env).2.2 = 0
    · left
      simp [hz]
    · right
      exact ⟨_, hz, by simp [hz]⟩
  · rw [ool_reused_eq _ _ _ _ _ _ _ _ _ _ _ hcv] at h ⊢
    rw [(reuse_effect _ _ _ _ _ _ _ _ h).2]
    exact ⟨vbidx, vboff, Or.inl rfl⟩

/-- C12: the record kind `kvset_builder_add_val` selects once the reservation has
succeeded, testing in this order: `HSE_CORE_TOMB_REG` gives a tomb record and
`HSE_CORE_TOMB_PFX` a ptomb record, whatever `vlen` and `complen` are; a null
`vdata` or `vlen = 0` gives a zval record; `complen = 0` with
`vlen ≤ CN_SMALL_VALUE_THRESHOLD` gives an ival record, adds `vlen` to
`tot_vlen` and makes no value-block writer call; everything else (so every value
with `complen > 0`) takes the out-of-line path, whose record is a val or a
cval. -/
theorem add_val_record_kind (P : params) (s : kvset_builder) (seq : Nat) (vdata : vdata_t)
    (vlen complen : Nat) (c1 : Bool) (env : add_env)
    (hres : (add_val_reserve s vdata env).1 = 0) :
    (vdata = .HSE_CORE_TOMB_REG →
      (kvset_builder_add_val P s seq vdata vlen complen c1 env).2.main =
        kmd_add P (reserve_kmd env.malloc_kmd s.main).2 (.tomb seq) ∧
      (kvset_builder_add_val P s seq vdata vlen complen c1 env).2.calls = s.calls) ∧
    (vdata = .HSE_CORE_TOMB_PFX →
      (kvset_builder_add_val P s seq vdata vlen complen c1 env).2.sec =
        kmd_add P (reserve_kmd env.malloc_kmd s.sec).2 (.ptomb seq) ∧
      (kvset_builder_add_val P s seq vdata vlen complen c1 env).2.calls = s.calls) ∧
    (vdata ≠ .HSE_CORE_TOMB_REG → vdata ≠ .HSE_CORE_TOMB_PFX → (vdata = .null ∨ vlen = 0) →
      (kvset_builder_add_val P s seq vdata vlen complen c1 env).2.main =
        kmd_add P (reserve_kmd env.malloc_kmd s.main).2 (.zval seq) ∧
      (kvset_builder_add_val P s seq vdata vlen complen c1 env).2.calls = s.calls) ∧
    (vdata ≠ .HSE_CORE_TOMB_REG → vdata ≠ .HSE_CORE_TOMB_PFX → ¬ (vdata = .null ∨ vlen = 0) →
      complen = 0 → vlen ≤ P.CN_SMALL_VALUE_THRESHOLD →
      (kvset_builder_add_val P s seq vdata vlen complen c1 env).2.main =
        kmd_add P (reserve_kmd env.malloc_kmd s.main).2 (.ival seq vdata vlen) ∧
      (kvset_builder_add_val P s seq vdata vlen complen c1 env).2.key_stats.tot_vlen =
        (s.key_stats.tot_vlen + vlen) % U64_MOD ∧
      (kvset_builder_add_val P s seq vdata vlen complen c1 env).2.calls = s.calls ∧
      (kvset_builder_add_val P s seq vdata vlen complen c1 env).2.vused = s.vused) ∧
    (vdata ≠ .HSE_CORE_TOMB_REG → vdata ≠ .HSE_CORE_TOMB_PFX → ¬ (vdata = .null ∨ vlen = 0) →
      ¬ (complen = 0 ∧ vlen ≤ P.CN_SMALL_VALUE_THRESHOLD) →
      add_val_record P (add_val_reserve s vdata env).2 seq vdata vlen complen c1 env =
        add_val_ool P (add_val_reserve s vdata env).2 seq vdata vlen complen c1 env ∧
      ((add_val_ool P (add_val_reserve s vdata env).2 seq vdata vlen complen c1 env).1 = .ok →
        ∃ vbidx vboff,
          (kvset_builder_add_val P s seq vdata vlen complen c1 env).2.main =
            kmd_add P (reserve_kmd env.malloc_kmd s.main).2 (.val seq vbidx vboff vlen) ∨
          ∃ c, c ≠ 0 ∧
            (kvset_builder_add_val P s seq vdata vlen complen c1 env).2.main =
              kmd_add P (reserve_kmd env.malloc_kmd s.main).2
                (.cval seq vbidx vboff vlen c))) := by
  obtain ⟨-, rs, rm⟩ := reserve_stream s vdata env
  obtain ⟨-, hk, hvu, hcl⟩ := reserve_frame s vdata env
  refine ⟨?_, ?_, ?_, ?_, ?_⟩
  · intro h
    subst h
    have hrec : (add_val_record P (add_val_reserve s .HSE_CORE_TOMB_REG env).2 seq
        .HSE_CORE_TOMB_REG vlen complen c1 env).1 = .ok := by rw [record_tomb_eq]
    obtain ⟨f1, -, f3, -⟩ := add_val_passed_fields P s seq _ vlen complen c1 env hres hrec
    rw [f1, f3, record_tomb_eq]
    exact ⟨by rw [← rm (by simp)], hcl⟩
  · intro h
    subst h
    have hrec : (add_val_record P (add_val_reserve s .HSE_CORE_TOMB_PFX env).2 seq
        .HSE_CORE_TOMB_PFX vlen complen c1 env).1 = .ok := by rw [record_ptomb_eq]
    obtain ⟨-, f2, f3, -⟩ := add_val_passed_fields P s seq _ vlen complen c1 env hres hrec
    rw [f2, f3, record_ptomb_eq]
    exact ⟨by rw [← rs rfl], hcl⟩
  · intro h1 h2 h3
    have heq := record_zval_eq P (add_val_reserve s vdata env).2 seq vdata vlen complen c1 env
      h1 h2 h3
    have hrec : (add_val_record P (add_val_reserve s vdata env).2 seq vdata vlen complen c1
        env).1 = .ok := by rw [heq]
    obtain ⟨f1, -, f3, -⟩ := add_val_passed_fields P s seq _ vlen complen c1 env hres hrec
    rw [f1, f3, heq]
    exact ⟨by rw [← rm h2], hcl⟩
  · intro h1 h2 h3 h4 h5
    have heq := record_ival_eq P (add_val_reserve s vdata env).2 seq vdata vlen complen c1 env
      h1 h2 h3 ⟨h4, h5⟩
    have hrec : (add_val_record P (add_val_reserve s vdata env).2 seq vdata vlen complen c1
        env).1 = .ok := by rw [heq]
    obtain ⟨f1, -, f3, f4, f5, -⟩ := add_val_passed_fields P s seq _ vlen complen c1 env hres hrec
    rw [f1, f3, f4, f5, heq]
    exact ⟨by rw [← rm h2], by simp only [hk], hcl, hvu⟩
  · intro h1 h2 h3 h4
    have heq := record_ool_eq P (add_val_reserve s vdata env).2 seq vdata vlen complen c1 env
      ⟨h1, h2, h3, h4⟩
    refine ⟨heq, fun hok => ?_⟩
    have hrec : (add_val_record P (add_val_reserve s vdata env).2 seq vdata vlen complen c1
        env).1 = .ok := by rw [heq]; exact hok
    obtain ⟨f1, -⟩ := add_val_passed_fields P s seq _ vlen complen c1 env hres hrec
    rw [f1, heq, ← rm h2]
    exact ool_record P _ seq vdata vlen complen c1 env hok

theorem add_val_record_kind_witness :
    (kvset_builder_add_val hse_params (fresh_builder hse_params cn_plain) 5 .HSE_CORE_TOMB_REG 9 4
      false env_good).2.main =
      kmd_add hse_params
        (reserve_kmd env_good.malloc_kmd (fresh_builder hse_params cn_plain).main).2 (.tomb 5) ∧
    (kvset_builder_add_val hse_params (fresh_builder hse_params cn_plain) 5 (.data [97]) 1 3
      false env_good).2.calls =
      (fresh_builder hse_params cn_plain).calls ++ [ext_call.vbb_add_entry (.data [97]) 3] :=
  ⟨((add_val_record_kind hse_params (fresh_builder hse_params cn_plain) 5 .HSE_CORE_TOMB_REG 9 4
      false env_good (by decide)).1 rfl).1,
    by decide⟩

/-! ## Tombstone counting -/

theorem add_val_tomb_counts (P : params) (s : kvset_builder) (seq vlen complen : Nat) (c1 : Bool)
    (env : add_env)
    (hres : (add_val_reserve s .HSE_CORE_TOMB_REG env).1 = 0) :
    (kvset_builder_add_val P s seq .HSE_CORE_TOMB_REG vlen complen c1 env).2.key_stats.ntombs =
      (s.key_stats.ntombs + 1) % UINT_MOD ∧
    (kvset_builder_add_val P s seq .HSE_CORE_TOMB_REG vlen complen c1 env).2.key_stats.nvals =
      (s.key_stats.nvals + 1) % UINT_MOD := by
  have hrec : (add_val_record P (add_val_reserve s .HSE_CORE_TOMB_REG env).2 seq
      .HSE_CORE_TOMB_REG vlen complen c1 env).1 = .ok := by rw [record_tomb_eq]
  obtain ⟨-, -, -, -, -, f6⟩ := add_val_passed_fields P s seq _ vlen complen c1 env hres hrec
  obtain ⟨-, -, -, e2⟩ := add_val_passed_effect P s seq _ vlen complen c1 env hres hrec
  obtain ⟨-, hk, -, -⟩ := reserve_frame s .HSE_CORE_TOMB_REG env
  refine ⟨?_, (e2 (by simp)).2.2.1⟩
  rw [f6, record_tomb_eq]
  simp only [hk]

/-- C13 (counterexample): a successful `kvset_builder_add_val` with
`HSE_CORE_TOMB_REG` on a fresh builder leaves `ntombs = 1` and also `nvals = 1`:
`nvals` is not left unchanged. -/
theorem add_val_tomb_increments_nvals :
    (fresh_builder hse_params cn_plain).key_stats.nvals = 0 ∧
    (kvset_builder_add_val hse_params (fresh_builder hse_params cn_plain) 5 .HSE_CORE_TOMB_REG 0 0
      false env_good).1 = .ok ∧
    (kvset_builder_add_val hse_params (fresh_builder hse_params cn_plain) 5 .HSE_CORE_TOMB_REG 0 0
      false env_good).2.key_stats.ntombs = 1 ∧
    (kvset_builder_add_val hse_params (fresh_builder hse_params cn_plain) 5 .HSE_CORE_TOMB_REG 0 0
      false env_good).2.key_stats.nvals = 1 := by
  decide

/-- C13 (amended): there is no asymmetry in the tombstone counting: a successful
`kvset_builder_add_nonval` with `vtype_tomb` increases both `ntombs` and `nvals`
by one, and a successful `kvset_builder_add_val` with `HSE_CORE_TOMB_REG` also
increases both `ntombs` (line 211) and `nvals` (line 327) by one (the counters
are `uint`, so modulo `2^32`). -/
theorem tomb_counts_both (P : params) (s : kvset_builder) (seq : Nat) (env : add_env) :
    ((kvset_builder_add_nonval P s seq .vtype_tomb env).1 = .ok →
      (kvset_builder_add_nonval P s seq .vtype_tomb env).2.key_stats.ntombs =
        (s.key_stats.ntombs + 1) % UINT_MOD ∧
      (kvset_builder_add_nonval P s seq .vtype_tomb env).2.key_stats.nvals =
        (s.key_stats.nvals + 1) % UINT_MOD) ∧
    (∀ vlen complen c1,
      (kvset_builder_add_val P s seq .HSE_CORE_TOMB_REG vlen complen c1 env).1 = .ok →
      (kvset_builder_add_val P s seq .HSE_CORE_TOMB_REG vlen complen c1 env).2.key_stats.ntombs =
        (s.key_stats.ntombs + 1) % UINT_MOD ∧
      (kvset_builder_add_val P s seq .HSE_CORE_TOMB_REG vlen complen c1 env).2.key_stats.nvals =
        (s.key_stats.nvals + 1) % UINT_MOD) := by
  constructor
  · intro hok
    rcases add_nonval_ok_reserved P s seq .vtype_tomb env hok with ⟨-, hres⟩ | ⟨hv, -⟩
    · rw [add_nonval_tomb_eq P s seq env hres]
      exact ⟨rfl, rfl⟩
    · simp at hv
  · intro vlen complen c1 hok
    exact add_val_tomb_counts P s seq vlen complen c1 env
      (add_val_ok_passed P s seq _ vlen complen c1 env hok).1

theorem tomb_counts_both_witness :
    (kvset_builder_add_val hse_params bld_after_5a 4 .HSE_CORE_TOMB_REG 0 0 false
      env_good).2.key_stats.ntombs = (bld_after_5a.key_stats.ntombs + 1) % UINT_MOD ∧
    (kvset_builder_add_val hse_params bld_after_5a 4 .HSE_CORE_TOMB_REG 0 0 false
      env_good).2.key_stats.nvals = (bld_after_5a.key_stats.nvals + 1) % UINT_MOD :=
  (tomb_counts_both hse_params bld_after_5a 4 env_good).2 0 0 false (by decide)

/-! ## `kvset_builder_add_vref` -/

/-- C14: a `kvset_builder_add_vref` call whose KMD reservation succeeds returns `0`;
it appends to the main buffer a cval record carrying
`(seq, vbidx, vboff, vlen, complen)` if `complen > 0` and a val record carrying
`(seq, vbidx, vboff, vlen)` otherwise, adds the on-media length (`complen` if
non-zero, else `vlen`) to `vused` and `tot_vlen`, adds one to `nvals`, folds
`seq` into `seqno_min` and `seqno_max`, makes no writer call, and leaves
`ntombs`, `nptombs`, `c0_vlen`, `c1_vlen`, `seqno_prev` and the secondary buffer
as they were. -/
theorem add_vref_effect (P : params) (s : kvset_builder) (seq vbidx vboff vlen complen : Nat)
    (env : add_env) (hres : (reserve_kmd env.malloc_kmd s.main).1 = 0) :
    (kvset_builder_add_vref P s seq vbidx vboff vlen complen env).1 = .ok ∧
    (kvset_builder_add_vref P s seq vbidx vboff vlen complen env).2.main =
      kmd_add P (reserve_kmd env.malloc_kmd s.main).2
        (if complen > 0 then .cval seq vbidx vboff vlen complen
          else .val seq vbidx vboff vlen) ∧
    (kvset_builder_add_vref P s seq vbidx vboff vlen complen env).2.vused =
      (s.vused + (if complen ≠ 0 then complen else vlen)) % U64_MOD ∧
    (kvset_builder_add_vref P s seq vbidx vboff vlen complen env).2.key_stats.tot_vlen =
      (s.key_stats.tot_vlen + (if complen ≠ 0 then complen else vlen)) % U64_MOD ∧
    (kvset_builder_add_vref P s seq vbidx vboff vlen complen env).2.key_stats.nvals =
      (s.key_stats.nvals + 1) % UINT_MOD ∧
    (kvset_builder_add_vref P s seq vbidx vboff vlen complen env).2.seqno_min
      = min s.seqno_min seq ∧
    (kvset_builder_add_vref P s seq vbidx vboff vlen complen env).2.seqno_max
      = max s.seqno_max seq ∧
    (kvset_builder_add_vref P s seq vbidx vboff vlen complen env).2.calls = s.calls ∧
    (kvset_builder_add_vref P s seq vbidx vboff vlen complen env).2.key_stats.ntombs
      = s.key_stats.ntombs ∧
    (kvset_builder_add_vref P s seq vbidx vboff vlen complen env).2.key_stats.nptombs
      = s.key_stats.nptombs ∧
    (kvset_builder_add_vref P s seq vbidx vboff vlen complen env).2.key_stats.c0_vlen
      = s.key_stats.c0_vlen ∧
    (kvset_builder_add_vref P s seq vbidx vboff vlen complen env).2.key_stats.c1_vlen
      = s.key_stats.c1_vlen ∧
    (kvset_builder_add_vref P s seq vbidx vboff vlen complen env).2.key_stats.seqno_prev
      = s.key_stats.seqno_prev ∧
    (kvset_builder_add_vref P s seq vbidx vboff vlen complen env).2.sec = s.sec := by
  rw [add_vref_eq P s seq vbidx vboff vlen complen env hres]
  exact ⟨rfl, rfl, rfl, rfl, rfl, rfl, rfl, rfl, rfl, rfl, rfl, rfl, rfl, rfl⟩

theorem add_vref_effect_witness :
    (kvset_builder_add_vref hse_params bld_after_5a 4 2 64 100 40 env_good).1 = .ok ∧
    (kvset_builder_add_vref hse_params bld_after_5a 4 2 64 100 40 env_good).2.vused =
      (bld_after_5a.vused + (if 40 ≠ 0 then 40 else 100)) % U64_MOD :=
  ⟨(add_vref_effect hse_params bld_after_5a 4 2 64 100 40 env_good (by decide)).1,
    (add_vref_effect hse_params bld_after_5a 4 2 64 100 40 env_good (by decide)).2.2.1⟩

/-! ## Upstream reuse -/

/-- C15: on the out-of-line path of `kvset_builder_add_val`, when the upstream check
reports that the value exists at `(vbidx, vboff)`: with `complen > 0` the call
returns `EBUG` and the builder is the one the reservation left (no record
appended, no writer call, `vused`, the counters and `seqno_min`/`seqno_max`
untouched); with `complen = 0` a val record carrying `(seq, vbidx, vboff, vlen)`
is appended to the main buffer, `vlen` is added to `c1_vlen` (and to `vused` and
`tot_vlen`), and `c0_vlen`, the writer calls and the compression scratch are
untouched. -/
theorem add_val_upstream_reuse (P : params) (s : kvset_builder) (seq : Nat) (vdata : vdata_t)
    (vlen complen vbidx vboff vbid : Nat) (env : add_env)
    (hres : (reserve_kmd env.malloc_kmd s.main).1 = 0)
    (hool : takes_ool P vdata vlen complen)
    (hex : env.vblock_exists = some (vbidx, vboff, vbid)) :
    (complen > 0 →
      kvset_builder_add_val P s seq vdata vlen complen true env =
        (.EBUG, { s with main := (reserve_kmd env.malloc_kmd s.main).2 }) ∧
      (reserve_kmd env.malloc_kmd s.main).2.kmd_used = s.main.kmd_used) ∧
    (complen = 0 →
      kvset_builder_add_val P s seq vdata vlen complen true env =
        (if seq > s.key_stats.seqno_prev then .EINVAL else .ok,
          { s with
            main := kmd_add P (reserve_kmd env.malloc_kmd s.main).2 (.val seq vbidx vboff vlen)
            vused := (s.vused + vlen) % U64_MOD
            key_stats :=
              { s.key_stats with
                c1_vlen := (s.key_stats.c1_vlen + vlen) % U64_MOD
                tot_vlen := (s.key_stats.tot_vlen + vlen) % U64_MOD
                nvals := (s.key_stats.nvals + 1) % UINT_MOD
                seqno_prev := seq }
            seqno_max := max s.seqno_max seq
            seqno_min := min s.seqno_min seq })) := by
  have hpfx : vdata ≠ .HSE_CORE_TOMB_PFX := hool.2.1
  have hr := reserve_eq_main s vdata env hpfx
  have hres2 : (add_val_reserve s vdata env).1 = 0 := by rw [hr]; exact hres
  have hcv : (if true = true then env.vblock_exists else none) = some (vbidx, vboff, vbid) := by
    simp [hex]
  have heq := add_val_of_reserved P s seq vdata vlen complen true env hres2
  rw [record_ool_eq P _ seq vdata vlen complen true env hool,
    ool_reused_eq _ _ _ _ _ _ _ _ _ _ _ hcv, hr] at heq
  constructor
  · intro hc
    refine ⟨?_, reserve_kmd_used _ _⟩
    rw [heq]
    simp [add_val_reuse, hc]
  · intro hc
    subst hc
    rw [heq]
    simp only [add_val_reuse, add_val_kmd, add_val_seqno, kmd_add_val]
    simp only [hpfx, if_false, gt_iff_lt, lt_self_iff_false, ne_eq, not_true_eq_false,
      not_false_eq_true, if_true]
    split_ifs <;> rfl

theorem add_val_upstream_reuse_witness :
    kvset_builder_add_val hse_params bld_after_5a 4 nine_bytes 9 3 true env_upstream =
      (.EBUG,
        { bld_after_5a with main := (reserve_kmd env_upstream.malloc_kmd bld_after_5a.main).2 }) ∧
    (kvset_builder_add_val hse_params bld_after_5a 4 nine_bytes 9 0 true env_upstream).1 = .ok :=
  ⟨((add_val_upstream_reuse hse_params bld_after_5a 4 nine_bytes 9 3 2 64 9 env_upstream
      (by decide) (by decide) rfl).1 (by decide)).1,
    by decide⟩

/-! ## Compression: evaluation at two compressor answers -/

theorem mem_block_length (n : Nat) (f : Nat → Nat) : (mem_block n f).length = n := by
  simp [mem_block]

theorem mem_write_nil_length (buf : List Nat) : (mem_write buf 0 []).length = buf.length := by
  simp [mem_write]

/-- C16 (evaluation at the failing input): with a compressor that reports success
and stores the length `0`, `kvset_builder_add_val` of a nine-byte value returns
`0`, but the bytes it hands to the value-block writer are the scratch buffer
(4096 bytes as allocated) with length 9, not the caller's nine bytes. -/
theorem compress_zero_len_writes_scratch :
    (kvset_builder_add_val hse_params (fresh_builder hse_params cn_zero_len) 5 nine_bytes 9 0
      false env_good).1 = .ok ∧
    (kvset_builder_add_val hse_params (fresh_builder hse_params cn_zero_len) 5 nine_bytes 9 0
      false env_good).2.calls =
      (fresh_builder hse_params cn_zero_len).calls ++
        [ext_call.vbb_add_entry (.data (mem_write (mem_block 4096 (fun _ => 0)) 0 [])) 9] ∧
    vdata_t.data (mem_write (mem_block 4096 (fun _ => 0)) 0 []) ≠ nine_bytes ∧
    (kvset_builder_add_val hse_params (fresh_builder hse_params cn_zero_len) 5 nine_bytes 9 0
      false env_good).2.main =
      kmd_add hse_params
        (reserve_kmd env_good.malloc_kmd (fresh_builder hse_params cn_zero_len).main).2
        (.val 5 0 0 9) := by
  refine ⟨by rfl, by rfl, ?_, by rfl⟩
  intro h
  unfold nine_bytes at h
  injection h with h
  have h2 := congrArg List.length h
  rw [mem_write_nil_length, mem_block_length] at h2
  simp only [List.length_cons, List.length_nil] at h2
  omega

/-- C17 (evaluation at the failing input): with a compressor that reports success
and an output as long as the input (`complen = vlen = 10`),
`kvset_builder_add_val` of a ten-byte value stores the compressed form: ten
scratch bytes go to the value-block writer and the record is a cval with
`complen = 10`, not a val. -/
theorem compress_no_gain_stored_compressed :
    (kvset_builder_add_val hse_params (fresh_builder hse_params cn_same_len) 5 ten_bytes 10 0
      false env_good).1 = .ok ∧
    (kvset_builder_add_val hse_params (fresh_builder hse_params cn_same_len) 5 ten_bytes 10 0
      false env_good).2.main =
      kmd_add hse_params
        (reserve_kmd env_good.malloc_kmd (fresh_builder hse_params cn_same_len).main).2
        (.cval 5 0 0 10 10) ∧
    written_omlen (kvset_builder_add_val hse_params (fresh_builder hse_params cn_same_len) 5
      ten_bytes 10 0 false env_good).2.calls = 10 ∧
    kmd_rec.cval 5 0 0 10 10 ≠ kmd_rec.val 5 0 0 10 := by
  refine ⟨by rfl, by rfl, by rfl, by decide⟩

/-! ## `kvset_builder_finish`, `kvset_builder_get_mblocks` and `kvset_builder_destroy` -/

theorem finish_cases (imp : kvset_builder) (env : finish_env) :
    (env.kbb_finish.1 ≠ .ok →
      kvset_builder_finish imp env =
        (env.kbb_finish.1,
          { imp with
            calls := imp.calls ++ [ext_call.kbb_finish imp.seqno_min imp.seqno_max]
            kblk_list := env.kbb_finish.2 })) ∧
    (env.kbb_finish.1 = .ok → env.kbb_finish.2.n_blks = 0 →
      kvset_builder_finish imp env =
        (.ok,
          { imp with
            calls := imp.calls ++
              [ext_call.kbb_finish imp.seqno_min imp.seqno_max, ext_call.vbb_destroy imp.vbb]
            kblk_list := env.kbb_finish.2
            vbb := false })) ∧
    (env.kbb_finish.1 = .ok → env.kbb_finish.2.n_blks ≠ 0 →
      kvset_builder_finish imp env =
        (env.vbb_finish.1,
          { imp with
            calls := imp.calls ++
              [ext_call.kbb_finish imp.seqno_min imp.seqno_max, ext_call.vbb_finish]
            kblk_list := env.kbb_finish.2
            vblk_list := env.vbb_finish.2 })) := by
  refine ⟨?_, ?_, ?_⟩
  · intro h
    unfold kvset_builder_finish
    simp [h]
  · intro h1 h2
    unfold kvset_builder_finish
    simp [h1, h2]
  · intro h1 h2
    unfold kvset_builder_finish
    by_cases h3 : env.vbb_finish.1 = .ok <;> simp [h1, h2, h3]

theorem get_mblocks_of_finish_ok (P : params) (self : kvset_builder) (mblks : kvset_mblocks)
    (env : finish_env) (h : (kvset_builder_finish self env).1 = .ok) :
    (kvset_builder_get_mblocks P self mblks env).1 = .ok ∧
    (kvset_builder_get_mblocks P self mblks env).2.1 =
      { (kvset_builder_finish self env).2 with
        kblk_list := { blks := none, n_blks := 0 }
        vblk_list := { blks := none, n_blks := 0 } } ∧
    (kvset_builder_get_mblocks P self mblks env).2.2.kblks
      = (kvset_builder_finish self env).2.kblk_list ∧
    (kvset_builder_get_mblocks P self mblks env).2.2.vblks
      = (kvset_builder_finish self env).2.vblk_list := by
  unfold kvset_builder_get_mblocks
  simp only [h, ne_eq, not_true_eq_false, if_false]
  split_ifs <;> exact ⟨rfl, rfl, rfl, rfl⟩

theorem get_mblocks_of_finish_err (P : params) (self : kvset_builder) (mblks : kvset_mblocks)
    (env : finish_env) (h : (kvset_builder_finish self env).1 ≠ .ok) :
    kvset_builder_get_mblocks P self mblks env =
      ((kvset_builder_finish self env).1, (kvset_builder_finish self env).2, mblks) := by
  unfold kvset_builder_get_mblocks
  simp only [h, ne_eq, not_false_eq_true, if_true]

theorem get_mblocks_ok_finish (P : params) (self : kvset_builder) (mblks : kvset_mblocks)
    (env : finish_env) (h : (kvset_builder_get_mblocks P self mblks env).1 = .ok) :
    (kvset_builder_finish self env).1 = .ok := by
  by_contra hn
  rw [get_mblocks_of_finish_err P self mblks env hn] at h
  exact hn h

/-- C18: after a `kvset_builder_get_mblocks` call that returns `0` the output holds
the kblock and vblock lists `kvset_builder_finish` produced (the array of block
ids and the count) together with `bl_vused = vused`, `bl_seqno_min = seqno_min`
and `bl_seqno_max = seqno_max`, and the builder's own `kblk_list` and
`vblk_list` are empty (`n_blks = 0`, null array), so `kvset_builder_destroy`
then passes two empty lists to `abort_mblocks`; when finish fails,
`kvset_builder_get_mblocks` returns that error and the output is the one it was
given. -/
theorem get_mblocks_transfer (P : params) (self : kvset_builder) (mblks : kvset_mblocks)
    (env : finish_env) :
    ((kvset_builder_get_mblocks P self mblks env).1 = .ok →
      (kvset_builder_get_mblocks P self mblks env).2.2.kblks
        = (kvset_builder_finish self env).2.kblk_list ∧
      (kvset_builder_get_mblocks P self mblks env).2.2.vblks
        = (kvset_builder_finish self env).2.vblk_list ∧
      (kvset_builder_get_mblocks P self mblks env).2.2.bl_vused = self.vused ∧
      (kvset_builder_get_mblocks P self mblks env).2.2.bl_seqno_min = self.seqno_min ∧
      (kvset_builder_get_mblocks P self mblks env).2.2.bl_seqno_max = self.seqno_max ∧
      (kvset_builder_get_mblocks P self mblks env).2.1.kblk_list = { blks := none, n_blks := 0 } ∧
      (kvset_builder_get_mblocks P self mblks env).2.1.vblk_list = { blks := none, n_blks := 0 } ∧
      kvset_builder_destroy (some (kvset_builder_get_mblocks P self mblks env).2.1) =
        [ext_call.abort_mblocks { blks := none, n_blks := 0 },
          ext_call.abort_mblocks { blks := none, n_blks := 0 },
          ext_call.kbb_destroy (kvset_builder_get_mblocks P self mblks env).2.1.kbb,
          ext_call.vbb_destroy (kvset_builder_get_mblocks P self mblks env).2.1.vbb]) ∧
    ((kvset_builder_finish self env).1 ≠ .ok →
      (kvset_builder_get_mblocks P self mblks env).1 = (kvset_builder_finish self env).1 ∧
      (kvset_builder_get_mblocks P self mblks env).2.2 = mblks) := by
  constructor
  · intro hok
    have hf := get_mblocks_ok_finish P self mblks env hok
    obtain ⟨-, g2, g3, g4⟩ := get_mblocks_of_finish_ok P self mblks env hf
    obtain ⟨s1, s2, s3⟩ := get_mblocks_stats P self mblks env hok
    refine ⟨g3, g4, s3, s1, s2, ?_, ?_, ?_⟩
    · rw [g2]
    · rw [g2]
    · rw [g2]
      rfl
  · intro hn
    rw [get_mblocks_of_finish_err P self mblks env hn]
    exact ⟨rfl, rfl⟩

theorem get_mblocks_transfer_witness :
    (kvset_builder_get_mblocks hse_params bld_after_5a mblks_zero fin_env_blocks).2.2.kblks
      = { blks := some [11], n_blks := 1 } ∧
    (kvset_builder_get_mblocks hse_params bld_after_5a mblks_zero fin_env_blocks).2.2.vblks
      = { blks := some [21, 22], n_blks := 2 } ∧
    (kvset_builder_get_mblocks hse_params bld_after_5a mblks_zero fin_env_blocks).2.1.kblk_list
      = { blks := none, n_blks := 0 } :=
  ⟨((get_mblocks_transfer hse_params bld_after_5a mblks_zero fin_env_blocks).1
      (by decide)).1.trans (by rfl),
    ((get_mblocks_transfer hse_params bld_after_5a mblks_zero fin_env_blocks).1
      (by decide)).2.1.trans (by rfl),
    ((get_mblocks_transfer hse_params bld_after_5a mblks_zero fin_env_blocks).1
      (by decide)).2.2.2.2.2.1⟩

/-! ## The fields the streaming calls never write -/

theorem add_key_handles (P : params) (s : kvset_builder) (kobj : Option (List Nat))
    (env : add_key_env) : handles_frame s (kvset_builder_add_key P s kobj env).2 := by
  unfold kvset_builder_add_key
  cases kobj with
  | none => simp [handles_frame]
  | some key =>
    simp only [add_key_commit, add_key_ptomb, add_key_entry, add_key_reset]
    split_ifs <;> simp [handles_frame]

theorem add_val_handles (P : params) (s : kvset_builder) (seq : Nat) (vdata : vdata_t)
    (vlen complen : Nat) (c1 : Bool) (env : add_env) :
    handles_frame s (kvset_builder_add_val P s seq vdata vlen complen c1 env).2 := by
  obtain ⟨-, -, -, -, -, b1, b2, b3, b4, b5, -, -, b6, b7⟩ :=
    record_frame_holds P (add_val_reserve s vdata env).2 seq vdata vlen complen c1 env
  obtain ⟨⟨-, -, -, -, -, r1, r2, r3, r4, r5, -, -, r6, r7⟩, -⟩ := reserve_frame s vdata env
  unfold kvset_builder_add_val
  dsimp only
  split_ifs
  · exact ⟨r1, r2, r3, r4, r5, r7, r6⟩
  · exact ⟨b1.trans r1, b2.trans r2, b3.trans r3, b4.trans r4, b5.trans r5, b7.trans r7,
      b6.trans r6⟩
  · rw [seqno_state]
    split_ifs <;>
      exact ⟨b1.trans r1, b2.trans r2, b3.trans r3, b4.trans r4, b5.trans r5, b7.trans r7,
        b6.trans r6⟩

theorem step_handles (P : params) (s : kvset_builder) (o : op) :
    handles_frame s (step P s o).2 := by
  cases o with
  | add_val seq vdata vlen complen c1 env => exact add_val_handles P s seq vdata vlen complen c1 env
  | add_vref seq vbidx vboff vlen complen env =>
    simp only [step, kvset_builder_add_vref]
    split_ifs <;> simp [handles_frame]
  | add_nonval seq vtype env =>
    simp only [step, kvset_builder_add_nonval]
    split_ifs <;> simp [handles_frame]
  | add_key kobj env => exact add_key_handles P s kobj env

theorem run_any_handles (P : params) (ops : List op) (s : kvset_builder) :
    handles_frame s (run_any P s ops) := by
  induction ops generalizing s with
  | nil => simp [run_any, handles_frame]
  | cons o os ih =>
    simp only [run_any]
    obtain ⟨a1, a2, a3, a4, a5, a6, a7⟩ := ih (step P s o).2
    obtain ⟨b1, b2, b3, b4, b5, b6, b7⟩ := step_handles P s o
    exact ⟨a1.trans b1, a2.trans b2, a3.trans b3, a4.trans b4, a5.trans b5, a6.trans b6,
      a7.trans b7⟩

/-! ## The calls the streaming operations make -/

theorem record_calls (P : params) (self : kvset_builder) (seq : Nat) (vdata : vdata_t)
    (vlen complen : Nat) (c1 : Bool) (env : add_env) :
    ∃ nc, (add_val_record P self seq vdata vlen complen c1 env).2.1.calls = self.calls ++ nc ∧
      ∀ c ∈ nc, is_add_call c = true := by
  obtain ⟨buf, sz, hc⟩ := compress_frame P self vdata vlen complen env
  unfold add_val_record
  split_ifs
  · exact ⟨[], by simp, by simp⟩
  · exact ⟨[], by simp, by simp⟩
  · exact ⟨[], by simp, by simp⟩
  · exact ⟨[], by simp, by simp⟩
  · rcases hcv : (if c1 = true then env.vblock_exists else none) with _ | ⟨vbidx, vboff, vbid⟩
    · rw [ool_written_eq _ _ _ _ _ _ _ _ hcv]
      unfold add_val_write
      rw [hc]
      refine ⟨[ext_call.vbb_add_entry (add_val_compress P self vdata vlen complen env).2.1
        (if (add_val_compress P self vdata vlen complen env).2.2 ≠ 0 then
          (add_val_compress P self vdata vlen complen env).2.2 else vlen)], ?_, ?_⟩
      · by_cases h : env.vbb_add_entry.1 = .ok <;> simp [h, add_val_kmd]
      · simp [is_add_call]
    · rw [ool_reused_eq _ _ _ _ _ _ _ _ _ _ _ hcv]
      unfold add_val_reuse
      split_ifs
      · exact ⟨[], by simp, by simp⟩
      · exact ⟨[], by simp [add_val_kmd], by simp⟩

theorem add_key_ptomb_calls (P : params) (s : kvset_builder) (key : List Nat)
    (env : add_key_env) :
    ∃ nc, (add_key_ptomb P s key env).2.calls = s.calls ++ nc ∧
      ∀ c ∈ nc, is_add_call c = true := by
  unfold add_key_ptomb
  dsimp only
  split_ifs
  · exact ⟨[ext_call.kbb_add_ptomb key s.sec.kmd s.sec.kmd_used s.key_stats], rfl,
      by simp [is_add_call]⟩
  · exact ⟨[ext_call.kbb_add_ptomb key s.sec.kmd s.sec.kmd_used s.key_stats], rfl,
      by simp [is_add_call]⟩
  · exact ⟨[ext_call.kbb_add_ptomb key s.sec.kmd s.sec.kmd_used s.key_stats], rfl,
      by simp [is_add_call]⟩
  · exact ⟨[], by simp, by simp⟩

theorem add_key_entry_calls (s : kvset_builder) (key : List Nat) (env : add_key_env)
    (err : merr_t) :
    ∃ nc, (add_key_entry s key env err).2.calls = s.calls ++ nc ∧
      ∀ c ∈ nc, is_add_call c = true := by
  unfold add_key_entry
  split_ifs
  · exact ⟨[ext_call.kbb_add_entry key s.main.kmd s.main.kmd_used s.key_stats], rfl,
      by simp [is_add_call]⟩
  · exact ⟨[], by simp, by simp⟩

theorem add_key_commit_calls (P : params) (s : kvset_builder) (key : List Nat)
    (env : add_key_env) :
    ∃ nc, (add_key_commit P s key env).2.calls = s.calls ++ nc ∧
      ∀ c ∈ nc, is_add_call c = true := by
  obtain ⟨n1, h1, h2⟩ := add_key_ptomb_calls P s key env
  obtain ⟨n2, h3, h4⟩ := add_key_entry_calls (add_key_ptomb P s key env).2 key env
    (add_key_ptomb P s key env).1
  have hall : ∀ c ∈ n1 ++ n2, is_add_call c = true := by
    intro c hc
    rcases List.mem_append.mp hc with hc | hc
    · exact h2 c hc
    · exact h4 c hc
  unfold add_key_commit
  dsimp only
  split_ifs
  · exact ⟨n1, h1, h2⟩
  · exact ⟨n1 ++ n2, by rw [h3, h1, List.append_assoc], hall⟩
  · exact ⟨n1 ++ n2, by simp only [add_key_reset]; rw [h3, h1, List.append_assoc], hall⟩

theorem step_calls (P : params) (s : kvset_builder) (o : op) :
    ∃ nc, (step P s o).2.calls = s.calls ++ nc ∧ ∀ c ∈ nc, is_add_call c = true := by
  cases o with
  | add_val seq vdata vlen complen c1 env =>
    obtain ⟨nc, h1, h2⟩ :=
      record_calls P (add_val_reserve s vdata env).2 seq vdata vlen complen c1 env
    obtain ⟨-, -, -, hrc⟩ := reserve_frame s vdata env
    rw [hrc] at h1
    simp only [step, kvset_builder_add_val]
    split_ifs
    · exact ⟨[], by simp [hrc], by simp⟩
    · exact ⟨nc, h1, h2⟩
    · refine ⟨nc, ?_, h2⟩
      rw [seqno_state]
      split_ifs <;> exact h1
  | add_vref seq vbidx vboff vlen complen env =>
    simp only [step, kvset_builder_add_vref]
    split_ifs <;> exact ⟨[], by simp, by simp⟩
  | add_nonval seq vtype env =>
    simp only [step, kvset_builder_add_nonval]
    split_ifs <;> exact ⟨[], by simp, by simp⟩
  | add_key kobj env =>
    simp only [step, kvset_builder_add_key]
    cases kobj with
    | none => exact ⟨[], by simp, by simp⟩
    | some key =>
      dsimp only
      split_ifs
      · exact ⟨[], by simp, by simp⟩
      · exact add_key_commit_calls P s key env

theorem run_any_calls (P : params) (ops : List op) (s : kvset_builder) :
    ∃ nc, (run_any P s ops).calls = s.calls ++ nc ∧ ∀ c ∈ nc, is_add_call c = true := by
  induction ops generalizing s with
  | nil => exact ⟨[], by simp [run_any], by simp⟩
  | cons o os ih =>
    obtain ⟨n1, h1, h2⟩ := step_calls P s o
    obtain ⟨n2, h3, h4⟩ := ih (step P s o).2
    refine ⟨n1 ++ n2, ?_, ?_⟩
    · simp only [run_any]
      rw [h3, h1, List.append_assoc]
    · intro c hc
      rcases List.mem_append.mp hc with hc | hc
      · exact h2 c hc
      · exact h4 c hc

theorem count_of_add_calls (nc : List ext_call) (h : ∀ c ∈ nc, is_add_call c = true) :
    vbb_destroy_count nc = 0 ∧ vbb_finish_count nc = 0 := by
  induction nc with
  | nil => exact ⟨rfl, rfl⟩
  | cons c cs ih =>
    have hc := h c (List.mem_cons_self _ _)
    obtain ⟨i1, i2⟩ := ih (fun x hx => h x (List.mem_cons_of_mem _ hx))
    cases c <;> simp [is_add_call] at hc <;> simp [vbb_destroy_count, vbb_finish_count, i1, i2]

theorem vbb_destroy_count_append (a b : List ext_call) :
    vbb_destroy_count (a ++ b) = vbb_destroy_count a + vbb_destroy_count b := by
  induction a with
  | nil => simp [vbb_destroy_count]
  | cons c cs ih =>
    cases c with
    | vbb_destroy handle =>
      cases handle <;> simp [vbb_destroy_count, ih]
      omega
    | _ => simp [vbb_destroy_count, ih]

theorem vbb_finish_count_append (a b : List ext_call) :
    vbb_finish_count (a ++ b) = vbb_finish_count a + vbb_finish_count b := by
  induction a with
  | nil => simp [vbb_finish_count]
  | cons c cs ih =>
    cases c <;> simp [vbb_finish_count, ih]
    omega

/-! ## Finish without kblocks -/

/-- The builder reached from a created one by streaming calls still has the two
handles, the empty block lists and no `vbb_destroy` or `vbb_finish` call behind
it. -/
theorem reachable_handles (P : params) (cn : cn_t) (cenv : create_env) (b : kvset_builder)
    (cl : List ext_call) (ops : List op)
    (hc : kvset_builder_create P cn cenv = (.ok, some b, cl)) :
    (run_any P b ops).vbb = true ∧ (run_any P b ops).kbb = true ∧
    (run_any P b ops).vblk_list = { blks := none, n_blks := 0 } ∧
    vbb_destroy_count (run_any P b ops).calls = 0 ∧
    vbb_finish_count (run_any P b ops).calls = 0 := by
  have hb := create_ok_eq P cn cenv b cl hc
  obtain ⟨-, h2, h3, -, h5, -⟩ := run_any_handles P ops b
  obtain ⟨nc, hcalls, hadd⟩ := run_any_calls P ops b
  obtain ⟨c1, c2⟩ := count_of_add_calls nc hadd
  rw [h2, h3, h5, hcalls, vbb_destroy_count_append, vbb_finish_count_append, c1, c2, hb]
  exact ⟨rfl, rfl, rfl, rfl, rfl⟩

/-! ## The last prefix tombstone of a capped kvset -/

theorem add_val_ptomb_eq (P : params) (s : kvset_builder) (seq vlen complen : Nat) (c1 : Bool)
    (env : add_env) (hres : (reserve_kmd env.malloc_kmd s.sec).1 = 0) :
    kvset_builder_add_val P s seq .HSE_CORE_TOMB_PFX vlen complen c1 env =
      (if seq > s.key_stats.seqno_prev_ptomb then .EINVAL else .ok,
        { s with
          sec := kmd_add P (reserve_kmd env.malloc_kmd s.sec).2 (.ptomb seq)
          key_stats :=
            { s.key_stats with
              nptombs := (s.key_stats.nptombs + 1) % UINT_MOD
              seqno_prev_ptomb := seq }
          last_ptseq := seq
          seqno_max := max s.seqno_max seq
          seqno_min := min s.seqno_min seq }) := by
  have hr := reserve_eq_sec s env
  have hres2 : (add_val_reserve s .HSE_CORE_TOMB_PFX env).1 = 0 := by rw [hr]; exact hres
  rw [add_val_of_reserved P s seq _ vlen complen c1 env hres2, record_ptomb_eq, hr]
  simp only [add_val_seqno, ne_eq, not_true_eq_false, if_false, if_true]
  split_ifs <;> rfl

theorem add_key_last (P : params) (s : kvset_builder) (kobj : Option (List Nat))
    (env : add_key_env) :
    (kvset_builder_add_key P s kobj env).2.last_ptseq = s.last_ptseq ∧
    (s.key_stats.nptombs = 0 ∨ s.cn.flags &&& P.CN_CFLAG_CAPPED = 0 →
      (kvset_builder_add_key P s kobj env).2.last_ptomb = s.last_ptomb ∧
      (kvset_builder_add_key P s kobj env).2.last_ptlen = s.last_ptlen) := by
  unfold kvset_builder_add_key
  cases kobj with
  | none => exact ⟨rfl, fun _ => ⟨rfl, rfl⟩⟩
  | some key =>
    dsimp only
    by_cases hlen : key_obj_len key = 0 ∨ key_obj_len key > P.HSE_KVS_KLEN_MAX
    · rw [if_pos hlen]
      exact ⟨rfl, fun _ => ⟨rfl, rfl⟩⟩
    · rw [if_neg hlen]
      constructor
      · simp only [add_key_commit, add_key_ptomb, add_key_entry, add_key_reset]
        split_ifs <;> rfl
      · intro h
        rcases h with h | h
        · simp only [add_key_commit, add_key_ptomb, add_key_entry, add_key_reset, h,
            gt_iff_lt, lt_self_iff_false, if_false]
          split_ifs <;> exact ⟨rfl, rfl⟩
        · simp only [add_key_commit, add_key_ptomb, add_key_entry, add_key_reset, h,
            ne_eq, not_true_eq_false, if_false]
          split_ifs <;> exact ⟨rfl, rfl⟩

theorem add_key_ok_capped (P : params) (s : kvset_builder) (key : List Nat)
    (env : add_key_env)
    (hcap : s.cn.flags &&& P.CN_CFLAG_CAPPED ≠ 0) (hpt : s.key_stats.nptombs > 0)
    (hok : (kvset_builder_add_key P s (some key) env).1 = .ok) :
    (kvset_builder_add_key P s (some key) env).2.last_ptomb =
      (key_obj_copy s.last_ptomb P.last_ptomb_sz key).1 ∧
    (kvset_builder_add_key P s (some key) env).2.last_ptlen =
      (key_obj_copy s.last_ptomb P.last_ptomb_sz key).2 := by
  obtain ⟨k, hk, hst⟩ := add_key_ok_commit P s (some key) env hok
  simp only [Option.some.injEq] at hk
  subst hk
  have hp : (add_key_ptomb P s key env).1 = .ok := by
    unfold kvset_builder_add_key at hok
    by_contra hn
    by_cases hlen : key_obj_len key = 0 ∨ key_obj_len key > P.HSE_KVS_KLEN_MAX
    · simp [hlen] at hok
    · simp only [hlen, if_false, add_key_commit, ne_eq, hn, not_false_eq_true, if_true] at hok
  have hpe : env.kbb_add_ptomb = .ok := by
    by_contra hn
    unfold add_key_ptomb at hp
    simp [hpt, hn] at hp
  rw [hst]
  simp only [add_key_reset, add_key_entry, add_key_ptomb, hpt, hpe, hcap, ne_eq,
    not_true_eq_false, not_false_eq_true, if_true, if_false]
  split_ifs <;> exact ⟨rfl, rfl⟩

theorem get_mblocks_last (P : params) (self : kvset_builder) (mblks : kvset_mblocks)
    (env : finish_env) (hok : (kvset_builder_get_mblocks P self mblks env).1 = .ok) :
    (self.cn.flags &&& P.CN_CFLAG_CAPPED ≠ 0 →
      (kvset_builder_get_mblocks P self mblks env).2.2.bl_last_ptomb = self.last_ptomb ∧
      (kvset_builder_get_mblocks P self mblks env).2.2.bl_last_ptlen = self.last_ptlen ∧
      (kvset_builder_get_mblocks P self mblks env).2.2.bl_last_ptseq = self.last_ptseq) ∧
    (self.cn.flags &&& P.CN_CFLAG_CAPPED = 0 →
      (kvset_builder_get_mblocks P self mblks env).2.2.bl_last_ptomb = mblks.bl_last_ptomb ∧
      (kvset_builder_get_mblocks P self mblks env).2.2.bl_last_ptlen = mblks.bl_last_ptlen ∧
      (kvset_builder_get_mblocks P self mblks env).2.2.bl_last_ptseq = mblks.bl_last_ptseq) := by
  have hf : (kvset_builder_finish self env).2.cn = self.cn ∧
      (kvset_builder_finish self env).2.last_ptomb = self.last_ptomb ∧
      (kvset_builder_finish self env).2.last_ptlen = self.last_ptlen ∧
      (kvset_builder_finish self env).2.last_ptseq = self.last_ptseq := by
    unfold kvset_builder_finish
    dsimp only
    split_ifs <;> exact ⟨rfl, rfl, rfl, rfl⟩
  obtain ⟨f1, f2, f3, f4⟩ := hf
  have hfin := get_mblocks_ok_finish P self mblks env hok
  unfold kvset_builder_get_mblocks
  simp only [hfin, ne_eq, not_true_eq_false, if_false, f1]
  constructor
  · intro hcap
    rw [if_pos hcap]
    exact ⟨f2, f3, f4⟩
  · intro hcap
    rw [if_neg (by simp [hcap])]
    exact ⟨rfl, rfl, rfl⟩

theorem key_obj_copy_take (buf : List Nat) (bufsz : Nat) (key : List Nat)
    (h : key_obj_len key ≤ bufsz) :
    (key_obj_copy buf bufsz key).1.take (key_obj_len key) = key ∧
    (key_obj_copy buf bufsz key).2 = key_obj_len key := by
  unfold key_obj_copy memcpy
  unfold key_obj_len at h ⊢
  simp [Nat.min_eq_left h]

theorem key_obj_copy_parts (buf : List Nat) (bufsz : Nat) (key : List Nat) :
    (key_obj_copy buf bufsz key).1.take (min (key_obj_len key) bufsz)
      = key.take (min (key_obj_len key) bufsz) ∧
    (key_obj_copy buf bufsz key).1.drop (min (key_obj_len key) bufsz)
      = buf.drop (min (key_obj_len key) bufsz) ∧
    (key_obj_copy buf bufsz key).2 = key_obj_len key := by
  unfold key_obj_copy memcpy key_obj_len
  have hl : (key.take (min key.length bufsz)).length = min key.length bufsz := by
    rw [List.length_take]
    omega
  refine ⟨?_, ?_, rfl⟩
  · show (key.take (min key.length bufsz) ++ buf.drop (min key.length bufsz)).take
      (min key.length bufsz) = _
    rw [List.take_append_of_le_length (le_of_eq hl.symm), List.take_take, min_self]
  · show (key.take (min key.length bufsz) ++ buf.drop (min key.length bufsz)).drop
      (min key.length bufsz) = _
    rw [List.drop_append_of_le_length (le_of_eq hl.symm), List.drop_of_length_le (le_of_eq hl)]
    rfl

/-- C20 as the code has it, at a key longer than the `last_ptomb` array: on a capped
owner, after the prefix tombstone `seq = 7` and a successful
`kvset_builder_add_key` of a 40-byte key, `last_ptomb` holds 32 bytes, not the
bytes of the key, while `last_ptlen` is 40. -/
theorem last_ptomb_truncates_long_key :
    (kvset_builder_add_key hse_params
      (kvset_builder_add_val hse_params (fresh_builder hse_params cn_capped) 7
        .HSE_CORE_TOMB_PFX 0 0 false env_good).2
      (some key_40) key_env_good).1 = .ok ∧
    (kvset_builder_add_key hse_params
      (kvset_builder_add_val hse_params (fresh_builder hse_params cn_capped) 7
        .HSE_CORE_TOMB_PFX 0 0 false env_good).2
      (some key_40) key_env_good).2.last_ptomb.take (key_obj_len key_40) ≠ key_40 ∧
    (kvset_builder_add_key hse_params
      (kvset_builder_add_val hse_params (fresh_builder hse_params cn_capped) 7
        .HSE_CORE_TOMB_PFX 0 0 false env_good).2
      (some key_40) key_env_good).2.last_ptomb.length = 32 ∧
    (kvset_builder_add_key hse_params
      (kvset_builder_add_val hse_params (fresh_builder hse_params cn_capped) 7
        .HSE_CORE_TOMB_PFX 0 0 false env_good).2
      (some key_40) key_env_good).2.last_ptlen = 40 := by
  decide

/-- C20 (amended): last-ptomb tracking.  On a capped owner, after a successful
`kvset_builder_add_val(seq, HSE_CORE_TOMB_PFX)` followed by a successful
`kvset_builder_add_key(key)`, `last_ptseq` is `seq`; when the 32-bit counter
`nptombs` is not zero at the `add_key`, `last_ptomb` is what the bounded copy of
the key leaves in it, so its first `min (length of key) (size of last_ptomb)`
bytes are the first bytes of `key` (all of `key` when it fits the array),
and `last_ptlen` is the full length of the key; when the counter has wrapped
to zero `last_ptomb` and `last_ptlen` stay as they were.
`kvset_builder_get_mblocks` reports the three as `bl_last_ptomb`,
`bl_last_ptlen` and `bl_last_ptseq`; an `add_key` for a key with `nptombs = 0`
leaves `last_ptomb` and `last_ptlen` unchanged; on an owner that is not capped
`add_key` never changes them and `get_mblocks` does not write the three
`bl_last_*` fields. -/
theorem last_ptomb_tracking (P : params) (s : kvset_builder) :
    (∀ seq vlen complen c1 env key kenv,
      s.cn.flags &&& P.CN_CFLAG_CAPPED ≠ 0 →
      (kvset_builder_add_val P s seq .HSE_CORE_TOMB_PFX vlen complen c1 env).1 = .ok →
      (kvset_builder_add_key P
        (kvset_builder_add_val P s seq .HSE_CORE_TOMB_PFX vlen complen c1 env).2
        (some key) kenv).1 = .ok →
      (kvset_builder_add_key P
        (kvset_builder_add_val P s seq .HSE_CORE_TOMB_PFX vlen complen c1 env).2
        (some key) kenv).2.last_ptseq = seq ∧
      ((s.key_stats.nptombs + 1) % UINT_MOD ≠ 0 →
        (kvset_builder_add_key P
          (kvset_builder_add_val P s seq .HSE_CORE_TOMB_PFX vlen complen c1 env).2
          (some key) kenv).2.last_ptomb = (key_obj_copy s.last_ptomb P.last_ptomb_sz key).1 ∧
        (kvset_builder_add_key P
          (kvset_builder_add_val P s seq .HSE_CORE_TOMB_PFX vlen complen c1 env).2
          (some key) kenv).2.last_ptomb.take (min (key_obj_len key) P.last_ptomb_sz)
            = key.take (min (key_obj_len key) P.last_ptomb_sz) ∧
        (kvset_builder_add_key P
          (kvset_builder_add_val P s seq .HSE_CORE_TOMB_PFX vlen complen c1 env).2
          (some key) kenv).2.last_ptomb.drop (min (key_obj_len key) P.last_ptomb_sz)
            = s.last_ptomb.drop (min (key_obj_len key) P.last_ptomb_sz) ∧
        (kvset_builder_add_key P
          (kvset_builder_add_val P s seq .HSE_CORE_TOMB_PFX vlen complen c1 env).2
          (some key) kenv).2.last_ptlen = key_obj_len key ∧
        (key_obj_len key ≤ P.last_ptomb_sz →
          (kvset_builder_add_key P
            (kvset_builder_add_val P s seq .HSE_CORE_TOMB_PFX vlen complen c1 env).2
            (some key) kenv).2.last_ptomb.take (key_obj_len key) = key)) ∧
      ((s.key_stats.nptombs + 1) % UINT_MOD = 0 →
        (kvset_builder_add_key P
          (kvset_builder_add_val P s seq .HSE_CORE_TOMB_PFX vlen complen c1 env).2
          (some key) kenv).2.last_ptomb = s.last_ptomb ∧
        (kvset_builder_add_key P
          (kvset_builder_add_val P s seq .HSE_CORE_TOMB_PFX vlen complen c1 env).2
          (some key) kenv).2.last_ptlen = s.last_ptlen)) ∧
    (∀ mblks fenv, (kvset_builder_get_mblocks P s mblks fenv).1 = .ok →
      (s.cn.flags &&& P.CN_CFLAG_CAPPED ≠ 0 →
        (kvset_builder_get_mblocks P s mblks fenv).2.2.bl_last_ptomb = s.last_ptomb ∧
        (kvset_builder_get_mblocks P s mblks fenv).2.2.bl_last_ptlen = s.last_ptlen ∧
        (kvset_builder_get_mblocks P s mblks fenv).2.2.bl_last_ptseq = s.last_ptseq) ∧
      (s.cn.flags &&& P.CN_CFLAG_CAPPED = 0 →
        (kvset_builder_get_mblocks P s mblks fenv).2.2.bl_last_ptomb = mblks.bl_last_ptomb ∧
        (kvset_builder_get_mblocks P s mblks fenv).2.2.bl_last_ptlen = mblks.bl_last_ptlen ∧
        (kvset_builder_get_mblocks P s mblks fenv).2.2.bl_last_ptseq = mblks.bl_last_ptseq)) ∧
    (∀ kobj kenv, s.key_stats.nptombs = 0 ∨ s.cn.flags &&& P.CN_CFLAG_CAPPED = 0 →
      (kvset_builder_add_key P s kobj kenv).2.last_ptomb = s.last_ptomb ∧
      (kvset_builder_add_key P s kobj kenv).2.last_ptlen = s.last_ptlen) := by
  refine ⟨?_, ?_, ?_⟩
  · intro seq vlen complen c1 env key kenv hcap hv hk
    obtain ⟨hres, -⟩ := add_val_ok_passed P s seq _ vlen complen c1 env hv
    rw [reserve_eq_sec] at hres
    have heq := add_val_ptomb_eq P s seq vlen complen c1 env hres
    have e1 : (kvset_builder_add_val P s seq .HSE_CORE_TOMB_PFX vlen complen c1 env).2.cn
        = s.cn := by rw [heq]
    have e2 : (kvset_builder_add_val P s seq .HSE_CORE_TOMB_PFX vlen complen c1
        env).2.key_stats.nptombs = (s.key_stats.nptombs + 1) % UINT_MOD := by rw [heq]
    have e3 : (kvset_builder_add_val P s seq .HSE_CORE_TOMB_PFX vlen complen c1 env).2.last_ptomb
        = s.last_ptomb := by rw [heq]
    have e4 : (kvset_builder_add_val P s seq .HSE_CORE_TOMB_PFX vlen complen c1 env).2.last_ptseq
        = seq := by rw [heq]
    have e5 : (kvset_builder_add_val P s seq .HSE_CORE_TOMB_PFX vlen complen c1 env).2.last_ptlen
        = s.last_ptlen := by rw [heq]
    refine ⟨?_, ?_, ?_⟩
    · rw [(add_key_last P _ (some key) kenv).1, e4]
    · intro hnz
      obtain ⟨c1, c2⟩ := add_key_ok_capped P
        (kvset_builder_add_val P s seq .HSE_CORE_TOMB_PFX vlen complen c1 env).2 key kenv
        (by rw [e1]; exact hcap) (by rw [e2]; omega) hk
      obtain ⟨k1, k2, k3⟩ := key_obj_copy_parts s.last_ptomb P.last_ptomb_sz key
      rw [c1, c2, e3]
      refine ⟨rfl, k1, k2, k3, ?_⟩
      intro hlen
      exact (key_obj_copy_take s.last_ptomb P.last_ptomb_sz key hlen).1
    · intro hz
      obtain ⟨a1, a2⟩ := (add_key_last P
        (kvset_builder_add_val P s seq .HSE_CORE_TOMB_PFX vlen complen c1 env).2 (some key)
        kenv).2 (Or.inl (by rw [e2]; exact hz))
      rw [a1, a2, e3, e5]
      exact ⟨rfl, rfl⟩
  · intro mblks fenv hok
    exact get_mblocks_last P s mblks fenv hok
  · intro kobj kenv h
    exact (add_key_last P s kobj kenv).2 h

theorem last_ptomb_tracking_witness :
    (kvset_builder_add_key hse_params
      (kvset_builder_add_val hse_params (fresh_builder hse_params cn_capped) 7
        .HSE_CORE_TOMB_PFX 0 0 false env_good).2
      (some [112, 47]) key_env_good).2.last_ptseq = 7 ∧
    (kvset_builder_add_key hse_params
      (kvset_builder_add_val hse_params (fresh_builder hse_params cn_capped) 7
        .HSE_CORE_TOMB_PFX 0 0 false env_good).2
      (some [112, 47]) key_env_good).2.last_ptlen = key_obj_len [112, 47] ∧
    (kvset_builder_add_key hse_params
      (kvset_builder_add_val hse_params (fresh_builder hse_params cn_capped) 7
        .HSE_CORE_TOMB_PFX 0 0 false env_good).2
      (some [112, 47]) key_env_good).2.last_ptomb.take (key_obj_len [112, 47]) = [112, 47] ∧
    (kvset_builder_add_key hse_params
      (kvset_builder_add_val hse_params (fresh_builder hse_params cn_capped) 7
        .HSE_CORE_TOMB_PFX 0 0 false env_good).2
      (some key_40) key_env_good).2.last_ptomb.take (min (key_obj_len key_40) 32)
        = key_40.take (min (key_obj_len key_40) 32) :=
  ⟨((last_ptomb_tracking hse_params (fresh_builder hse_params cn_capped)).1 7 0 0 false env_good
      [112, 47] key_env_good (by decide) (by decide) (by decide)).1,
    (((last_ptomb_tracking hse_params (fresh_builder hse_params cn_capped)).1 7 0 0 false env_good
      [112, 47] key_env_good (by decide) (by decide) (by decide)).2.1 (by decide)).2.2.2.1,
    (((last_ptomb_tracking hse_params (fresh_builder hse_params cn_capped)).1 7 0 0 false env_good
      [112, 47] key_env_good (by decide) (by decide) (by decide)).2.1 (by decide)).2.2.2.2
      (by decide),
    (((last_ptomb_tracking hse_params (fresh_builder hse_params cn_capped)).1 7 0 0 false env_good
      key_40 key_env_good (by decide) (by decide) (by decide)).2.1 (by decide)).2.1⟩

/-! ## `reserve_kmd` -/

theorem reserve_kmd_noop (malloc : Option (Nat → Nat)) (ki : kmd_info)
    (h : ki.kmd_size ≥ (ki.kmd_used + 256) % UINT_MOD) : reserve_kmd malloc ki = (0, ki) := by
  unfold reserve_kmd
  dsimp only
  rw [if_pos h]

theorem reserve_kmd_none (ki : kmd_info)
    (h : ¬ ki.kmd_size ≥ (ki.kmd_used + 256) % UINT_MOD) : reserve_kmd none ki = (-1, ki) := by
  unfold reserve_kmd
  dsimp only
  rw [if_neg h]

theorem reserve_kmd_some_fst (f : Nat → Nat) (ki : kmd_info) :
    (reserve_kmd (some f) ki).1 = 0 := by
  unfold reserve_kmd
  dsimp only
  by_cases h : ki.kmd_size ≥ (ki.kmd_used + 256) % UINT_MOD
  · rw [if_pos h]
  · rw [if_neg h]

theorem reserve_kmd_cases (malloc : Option (Nat → Nat)) (ki : kmd_info) :
    (reserve_kmd malloc ki).1 = 0 ∨
      ((reserve_kmd malloc ki).1 = -1 ∧ (reserve_kmd malloc ki).2 = ki) := by
  by_cases h : ki.kmd_size ≥ (ki.kmd_used + 256) % UINT_MOD
  · rw [reserve_kmd_noop malloc ki h]
    exact Or.inl rfl
  · cases malloc with
    | none =>
      rw [reserve_kmd_none ki h]
      exact Or.inr ⟨rfl, rfl⟩
    | some f => exact Or.inl (reserve_kmd_some_fst f ki)

theorem reserve_kmd_fail (malloc : Option (Nat → Nat)) (ki : kmd_info)
    (h : (reserve_kmd malloc ki).1 ≠ 0) : (reserve_kmd malloc ki).2 = ki := by
  rcases reserve_kmd_cases malloc ki with h0 | ⟨-, h1⟩
  · exact absurd h0 h
  · exact h1

theorem reserve_kmd_grow (f : Nat → Nat) (ki : kmd_info)
    (h : ¬ ki.kmd_size ≥ (ki.kmd_used + 256) % UINT_MOD) :
    reserve_kmd (some f) ki =
      (0,
        { ki with
          kmd :=
            some
              (match ki.kmd with
              | some old =>
                memcpy
                  (mem_block
                    (max (if ki.kmd_size ≠ 0 then (2 * ki.kmd_size) % UINT_MOD else 16 * 1024)
                      ((ki.kmd_used + 256) % UINT_MOD)) f) old ki.kmd_used
              | none =>
                mem_block
                  (max (if ki.kmd_size ≠ 0 then (2 * ki.kmd_size) % UINT_MOD else 16 * 1024)
                    ((ki.kmd_used + 256) % UINT_MOD)) f)
          kmd_size :=
            max (if ki.kmd_size ≠ 0 then (2 * ki.kmd_size) % UINT_MOD else 16 * 1024)
              ((ki.kmd_used + 256) % UINT_MOD) }) := by
  unfold reserve_kmd
  dsimp only
  rw [if_neg h]
  have hm : ∀ a b : Nat, (if a < b then b else a) = max a b := by
    intro a b
    split_ifs with hab
    · exact (max_eq_right (le_of_lt hab)).symm
    · exact (max_eq_left (not_lt.mp hab)).symm
  rw [hm]

theorem reserve_kmd_size (malloc : Option (Nat → Nat)) (ki : kmd_info)
    (h : (reserve_kmd malloc ki).1 = 0) :
    (reserve_kmd malloc ki).2.kmd_size ≥ (ki.kmd_used + 256) % UINT_MOD ∧
    (reserve_kmd malloc ki).2.kmd_size ≥ ki.kmd_size := by
  by_cases hc : ki.kmd_size ≥ (ki.kmd_used + 256) % UINT_MOD
  · rw [reserve_kmd_noop malloc ki hc]
    exact ⟨hc, le_refl _⟩
  · cases malloc with
    | none =>
      rw [reserve_kmd_none ki hc] at h
      simp at h
    | some f =>
      rw [reserve_kmd_grow f ki hc]
      dsimp only
      exact ⟨le_max_right _ _, le_trans (le_of_lt (not_le.mp hc)) (le_max_right _ _)⟩

theorem reserve_kmd_null (malloc : Option (Nat → Nat)) (ki : kmd_info)
    (hnull : kmd_null_ok ki) : kmd_null_ok (reserve_kmd malloc ki).2 := by
  by_cases h : ki.kmd_size ≥ (ki.kmd_used + 256) % UINT_MOD
  · rw [reserve_kmd_noop malloc ki h]
    exact hnull
  · cases malloc with
    | none =>
      rw [reserve_kmd_none ki h]
      exact hnull
    | some f =>
      rw [reserve_kmd_grow f ki h]
      intro hn
      simp at hn

theorem reserve_kmd_ready (malloc : Option (Nat → Nat)) (ki : kmd_info)
    (hnull : kmd_null_ok ki) (hov : ki.kmd_used + 256 < UINT_MOD)
    (h : (reserve_kmd malloc ki).1 = 0) : kmd_ready (reserve_kmd malloc ki).2 := by
  have hs := (reserve_kmd_size malloc ki h).1
  rw [Nat.mod_eq_of_lt hov] at hs
  have hn := reserve_kmd_null malloc ki hnull
  refine ⟨?_, ?_⟩
  · rw [reserve_kmd_used]
    exact hs
  · intro hk
    have := hn hk
    omega

/-- C21: the postcondition of `reserve_kmd`.  For a buffer with
`kmd_used ≤ kmd_size` whose `kmd_used + 256` fits an unsigned int (and whose
memory, when the pointer is not null, has `kmd_size` bytes), the call returns
`0` or `-1`; when it returns `0`, `kmd_size ≥ kmd_used + 256` afterwards,
`kmd_used` is unchanged, `kmd_size` has not decreased and the first `kmd_used`
bytes of the buffer are the ones it held before; when it returns `-1` the
buffer, `kmd_size` and `kmd_used` are unchanged. -/
theorem reserve_kmd_post (malloc : Option (Nat → Nat)) (ki : kmd_info)
    (hused : ki.kmd_used ≤ ki.kmd_size) (hov : ki.kmd_used + 256 < UINT_MOD)
    (hbuf : ∀ b, ki.kmd = some b → b.length = ki.kmd_size) :
    ((reserve_kmd malloc ki).1 = 0 ∨ (reserve_kmd malloc ki).1 = -1) ∧
    ((reserve_kmd malloc ki).1 = 0 →
      (reserve_kmd malloc ki).2.kmd_size ≥ ki.kmd_used + 256 ∧
      (reserve_kmd malloc ki).2.kmd_used = ki.kmd_used ∧
      (reserve_kmd malloc ki).2.kmd_size ≥ ki.kmd_size ∧
      ∀ old, ki.kmd = some old →
        ∃ new, (reserve_kmd malloc ki).2.kmd = some new ∧
          new.take ki.kmd_used = old.take ki.kmd_used) ∧
    ((reserve_kmd malloc ki).1 = -1 → (reserve_kmd malloc ki).2 = ki) := by
  refine ⟨?_, ?_, ?_⟩
  · rcases reserve_kmd_cases malloc ki with h | ⟨h, -⟩
    · exact Or.inl h
    · exact Or.inr h
  · intro h0
    obtain ⟨hs1, hs2⟩ := reserve_kmd_size malloc ki h0
    rw [Nat.mod_eq_of_lt hov] at hs1
    refine ⟨hs1, reserve_kmd_used malloc ki, hs2, ?_⟩
    intro old hold
    by_cases hc : ki.kmd_size ≥ (ki.kmd_used + 256) % UINT_MOD
    · rw [reserve_kmd_noop malloc ki hc]
      exact ⟨old, hold, rfl⟩
    · cases malloc with
      | none =>
        rw [reserve_kmd_none ki hc] at h0
        simp at h0
      | some f =>
        rw [reserve_kmd_grow f ki hc]
        dsimp only
        rw [hold]
        dsimp only
        refine ⟨_, rfl, ?_⟩
        have hl : ki.kmd_used ≤ old.length := by rw [hbuf old hold]; exact hused
        unfold memcpy
        rw [List.take_append_of_le_length (by rw [List.length_take]; omega)]
        rw [List.take_take, min_self]
  · intro h1
    exact reserve_kmd_fail malloc ki (by rw [h1]; decide)

theorem reserve_kmd_post_witness :
    (reserve_kmd (some (fun _ => 0)) ki_small).2.kmd_size ≥ ki_small.kmd_used + 256 ∧
    (reserve_kmd (some (fun _ => 0)) ki_small).2.kmd_used = ki_small.kmd_used ∧
    (reserve_kmd (some (fun _ => 0)) ki_small).2.kmd_size ≥ ki_small.kmd_size ∧
    (∀ old, ki_small.kmd = some old →
      ∃ new, (reserve_kmd (some (fun _ => 0)) ki_small).2.kmd = some new ∧
        new.take ki_small.kmd_used = old.take ki_small.kmd_used) ∧
    (reserve_kmd none ki_small).2 = ki_small :=
  ⟨((reserve_kmd_post (some (fun _ => 0)) ki_small (by decide) (by decide)
      (by intro b hb; cases hb; rfl)).2.1 (by decide)).1,
    ((reserve_kmd_post (some (fun _ => 0)) ki_small (by decide) (by decide)
      (by intro b hb; cases hb; rfl)).2.1 (by decide)).2.1,
    ((reserve_kmd_post (some (fun _ => 0)) ki_small (by decide) (by decide)
      (by intro b hb; cases hb; rfl)).2.1 (by decide)).2.2.1,
    ((reserve_kmd_post (some (fun _ => 0)) ki_small (by decide) (by decide)
      (by intro b hb; cases hb; rfl)).2.1 (by decide)).2.2.2,
    (reserve_kmd_post none ki_small (by decide) (by decide)
      (by intro b hb; cases hb; rfl)).2.2 (by decide)⟩

/-- C25: the growth rule of `reserve_kmd`.  When `kmd_size ≥ kmd_used + 256` the
call returns `0` and changes nothing, and after any call that returned `0` a
further call changes nothing; otherwise, when `malloc` gives memory and neither
`kmd_used + 256` nor `2 * kmd_size` wraps, the new capacity is
`max (2 * kmd_size) (kmd_used + 256)` for `kmd_size > 0` and
`max 16384 (kmd_used + 256)` for `kmd_size = 0`; the first reservation on an
empty buffer yields 16384 bytes. -/
theorem reserve_kmd_growth (ki : kmd_info) :
    (∀ malloc, ki.kmd_size ≥ ki.kmd_used + 256 → reserve_kmd malloc ki = (0, ki)) ∧
    (∀ m1 m2, (reserve_kmd m1 ki).1 = 0 →
      reserve_kmd m2 (reserve_kmd m1 ki).2 = (0, (reserve_kmd m1 ki).2)) ∧
    (∀ f, ki.kmd_size < ki.kmd_used + 256 → ki.kmd_used + 256 < UINT_MOD →
      2 * ki.kmd_size < UINT_MOD →
      (reserve_kmd (some f) ki).1 = 0 ∧
      (ki.kmd_size > 0 →
        (reserve_kmd (some f) ki).2.kmd_size = max (2 * ki.kmd_size) (ki.kmd_used + 256)) ∧
      (ki.kmd_size = 0 →
        (reserve_kmd (some f) ki).2.kmd_size = max 16384 (ki.kmd_used + 256))) ∧
    (∀ f, reserve_kmd (some f) ki_empty =
      (0, { kmd := some (mem_block 16384 f), kmd_size := 16384, kmd_used := 0 })) := by
  refine ⟨?_, ?_, ?_, ?_⟩
  · intro malloc h
    exact reserve_kmd_noop malloc ki (le_trans (Nat.mod_le _ _) h)
  · intro m1 m2 h
    apply reserve_kmd_noop
    rw [reserve_kmd_used]
    exact (reserve_kmd_size m1 ki h).1
  · intro f hlt hov h2
    have hc : ¬ ki.kmd_size ≥ (ki.kmd_used + 256) % UINT_MOD := by
      rw [Nat.mod_eq_of_lt hov]
      omega
    rw [reserve_kmd_grow f ki hc, Nat.mod_eq_of_lt hov, Nat.mod_eq_of_lt h2]
    refine ⟨rfl, ?_, ?_⟩
    · intro hp
      dsimp only
      rw [if_pos (by omega)]
    · intro hz
      dsimp only
      rw [if_neg (by omega)]
  · intro f
    have hc : ¬ ki_empty.kmd_size ≥ (ki_empty.kmd_used + 256) % UINT_MOD := by decide
    rw [reserve_kmd_grow f ki_empty hc]
    rfl

theorem reserve_kmd_growth_witness :
    (reserve_kmd (some (fun _ => 0)) (ki_nearly_full (fun _ => 0))).1 = 0 ∧
    (reserve_kmd (some (fun _ => 0)) (ki_nearly_full (fun _ => 0))).2.kmd_size = 32768 ∧
    (reserve_kmd (some (fun _ => 0)) ki_small).2.kmd_size = 259 :=
  ⟨((reserve_kmd_growth (ki_nearly_full (fun _ => 0))).2.2.1 (fun _ => 0) (by decide)
      (by decide) (by decide)).1,
    ((reserve_kmd_growth (ki_nearly_full (fun _ => 0))).2.2.1 (fun _ => 0) (by decide)
      (by decide) (by decide)).2.1 (by decide),
    ((reserve_kmd_growth ki_small).2.2.1 (fun _ => 0) (by decide) (by decide)
      (by decide)).2.1 (by decide)⟩

/-! ## Calls whose reservation fails -/

theorem add_val_reserve_fail (self : kvset_builder) (vdata : vdata_t) (env : add_env)
    (h : (add_val_reserve self vdata env).1 ≠ 0) : (add_val_reserve self vdata env).2 = self := by
  unfold add_val_reserve at h ⊢
  dsimp only at h ⊢
  rw [reserve_kmd_fail _ _ h]
  by_cases hv : vdata = .HSE_CORE_TOMB_PFX
  · simp only [hv, if_true]
  · simp only [hv, if_false]

theorem add_val_nomem (P : params) (self : kvset_builder) (seq : Nat) (vdata : vdata_t)
    (vlen complen : Nat) (c1 : Bool) (env : add_env)
    (h : (add_val_reserve self vdata env).1 ≠ 0) :
    kvset_builder_add_val P self seq vdata vlen complen c1 env = (.ENOMEM, self) := by
  unfold kvset_builder_add_val
  dsimp only
  rw [if_pos h, add_val_reserve_fail self vdata env h]

theorem add_vref_nomem (P : params) (self : kvset_builder) (seq vbidx vboff vlen complen : Nat)
    (env : add_env) (h : (reserve_kmd env.malloc_kmd self.main).1 ≠ 0) :
    kvset_builder_add_vref P self seq vbidx vboff vlen complen env = (.ENOMEM, self) := by
  unfold kvset_builder_add_vref
  dsimp only
  rw [if_pos h, reserve_kmd_fail _ _ h]

theorem add_nonval_nomem (P : params) (self : kvset_builder) (seq : Nat) (vtype : kmd_vtype)
    (env : add_env)
    (h : (reserve_kmd env.malloc_kmd
      (if vtype = .vtype_ptomb then self.sec else self.main)).1 ≠ 0) :
    kvset_builder_add_nonval P self seq vtype env = (.ENOMEM, self) := by
  unfold kvset_builder_add_nonval
  dsimp only
  rw [if_pos h, reserve_kmd_fail _ _ h]
  by_cases hv : vtype = .vtype_ptomb
  · simp only [hv, if_true]
  · simp only [hv, if_false]

theorem add_nonval_other_eq (P : params) (self : kvset_builder) (seq : Nat) (vtype : kmd_vtype)
    (env : add_env) (h1 : vtype ≠ .vtype_tomb) (h2 : vtype ≠ .vtype_ptomb)
    (hres : (reserve_kmd env.malloc_kmd self.main).1 = 0) :
    kvset_builder_add_nonval P self seq vtype env =
      (.EBUG, { self with main := (reserve_kmd env.malloc_kmd self.main).2 }) := by
  unfold kvset_builder_add_nonval
  simp [h1, h2, hres]

/-! ## `kvset_builder_add_nonval` with another kind -/

/-- C23 as the code has it, at a kind other than `vtype_tomb` and `vtype_ptomb`
with an allocation that fails: the call on a fresh builder with `vtype_val`
returns `ENOMEM`, not `EBUG`. -/
theorem add_nonval_other_kind_nomem :
    (kvset_builder_add_nonval hse_params (fresh_builder hse_params cn_plain) 5 .vtype_val
      env_nomem).1 = .ENOMEM := by
  decide

/-- C23 (amended): `kvset_builder_add_nonval` with a kind other than `vtype_tomb`
and `vtype_ptomb` reserves room in the main buffer first; when the reservation
succeeds it returns `EBUG` and the builder is the one the reservation left (no
record appended, counters and `seqno_min`/`seqno_max` untouched), when it fails
it returns `ENOMEM` and the builder is unchanged.  With `vtype_tomb` or
`vtype_ptomb` and a successful reservation it returns `0`; `vtype_ptomb`
increases `nptombs` by one and leaves `nvals` and `ntombs` as they are. -/
theorem add_nonval_kinds (P : params) (s : kvset_builder) (seq : Nat) (env : add_env) :
    (∀ vtype, vtype ≠ .vtype_tomb → vtype ≠ .vtype_ptomb →
      ((reserve_kmd env.malloc_kmd s.main).1 = 0 →
        kvset_builder_add_nonval P s seq vtype env =
          (.EBUG, { s with main := (reserve_kmd env.malloc_kmd s.main).2 }) ∧
        (reserve_kmd env.malloc_kmd s.main).2.kmd_used = s.main.kmd_used) ∧
      ((reserve_kmd env.malloc_kmd s.main).1 ≠ 0 →
        kvset_builder_add_nonval P s seq vtype env = (.ENOMEM, s))) ∧
    ((reserve_kmd env.malloc_kmd s.main).1 = 0 →
      (kvset_builder_add_nonval P s seq .vtype_tomb env).1 = .ok) ∧
    ((reserve_kmd env.malloc_kmd s.sec).1 = 0 →
      (kvset_builder_add_nonval P s seq .vtype_ptomb env).1 = .ok ∧
      (kvset_builder_add_nonval P s seq .vtype_ptomb env).2.key_stats.nptombs
        = (s.key_stats.nptombs + 1) % UINT_MOD ∧
      (kvset_builder_add_nonval P s seq .vtype_ptomb env).2.key_stats.nvals
        = s.key_stats.nvals ∧
      (kvset_builder_add_nonval P s seq .vtype_ptomb env).2.key_stats.ntombs
        = s.key_stats.ntombs) := by
  refine ⟨?_, ?_, ?_⟩
  · intro vtype h1 h2
    refine ⟨?_, ?_⟩
    · intro hres
      exact ⟨add_nonval_other_eq P s seq vtype env h1 h2 hres, reserve_kmd_used _ _⟩
    · intro hres
      apply add_nonval_nomem
      rw [if_neg h2]
      exact hres
  · intro hres
    rw [add_nonval_tomb_eq P s seq env hres]
  · intro hres
    rw [add_nonval_ptomb_eq P s seq env hres]
    exact ⟨rfl, rfl, rfl, rfl⟩

theorem add_nonval_kinds_witness :
    kvset_builder_add_nonval hse_params bld_after_5a 4 .vtype_val env_good =
      (.EBUG,
        { bld_after_5a with main := (reserve_kmd env_good.malloc_kmd bld_after_5a.main).2 }) ∧
    (kvset_builder_add_nonval hse_params bld_after_5a 4 .vtype_ptomb env_good).1 = .ok :=
  ⟨((((add_nonval_kinds hse_params bld_after_5a 4 env_good).1 .vtype_val (by decide)
      (by decide)).1) (by decide)).1,
    ((add_nonval_kinds hse_params bld_after_5a 4 env_good).2.2 (by decide)).1⟩

/-! ## `kvset_builder_create` -/

/-- C24: a builder is stored by `kvset_builder_create` only when it returns `0`, and
then `seqno_min = U64_MAX`, `seqno_max = 0`, `seqno_prev = seqno_prev_ptomb =
U64_MAX`, the per-key counters and `vused` are `0`, both KMD buffers are null
with capacity and fill `0`, the compression scratch is null with size `0`,
`vblk_baseidx = 0` and both block lists are empty; the call succeeds when the
allocation and both writer constructors succeed.  When the key-block writer
cannot be created its error is returned, no value-block writer is created and
no builder is stored; when the value-block writer cannot be created the
key-block writer is destroyed, the error of the value-block writer is returned
and no builder is stored. -/
theorem create_post (P : params) (cn : cn_t) (env : create_env) :
    (∀ b, (kvset_builder_create P cn env).2.1 = some b →
      (kvset_builder_create P cn env).1 = .ok ∧
      b.seqno_min = U64_MAX ∧ b.seqno_max = 0 ∧
      b.key_stats =
        { nvals := 0, ntombs := 0, nptombs := 0, tot_vlen := 0, c0_vlen := 0, c1_vlen := 0,
          seqno_prev := U64_MAX, seqno_prev_ptomb := U64_MAX } ∧
      b.vused = 0 ∧
      b.main = { kmd := none, kmd_size := 0, kmd_used := 0 } ∧
      b.sec = { kmd := none, kmd_size := 0, kmd_used := 0 } ∧
      b.compress_buf = none ∧ b.compress_buf_sz = 0 ∧
      b.vblk_baseidx = 0 ∧
      b.kblk_list = { blks := none, n_blks := 0 } ∧
      b.vblk_list = { blks := none, n_blks := 0 } ∧
      b.cn = cn ∧ b.compress = cn.rp_compress) ∧
    (env.malloc = true → env.kbb_create = .ok → env.vbb_create = .ok →
      kvset_builder_create P cn env =
        (.ok, some (fresh_builder P cn), [ext_call.kbb_create, ext_call.vbb_create])) ∧
    (env.malloc = true → env.kbb_create ≠ .ok →
      kvset_builder_create P cn env = (env.kbb_create, none, [ext_call.kbb_create])) ∧
    (env.malloc = true → env.kbb_create = .ok → env.vbb_create ≠ .ok →
      kvset_builder_create P cn env =
        (env.vbb_create, none,
          [ext_call.kbb_create, ext_call.vbb_create, ext_call.kbb_destroy true])) ∧
    (env.malloc = false → kvset_builder_create P cn env = (.ENOMEM, none, [])) := by
  refine ⟨?_, ?_, ?_, ?_, ?_⟩
  · intro b hb
    unfold kvset_builder_create at hb ⊢
    split_ifs at hb ⊢
    simp at hb
    subst hb
    exact ⟨rfl, rfl, rfl, rfl, rfl, rfl, rfl, rfl, rfl, rfl, rfl, rfl, rfl, rfl⟩
  · intro hm hk hv
    unfold kvset_builder_create
    simp [hm, hk, hv]
    rfl
  · intro hm hk
    unfold kvset_builder_create
    simp [hm, hk]
  · intro hm hk hv
    unfold kvset_builder_create
    simp [hm, hk, hv]
  · intro hm
    unfold kvset_builder_create
    simp [hm]

theorem create_post_witness :
    kvset_builder_create hse_params cn_plain
        { malloc := true, kbb_create := .ok, vbb_create := .other 3 } =
      (.other 3, none, [ext_call.kbb_create, ext_call.vbb_create, ext_call.kbb_destroy true]) ∧
    kvset_builder_create hse_params cn_plain
        { malloc := true, kbb_create := .other 4, vbb_create := .ok } =
      (.other 4, none, [ext_call.kbb_create]) :=
  ⟨(create_post hse_params cn_plain
      { malloc := true, kbb_create := .ok, vbb_create := .other 3 }).2.2.2.1 rfl rfl
      (by decide),
    (create_post hse_params cn_plain
      { malloc := true, kbb_create := .other 4, vbb_create := .ok }).2.2.1 rfl (by decide)⟩

/-! ## The out-of-line path without upstream reuse -/

theorem not_found_none (c1 : Bool) (env : add_env) (h : ¬ found_upstream c1 env) :
    (if c1 = true then env.vblock_exists else none) = none := by
  unfold found_upstream at h
  by_cases hc : c1 = true
  · rw [if_pos hc]
    cases hv : env.vblock_exists with
    | none => rfl
    | some v => exact absurd ⟨hc, by rw [hv]; rfl⟩ h
  · rw [if_neg hc]

theorem compress_given (P : params) (self : kvset_builder) (vdata : vdata_t)
    (vlen complen : Nat) (env : add_env) (h : complen ≠ 0) :
    add_val_compress P self vdata vlen complen env = (self, vdata, complen) := by
  unfold add_val_compress
  cases self.compress with
  | none => rfl
  | some ops =>
    dsimp only
    rw [if_pos h]

theorem compress_main (P : params) (self : kvset_builder) (vdata : vdata_t)
    (vlen complen : Nat) (env : add_env) :
    (add_val_compress P self vdata vlen complen env).1 =
      { self with
        compress_buf := (add_val_compress P self vdata vlen complen env).1.compress_buf
        compress_buf_sz :=
          (add_val_compress P self vdata vlen complen env).1.compress_buf_sz } := by
  obtain ⟨buf, sz, h⟩ := compress_frame P self vdata vlen complen env
  rw [h]

theorem write_failed (P : params) (self : kvset_builder) (seq : Nat) (vdata : vdata_t)
    (vlen complen : Nat) (env : add_env) (h : env.vbb_add_entry.1 ≠ .ok) :
    add_val_write P self seq vdata vlen complen env =
      (env.vbb_add_entry.1,
        { self with
          calls := self.calls ++
            [ext_call.vbb_add_entry vdata (if complen ≠ 0 then complen else vlen)] },
        vdata) := by
  unfold add_val_write
  dsimp only
  rw [if_pos h]

theorem write_calls (P : params) (self : kvset_builder) (seq : Nat) (vdata : vdata_t)
    (vlen complen : Nat) (env : add_env) :
    (add_val_write P self seq vdata vlen complen env).2.1.calls =
      self.calls ++ [ext_call.vbb_add_entry vdata (if complen ≠ 0 then complen else vlen)] := by
  unfold add_val_write
  dsimp only
  by_cases h : env.vbb_add_entry.1 ≠ .ok
  · rw [if_pos h]
  · rw [if_neg h]
    rfl

theorem write_passed (P : params) (self : kvset_builder) (seq : Nat) (vdata : vdata_t)
    (vlen complen : Nat) (env : add_env) (h : env.vbb_add_entry.1 = .ok) :
    add_val_write P self seq vdata vlen complen env =
      (.ok,
        { self with
          calls := self.calls ++
            [ext_call.vbb_add_entry vdata (if complen ≠ 0 then complen else vlen)]
          main :=
            kmd_add P self.main
              (if complen ≠ 0 then
                .cval seq env.vbb_add_entry.2.2.1 env.vbb_add_entry.2.2.2 vlen complen
              else .val seq env.vbb_add_entry.2.2.1 env.vbb_add_entry.2.2.2 vlen)
          vused := (self.vused + (if complen ≠ 0 then complen else vlen)) % U64_MOD
          key_stats :=
            { self.key_stats with
              c0_vlen :=
                (self.key_stats.c0_vlen + (if complen ≠ 0 then complen else vlen)) % U64_MOD
              tot_vlen :=
                (self.key_stats.tot_vlen + (if complen ≠ 0 then complen else vlen)) % U64_MOD } },
        vdata) := by
  unfold add_val_write
  by_cases hc : complen = 0 <;> simp [h, hc, add_val_kmd, kmd_add_val, kmd_add_cval]

/-- The whole call on the out-of-line path when the value is not found upstream:
the stages after the reservation, with `c` the outcome of the compression
attempt. -/
theorem written_call_eq (P : params) (s : kvset_builder) (seq : Nat) (vdata : vdata_t)
    (vlen complen : Nat) (c1 : Bool) (env : add_env)
    (hres : (reserve_kmd env.malloc_kmd s.main).1 = 0)
    (hool : takes_ool P vdata vlen complen)
    (hno : ¬ found_upstream c1 env) :
    kvset_builder_add_val P s seq vdata vlen complen c1 env =
      if (add_val_write P
          (add_val_compress P { s with main := (reserve_kmd env.malloc_kmd s.main).2 } vdata vlen
            complen env).1 seq
          (add_val_compress P { s with main := (reserve_kmd env.malloc_kmd s.main).2 } vdata vlen
            complen env).2.1 vlen
          (add_val_compress P { s with main := (reserve_kmd env.malloc_kmd s.main).2 } vdata vlen
            complen env).2.2 env).1 ≠ .ok then
        ((add_val_write P
          (add_val_compress P { s with main := (reserve_kmd env.malloc_kmd s.main).2 } vdata vlen
            complen env).1 seq
          (add_val_compress P { s with main := (reserve_kmd env.malloc_kmd s.main).2 } vdata vlen
            complen env).2.1 vlen
          (add_val_compress P { s with main := (reserve_kmd env.malloc_kmd s.main).2 } vdata vlen
            complen env).2.2 env).1,
          (add_val_write P
          (add_val_compress P { s with main := (reserve_kmd env.malloc_kmd s.main).2 } vdata vlen
            complen env).1 seq
          (add_val_compress P { s with main := (reserve_kmd env.malloc_kmd s.main).2 } vdata vlen
            complen env).2.1 vlen
          (add_val_compress P { s with main := (reserve_kmd env.malloc_kmd s.main).2 } vdata vlen
            complen env).2.2 env).2.1)
      else
        add_val_seqno
          (add_val_write P
          (add_val_compress P { s with main := (reserve_kmd env.malloc_kmd s.main).2 } vdata vlen
            complen env).1 seq
          (add_val_compress P { s with main := (reserve_kmd env.malloc_kmd s.main).2 } vdata vlen
            complen env).2.1 vlen
          (add_val_compress P { s with main := (reserve_kmd env.malloc_kmd s.main).2 } vdata vlen
            complen env).2.2 env).2.1
          seq
          (add_val_write P
          (add_val_compress P { s with main := (reserve_kmd env.malloc_kmd s.main).2 } vdata vlen
            complen env).1 seq
          (add_val_compress P { s with main := (reserve_kmd env.malloc_kmd s.main).2 } vdata vlen
            complen env).2.1 vlen
          (add_val_compress P { s with main := (reserve_kmd env.malloc_kmd s.main).2 } vdata vlen
            complen env).2.2 env).2.2 := by
  have hpfx : vdata ≠ .HSE_CORE_TOMB_PFX := hool.2.1
  have hr := reserve_eq_main s vdata env hpfx
  have hres2 : (add_val_reserve s vdata env).1 = 0 := by rw [hr]; exact hres
  have heq := add_val_of_reserved P s seq vdata vlen complen c1 env hres2
  rw [record_ool_eq P _ seq vdata vlen complen c1 env hool,
    ool_written_eq _ _ _ _ _ _ _ _ (not_found_none c1 env hno), hr] at heq
  exact heq

/-! ## Failure before recording -/

/-- C26: failure before recording.  When the KMD reservation of
`kvset_builder_add_val`, `kvset_builder_add_vref` or `kvset_builder_add_nonval`
fails, the call returns `ENOMEM` and the builder is unchanged.  When the
value-block writer refuses the entry of `kvset_builder_add_val` (out-of-line
path, value not found upstream), the call returns the error of the writer
unmodified and the builder differs from the one before the call in the
capacity of the main buffer, the compression scratch and the call log only: no
record is appended (`kmd_used` is unchanged), and the counters, `tot_vlen`,
`c0_vlen`, `c1_vlen`, `vused`, `seqno_min`, `seqno_max`, `seqno_prev` and
`seqno_prev_ptomb` are unchanged. -/
theorem failure_before_recording (P : params) (s : kvset_builder) :
    (∀ seq vdata vlen complen c1 env, (add_val_reserve s vdata env).1 ≠ 0 →
      kvset_builder_add_val P s seq vdata vlen complen c1 env = (.ENOMEM, s)) ∧
    (∀ seq vbidx vboff vlen complen env, (reserve_kmd env.malloc_kmd s.main).1 ≠ 0 →
      kvset_builder_add_vref P s seq vbidx vboff vlen complen env = (.ENOMEM, s)) ∧
    (∀ seq vtype env,
      (reserve_kmd env.malloc_kmd (if vtype = .vtype_ptomb then s.sec else s.main)).1 ≠ 0 →
      kvset_builder_add_nonval P s seq vtype env = (.ENOMEM, s)) ∧
    (∀ seq vdata vlen complen c1 env,
      (reserve_kmd env.malloc_kmd s.main).1 = 0 → takes_ool P vdata vlen complen →
      ¬ found_upstream c1 env → env.vbb_add_entry.1 ≠ .ok →
      (∃ buf sz v o,
        kvset_builder_add_val P s seq vdata vlen complen c1 env =
          (env.vbb_add_entry.1,
            { s with
              main := (reserve_kmd env.malloc_kmd s.main).2
              compress_buf := buf
              compress_buf_sz := sz
              calls := s.calls ++ [ext_call.vbb_add_entry v o] })) ∧
      (reserve_kmd env.malloc_kmd s.main).2.kmd_used = s.main.kmd_used) := by
  refine ⟨?_, ?_, ?_, ?_⟩
  · intro seq vdata vlen complen c1 env h
    exact add_val_nomem P s seq vdata vlen complen c1 env h
  · intro seq vbidx vboff vlen complen env h
    exact add_vref_nomem P s seq vbidx vboff vlen complen env h
  · intro seq vtype env h
    exact add_nonval_nomem P s seq vtype env h
  · intro seq vdata vlen complen c1 env hres hool hno hvbb
    refine ⟨?_, reserve_kmd_used _ _⟩
    rw [written_call_eq P s seq vdata vlen complen c1 env hres hool hno]
    rw [write_failed _ _ _ _ _ _ _ hvbb]
    rw [if_pos hvbb]
    obtain ⟨buf, sz, hc⟩ := compress_frame P
      { s with main := (reserve_kmd env.malloc_kmd s.main).2 } vdata vlen complen env
    rw [hc]
    exact ⟨buf, sz, _, _, rfl⟩

theorem failure_before_recording_witness :
    kvset_builder_add_val hse_params (fresh_builder hse_params cn_plain) 4 nine_bytes 9 0 false
        env_nomem =
      (.ENOMEM, fresh_builder hse_params cn_plain) ∧
    kvset_builder_add_nonval hse_params (fresh_builder hse_params cn_plain) 4 .vtype_tomb
        env_nomem =
      (.ENOMEM, fresh_builder hse_params cn_plain) ∧
    ∃ buf sz v o,
      kvset_builder_add_val hse_params bld_after_5a 4 nine_bytes 9 0 false env_vbb_fail =
        (env_vbb_fail.vbb_add_entry.1,
          { bld_after_5a with
            main := (reserve_kmd env_vbb_fail.malloc_kmd bld_after_5a.main).2
            compress_buf := buf
            compress_buf_sz := sz
            calls := bld_after_5a.calls ++ [ext_call.vbb_add_entry v o] }) :=
  ⟨(failure_before_recording hse_params (fresh_builder hse_params cn_plain)).1 4 nine_bytes 9 0
      false env_nomem (by decide),
    (failure_before_recording hse_params (fresh_builder hse_params cn_plain)).2.2.1 4 .vtype_tomb
      env_nomem (by decide),
    ((failure_before_recording hse_params bld_after_5a).2.2.2 4 nine_bytes 9 0 false env_vbb_fail
      (by decide) (by decide) (by decide) (by decide)).1⟩

/-! ## The out-of-line path: what is written -/

/-- C27: the out-of-line path of `kvset_builder_add_val` when the value is not found
upstream (reservation succeeded).  The value-block writer is given the final
`vdata` and `omlen`, which is the final `complen` when that is not zero and
`vlen` otherwise.  When the writer succeeds, `c0_vlen`, `tot_vlen` and `vused`
grow by `omlen` (modulo `2 ^ 64`), `c1_vlen` is unchanged, and the record
appended to the main buffer is a cval carrying `(seq, vbidx, vboff, vlen,
complen)` for a final `complen` that is not zero and a val carrying `(seq,
vbidx, vboff, vlen)` otherwise, with `(vbidx, vboff)` the coordinates the writer
returned.  A `complen > 0` given by the caller is final: no compression is
attempted, whether or not a compressor is configured. -/
theorem add_val_written (P : params) (s : kvset_builder) (seq : Nat) (vdata : vdata_t)
    (vlen complen : Nat) (c1 : Bool) (env : add_env)
    (hres : (reserve_kmd env.malloc_kmd s.main).1 = 0)
    (hool : takes_ool P vdata vlen complen)
    (hno : ¬ found_upstream c1 env) :
    (kvset_builder_add_val P s seq vdata vlen complen c1 env).2.calls =
      s.calls ++
        [ext_call.vbb_add_entry (add_val_compressed P s vdata vlen complen env).2.1
          (final_omlen P s vdata vlen complen env)] ∧
    (env.vbb_add_entry.1 = .ok →
      kvset_builder_add_val P s seq vdata vlen complen c1 env =
        (if seq > s.key_stats.seqno_prev then .EINVAL else .ok,
          { s with
            main :=
              kmd_add P (reserve_kmd env.malloc_kmd s.main).2
                (if (add_val_compressed P s vdata vlen complen env).2.2 ≠ 0 then
                  .cval seq env.vbb_add_entry.2.2.1 env.vbb_add_entry.2.2.2 vlen
                    (add_val_compressed P s vdata vlen complen env).2.2
                else .val seq env.vbb_add_entry.2.2.1 env.vbb_add_entry.2.2.2 vlen)
            vused := (s.vused + final_omlen P s vdata vlen complen env) % U64_MOD
            key_stats :=
              { s.key_stats with
                c0_vlen :=
                  (s.key_stats.c0_vlen + final_omlen P s vdata vlen complen env) % U64_MOD
                tot_vlen :=
                  (s.key_stats.tot_vlen + final_omlen P s vdata vlen complen env) % U64_MOD
                nvals := (s.key_stats.nvals + 1) % UINT_MOD
                seqno_prev := seq }
            seqno_max := max s.seqno_max seq
            seqno_min := min s.seqno_min seq
            compress_buf := (add_val_compressed P s vdata vlen complen env).1.compress_buf
            compress_buf_sz := (add_val_compressed P s vdata vlen complen env).1.compress_buf_sz
            calls :=
              s.calls ++
                [ext_call.vbb_add_entry (add_val_compressed P s vdata vlen complen env).2.1
                  (final_omlen P s vdata vlen complen env)] })) ∧
    (complen ≠ 0 →
      add_val_compressed P s vdata vlen complen env =
        ({ s with main := (reserve_kmd env.malloc_kmd s.main).2 }, vdata, complen) ∧
      final_omlen P s vdata vlen complen env = complen) := by
  have heq := written_call_eq P s seq vdata vlen complen c1 env hres hool hno
  have hcm := compress_main P { s with main := (reserve_kmd env.malloc_kmd s.main).2 } vdata vlen
    complen env
  have hnp : (add_val_compress P { s with main := (reserve_kmd env.malloc_kmd s.main).2 } vdata
      vlen complen env).2.1 ≠ .HSE_CORE_TOMB_PFX :=
    fun h => hool.2.1 (compress_vdata P _ vdata vlen complen env h)
  refine ⟨?_, ?_, ?_⟩
  · rw [heq]
    by_cases hv : env.vbb_add_entry.1 ≠ .ok
    · rw [write_failed _ _ _ _ _ _ _ hv, if_pos hv]
      dsimp only
      rw [hcm]
      rfl
    · have hv2 : env.vbb_add_entry.1 = .ok := not_not.mp hv
      rw [write_passed _ _ _ _ _ _ _ hv2, if_neg (by simp)]
      rw [(seqno_other_stream _ _ _).2.2.2.2.2.1]
      dsimp only
      rw [hcm]
      rfl
  · intro hv
    rw [heq, write_passed _ _ _ _ _ _ _ hv, if_neg (by simp)]
    dsimp only
    unfold add_val_seqno
    dsimp only
    rw [if_neg hnp, if_neg hnp]
    rw [hcm]
    unfold final_omlen add_val_compressed
    split_ifs <;> rfl
  · intro hc
    unfold final_omlen add_val_compressed
    rw [compress_given P _ vdata vlen complen env hc]
    exact ⟨rfl, if_pos hc⟩

theorem add_val_written_witness :
    (kvset_builder_add_val hse_params bld_after_5a 4 nine_bytes 9 3 false env_good).2.calls =
      bld_after_5a.calls ++
        [ext_call.vbb_add_entry (add_val_compressed hse_params bld_after_5a nine_bytes 9 3
          env_good).2.1 (final_omlen hse_params bld_after_5a nine_bytes 9 3 env_good)] ∧
    final_omlen hse_params bld_after_5a nine_bytes 9 3 env_good = 3 ∧
    (kvset_builder_add_val hse_params bld_after_5a 4 nine_bytes 9 3 false
      env_good).2.key_stats.c0_vlen = 3 :=
  ⟨(add_val_written hse_params bld_after_5a 4 nine_bytes 9 3 false env_good
      (by decide) (by decide) (by decide)).1,
    ((add_val_written hse_params bld_after_5a 4 nine_bytes 9 3 false env_good
      (by decide) (by decide) (by decide)).2.2 (by decide)).2,
    by decide⟩

/-! ## `vused`, `c0_vlen` and `c1_vlen` -/

theorem accounted_c0 (a c0 c1 o : Nat) (h : a = (c0 + c1) % U64_MOD) :
    (a + o) % U64_MOD = ((c0 + o) % U64_MOD + c1) % U64_MOD := by
  unfold U64_MOD at *
  omega

theorem accounted_c1 (a c0 c1 o : Nat) (h : a = (c0 + c1) % U64_MOD) :
    (a + o) % U64_MOD = (c0 + (c1 + o) % U64_MOD) % U64_MOD := by
  unfold U64_MOD at *
  omega

theorem reuse_accounted (P : params) (self : kvset_builder) (seq : Nat) (vdata : vdata_t)
    (vlen complen vbidx vboff : Nat) (h : vused_accounted self) :
    vused_accounted (add_val_reuse P self seq vdata vlen complen vbidx vboff).2.1 := by
  unfold add_val_reuse
  dsimp only
  by_cases hc : complen > 0
  · rw [if_pos hc]
    exact h
  · rw [if_neg hc]
    exact accounted_c1 _ _ _ _ h

theorem write_accounted (P : params) (self : kvset_builder) (seq : Nat) (vdata : vdata_t)
    (vlen complen : Nat) (env : add_env) (h : vused_accounted self) :
    vused_accounted (add_val_write P self seq vdata vlen complen env).2.1 := by
  by_cases hv : env.vbb_add_entry.1 ≠ .ok
  · rw [write_failed _ _ _ _ _ _ _ hv]
    exact h
  · rw [write_passed _ _ _ _ _ _ _ (not_not.mp hv)]
    exact accounted_c0 _ _ _ _ h

theorem ool_accounted (P : params) (self : kvset_builder) (seq : Nat) (vdata : vdata_t)
    (vlen complen : Nat) (c1 : Bool) (env : add_env) (h : vused_accounted self) :
    vused_accounted (add_val_ool P self seq vdata vlen complen c1 env).2.1 := by
  rcases hcv : (if c1 = true then env.vblock_exists else none) with _ | ⟨vbidx, vboff, vbid⟩
  · rw [ool_written_eq _ _ _ _ _ _ _ _ hcv]
    apply write_accounted
    obtain ⟨buf, sz, hc⟩ := compress_frame P self vdata vlen complen env
    rw [hc]
    exact h
  · rw [ool_reused_eq _ _ _ _ _ _ _ _ _ _ _ hcv]
    exact reuse_accounted _ _ _ _ _ _ _ _ h

theorem record_accounted (P : params) (self : kvset_builder) (seq : Nat) (vdata : vdata_t)
    (vlen complen : Nat) (c1 : Bool) (env : add_env) (h : vused_accounted self) :
    vused_accounted (add_val_record P self seq vdata vlen complen c1 env).2.1 := by
  unfold add_val_record
  split_ifs
  · exact h
  · exact h
  · exact h
  · exact h
  · exact ool_accounted _ _ _ _ _ _ _ _ h

theorem add_val_accounted (P : params) (s : kvset_builder) (seq : Nat) (vdata : vdata_t)
    (vlen complen : Nat) (c1 : Bool) (env : add_env) (h : vused_accounted s) :
    vused_accounted (kvset_builder_add_val P s seq vdata vlen complen c1 env).2 := by
  by_cases hres : (add_val_reserve s vdata env).1 ≠ 0
  · rw [add_val_nomem P s seq vdata vlen complen c1 env hres]
    exact h
  · have hres0 : (add_val_reserve s vdata env).1 = 0 := not_not.mp hres
    obtain ⟨-, hk, hvu, -⟩ := reserve_frame s vdata env
    have hr : vused_accounted (add_val_reserve s vdata env).2 := by
      unfold vused_accounted at h ⊢
      rw [hk, hvu]
      exact h
    have hrec := record_accounted P _ seq vdata vlen complen c1 env hr
    rw [add_val_of_reserved P s seq vdata vlen complen c1 env hres0]
    split_ifs
    · exact hrec
    · obtain ⟨-, -, -, -, -, -, e1, -, e2, e3, -, -⟩ := seqno_other_stream
        (add_val_record P (add_val_reserve s vdata env).2 seq vdata vlen complen c1 env).2.1 seq
        (add_val_record P (add_val_reserve s vdata env).2 seq vdata vlen complen c1 env).2.2
      unfold vused_accounted at hrec ⊢
      rw [e1, e2, e3]
      exact hrec

theorem add_nonval_vlen (P : params) (s : kvset_builder) (seq : Nat) (vtype : kmd_vtype)
    (env : add_env) :
    (kvset_builder_add_nonval P s seq vtype env).2.vused = s.vused ∧
    (kvset_builder_add_nonval P s seq vtype env).2.key_stats.c0_vlen = s.key_stats.c0_vlen ∧
    (kvset_builder_add_nonval P s seq vtype env).2.key_stats.c1_vlen = s.key_stats.c1_vlen ∧
    (kvset_builder_add_nonval P s seq vtype env).2.last_ptseq = s.last_ptseq := by
  by_cases hres :
      (reserve_kmd env.malloc_kmd (if vtype = .vtype_ptomb then s.sec else s.main)).1 ≠ 0
  · rw [add_nonval_nomem P s seq vtype env hres]
    exact ⟨rfl, rfl, rfl, rfl⟩
  · have hres0 := not_not.mp hres
    by_cases h2 : vtype = .vtype_ptomb
    · subst h2
      rw [if_pos rfl] at hres0
      rw [add_nonval_ptomb_eq P s seq env hres0]
      exact ⟨rfl, rfl, rfl, rfl⟩
    · rw [if_neg h2] at hres0
      by_cases h1 : vtype = .vtype_tomb
      · subst h1
        rw [add_nonval_tomb_eq P s seq env hres0]
        exact ⟨rfl, rfl, rfl, rfl⟩
      · rw [add_nonval_other_eq P s seq vtype env h1 h2 hres0]
        exact ⟨rfl, rfl, rfl, rfl⟩

theorem add_key_vlen (P : params) (s : kvset_builder) (kobj : Option (List Nat))
    (env : add_key_env) :
    (kvset_builder_add_key P s kobj env).2.vused = s.vused ∧
    (kvset_builder_add_key P s kobj env).2.key_stats.c0_vlen = s.key_stats.c0_vlen ∧
    (kvset_builder_add_key P s kobj env).2.key_stats.c1_vlen = s.key_stats.c1_vlen := by
  have hp : ∀ key, (add_key_ptomb P s key env).2.vused = s.vused ∧
      (add_key_ptomb P s key env).2.key_stats = s.key_stats := by
    intro key
    unfold add_key_ptomb
    dsimp only
    split_ifs <;> exact ⟨rfl, rfl⟩
  have he : ∀ u key err, (add_key_entry u key env err).2.vused = u.vused ∧
      (add_key_entry u key env err).2.key_stats = u.key_stats := by
    intro u key err
    unfold add_key_entry
    split_ifs <;> exact ⟨rfl, rfl⟩
  cases kobj with
  | none => exact ⟨rfl, rfl, rfl⟩
  | some key =>
    unfold kvset_builder_add_key
    dsimp only
    split_ifs
    · exact ⟨rfl, rfl, rfl⟩
    · unfold add_key_commit
      dsimp only
      obtain ⟨p1, p2⟩ := hp key
      obtain ⟨q1, q2⟩ := he (add_key_ptomb P s key env).2 key (add_key_ptomb P s key env).1
      split_ifs
      · rw [p1, p2]
        exact ⟨rfl, rfl, rfl⟩
      · rw [q1, q2, p1, p2]
        exact ⟨rfl, rfl, rfl⟩
      · unfold add_key_reset
        dsimp only
        rw [q1, q2, p1, p2]
        exact ⟨rfl, rfl, rfl⟩

theorem step_accounted (P : params) (s : kvset_builder) (o : op) (hv : is_add_vref o = false)
    (h : vused_accounted s) : vused_accounted (step P s o).2 := by
  cases o with
  | add_val seq vdata vlen complen c1 env =>
    exact add_val_accounted P s seq vdata vlen complen c1 env h
  | add_vref seq vbidx vboff vlen complen env => simp [is_add_vref] at hv
  | add_nonval seq vtype env =>
    obtain ⟨e1, e2, e3, -⟩ := add_nonval_vlen P s seq vtype env
    unfold vused_accounted at h ⊢
    simp only [step]
    rw [e1, e2, e3]
    exact h
  | add_key kobj env =>
    obtain ⟨e1, e2, e3⟩ := add_key_vlen P s kobj env
    unfold vused_accounted at h ⊢
    simp only [step]
    rw [e1, e2, e3]
    exact h

theorem run_any_accounted (P : params) (ops : List op) (s : kvset_builder)
    (hv : ∀ o ∈ ops, is_add_vref o = false) (h : vused_accounted s) :
    vused_accounted (run_any P s ops) := by
  induction ops generalizing s with
  | nil => exact h
  | cons o os ih =>
    simp only [run_any]
    apply ih
    · intro q hq
      exact hv q (List.mem_cons_of_mem _ hq)
    · exact step_accounted P s o (hv o (List.mem_cons_self _ _)) h

/-- C28: the accounting invariant.  In every state reached from a created builder
by `add_val`, `add_nonval` and `add_key` calls, whatever they return (no
`add_vref` call), `vused` is `c0_vlen + c1_vlen` in the 64-bit arithmetic of the
fields, hence `vused = c0_vlen + c1_vlen` as long as that sum is below `2 ^ 64`.
A `kvset_builder_add_vref` call whose reservation succeeds raises `vused` by its
on-media length and leaves `c0_vlen` and `c1_vlen` as they are.
`kvset_builder_add_key` changes none of the three. -/
theorem vused_accounting (P : params) (cn : cn_t) (cenv : create_env) (b : kvset_builder)
    (cl : List ext_call) (ops : List op)
    (hc : kvset_builder_create P cn cenv = (.ok, some b, cl))
    (hv : ∀ o ∈ ops, is_add_vref o = false) :
    (run_any P b ops).vused =
      ((run_any P b ops).key_stats.c0_vlen + (run_any P b ops).key_stats.c1_vlen) % U64_MOD ∧
    ((run_any P b ops).key_stats.c0_vlen + (run_any P b ops).key_stats.c1_vlen < U64_MOD →
      (run_any P b ops).vused =
        (run_any P b ops).key_stats.c0_vlen + (run_any P b ops).key_stats.c1_vlen) ∧
    (∀ s seq vbidx vboff vlen complen env, (reserve_kmd env.malloc_kmd s.main).1 = 0 →
      (kvset_builder_add_vref P s seq vbidx vboff vlen complen env).2.vused =
        (s.vused + (if complen ≠ 0 then complen else vlen)) % U64_MOD ∧
      (kvset_builder_add_vref P s seq vbidx vboff vlen complen env).2.key_stats.c0_vlen =
        s.key_stats.c0_vlen ∧
      (kvset_builder_add_vref P s seq vbidx vboff vlen complen env).2.key_stats.c1_vlen =
        s.key_stats.c1_vlen) ∧
    (∀ s kobj env,
      (kvset_builder_add_key P s kobj env).2.vused = s.vused ∧
      (kvset_builder_add_key P s kobj env).2.key_stats.c0_vlen = s.key_stats.c0_vlen ∧
      (kvset_builder_add_key P s kobj env).2.key_stats.c1_vlen = s.key_stats.c1_vlen) := by
  have hb := create_ok_eq P cn cenv b cl hc
  have h0 : vused_accounted b := by
    rw [hb]
    unfold vused_accounted fresh_builder
    rfl
  have hrun := run_any_accounted P ops b hv h0
  unfold vused_accounted at hrun
  refine ⟨hrun, ?_, ?_, ?_⟩
  · intro hlt
    rw [hrun, Nat.mod_eq_of_lt hlt]
  · intro s seq vbidx vboff vlen complen env hres
    rw [add_vref_eq P s seq vbidx vboff vlen complen env hres]
    exact ⟨rfl, rfl, rfl⟩
  · intro s kobj env
    exact add_key_vlen P s kobj env

theorem vused_accounting_witness :
    (run_any hse_params (fresh_builder hse_params cn_plain) ops_accounting).vused = 18 ∧
    (run_any hse_params (fresh_builder hse_params cn_plain) ops_accounting).key_stats.c0_vlen
      = 9 ∧
    (run_any hse_params (fresh_builder hse_params cn_plain) ops_accounting).key_stats.c1_vlen
      = 9 ∧
    (run_any hse_params (fresh_builder hse_params cn_plain) ops_accounting).vused =
      (run_any hse_params (fresh_builder hse_params cn_plain) ops_accounting).key_stats.c0_vlen +
        (run_any hse_params (fresh_builder hse_params cn_plain) ops_accounting).key_stats.c1_vlen :=
  ⟨by decide, by decide, by decide,
    (vused_accounting hse_params cn_plain
      { malloc := true, kbb_create := .ok, vbb_create := .ok }
      (fresh_builder hse_params cn_plain) [ext_call.kbb_create, ext_call.vbb_create]
      ops_accounting (by rfl) (by decide)).2.1 (by decide)⟩

/-! ## The buffer an encoder appends to -/

theorem record_failed_main (P : params) (self : kvset_builder) (seq : Nat) (vdata : vdata_t)
    (vlen complen : Nat) (c1 : Bool) (env : add_env)
    (h : (add_val_record P self seq vdata vlen complen c1 env).1 ≠ .ok) :
    (add_val_record P self seq vdata vlen complen c1 env).2.1.main = self.main := by
  unfold add_val_record at h ⊢
  split_ifs at h ⊢
  · exact absurd rfl h
  · exact absurd rfl h
  · exact absurd rfl h
  · exact absurd rfl h
  · rcases hcv : (if c1 = true then env.vblock_exists else none) with _ | ⟨vbidx, vboff, vbid⟩
    · rw [ool_written_eq _ _ _ _ _ _ _ _ hcv] at h ⊢
      by_cases hv : env.vbb_add_entry.1 ≠ .ok
      · rw [write_failed _ _ _ _ _ _ _ hv]
        obtain ⟨buf, sz, hc⟩ := compress_frame P self vdata vlen complen env
        rw [hc]
      · rw [write_passed _ _ _ _ _ _ _ (not_not.mp hv)] at h
        exact absurd rfl h
    · rw [ool_reused_eq _ _ _ _ _ _ _ _ _ _ _ hcv] at h ⊢
      unfold add_val_reuse at h ⊢
      dsimp only at h ⊢
      split_ifs at h ⊢
      · rfl
      · exact absurd rfl h

theorem add_val_bufs (P : params) (s : kvset_builder) (seq : Nat) (vdata : vdata_t)
    (vlen complen : Nat) (c1 : Bool) (env : add_env) :
    (vdata = .HSE_CORE_TOMB_PFX →
      (kvset_builder_add_val P s seq vdata vlen complen c1 env).2.main = s.main ∧
      ((kvset_builder_add_val P s seq vdata vlen complen c1 env).2.sec =
          (reserve_kmd env.malloc_kmd s.sec).2 ∨
        ((reserve_kmd env.malloc_kmd s.sec).1 = 0 ∧
          ∃ r, (kvset_builder_add_val P s seq vdata vlen complen c1 env).2.sec =
            kmd_add P (reserve_kmd env.malloc_kmd s.sec).2 r))) ∧
    (vdata ≠ .HSE_CORE_TOMB_PFX →
      (kvset_builder_add_val P s seq vdata vlen complen c1 env).2.sec = s.sec ∧
      ((kvset_builder_add_val P s seq vdata vlen complen c1 env).2.main =
          (reserve_kmd env.malloc_kmd s.main).2 ∨
        ((reserve_kmd env.malloc_kmd s.main).1 = 0 ∧
          ∃ r, (kvset_builder_add_val P s seq vdata vlen complen c1 env).2.main =
            kmd_add P (reserve_kmd env.malloc_kmd s.main).2 r))) := by
  obtain ⟨r1, rs, rm⟩ := reserve_stream s vdata env
  obtain ⟨o1, o2⟩ := reserve_other s vdata env
  by_cases hres : (add_val_reserve s vdata env).1 ≠ 0
  · rw [add_val_nomem P s seq vdata vlen complen c1 env hres]
    rw [r1] at hres
    constructor
    · intro hp
      rw [if_pos hp] at hres
      exact ⟨rfl, Or.inl (reserve_kmd_fail _ _ hres).symm⟩
    · intro hp
      rw [if_neg hp] at hres
      exact ⟨rfl, Or.inl (reserve_kmd_fail _ _ hres).symm⟩
  · have hres0 : (add_val_reserve s vdata env).1 = 0 := not_not.mp hres
    have hR := hres0
    rw [r1] at hR
    by_cases hrec : (add_val_record P (add_val_reserve s vdata env).2 seq vdata vlen complen c1
        env).1 = .ok
    · obtain ⟨-, -, hp1, hp2⟩ := add_val_passed_effect P s seq vdata vlen complen c1 env hres0 hrec
      constructor
      · intro hp
        obtain ⟨a1, -, a3, -⟩ := hp1 hp
        rw [if_pos hp] at hR
        refine ⟨a3, Or.inr ⟨hR, .ptomb seq, ?_⟩⟩
        rw [a1, rs hp]
      · intro hp
        obtain ⟨⟨r, a1⟩, -, -, a4, -⟩ := hp2 hp
        rw [if_neg hp] at hR
        refine ⟨a4, Or.inr ⟨hR, r, ?_⟩⟩
        rw [a1, rm hp]
    · have heq := add_val_of_reserved P s seq vdata vlen complen c1 env hres0
      rw [if_pos hrec] at heq
      obtain ⟨q1, q2⟩ := record_other_stream P (add_val_reserve s vdata env).2 seq vdata vlen
        complen c1 env
      constructor
      · intro hp
        subst hp
        rw [record_ptomb_eq] at hrec
        exact absurd rfl hrec
      · intro hp
        rw [heq]
        refine ⟨?_, Or.inl ?_⟩
        · show (add_val_record P (add_val_reserve s vdata env).2 seq vdata vlen complen c1
            env).2.1.sec = s.sec
          rw [(q2 hp).2.2, o2 hp]
        · show (add_val_record P (add_val_reserve s vdata env).2 seq vdata vlen complen c1
            env).2.1.main = (reserve_kmd env.malloc_kmd s.main).2
          rw [record_failed_main P _ seq vdata vlen complen c1 env hrec, rm hp]

theorem add_vref_bufs (P : params) (s : kvset_builder) (seq vbidx vboff vlen complen : Nat)
    (env : add_env) :
    (kvset_builder_add_vref P s seq vbidx vboff vlen complen env).2.sec = s.sec ∧
    ((kvset_builder_add_vref P s seq vbidx vboff vlen complen env).2.main =
        (reserve_kmd env.malloc_kmd s.main).2 ∨
      ((reserve_kmd env.malloc_kmd s.main).1 = 0 ∧
        ∃ r, (kvset_builder_add_vref P s seq vbidx vboff vlen complen env).2.main =
          kmd_add P (reserve_kmd env.malloc_kmd s.main).2 r)) := by
  by_cases hres : (reserve_kmd env.malloc_kmd s.main).1 ≠ 0
  · rw [add_vref_nomem P s seq vbidx vboff vlen complen env hres]
    exact ⟨rfl, Or.inl (reserve_kmd_fail _ _ hres).symm⟩
  · have hres0 := not_not.mp hres
    rw [add_vref_eq P s seq vbidx vboff vlen complen env hres0]
    exact ⟨rfl, Or.inr ⟨hres0, _, rfl⟩⟩

theorem add_nonval_bufs (P : params) (s : kvset_builder) (seq : Nat) (vtype : kmd_vtype)
    (env : add_env) :
    (vtype = .vtype_ptomb →
      (kvset_builder_add_nonval P s seq vtype env).2.main = s.main ∧
      ((kvset_builder_add_nonval P s seq vtype env).2.sec =
          (reserve_kmd env.malloc_kmd s.sec).2 ∨
        ((reserve_kmd env.malloc_kmd s.sec).1 = 0 ∧
          ∃ r, (kvset_builder_add_nonval P s seq vtype env).2.sec =
            kmd_add P (reserve_kmd env.malloc_kmd s.sec).2 r))) ∧
    (vtype ≠ .vtype_ptomb →
      (kvset_builder_add_nonval P s seq vtype env).2.sec = s.sec ∧
      ((kvset_builder_add_nonval P s seq vtype env).2.main =
          (reserve_kmd env.malloc_kmd s.main).2 ∨
        ((reserve_kmd env.malloc_kmd s.main).1 = 0 ∧
          ∃ r, (kvset_builder_add_nonval P s seq vtype env).2.main =
            kmd_add P (reserve_kmd env.malloc_kmd s.main).2 r))) := by
  by_cases hres :
      (reserve_kmd env.malloc_kmd (if vtype = .vtype_ptomb then s.sec else s.main)).1 ≠ 0
  · rw [add_nonval_nomem P s seq vtype env hres]
    constructor
    · intro hp
      rw [if_pos hp] at hres
      exact ⟨rfl, Or.inl (reserve_kmd_fail _ _ hres).symm⟩
    · intro hp
      rw [if_neg hp] at hres
      exact ⟨rfl, Or.inl (reserve_kmd_fail _ _ hres).symm⟩
  · have hres0 := not_not.mp hres
    constructor
    · intro hp
      subst hp
      rw [if_pos rfl] at hres0
      rw [add_nonval_ptomb_eq P s seq env hres0]
      exact ⟨rfl, Or.inr ⟨hres0, _, rfl⟩⟩
    · intro hp
      rw [if_neg hp] at hres0
      by_cases h1 : vtype = .vtype_tomb
      · subst h1
        rw [add_nonval_tomb_eq P s seq env hres0]
        exact ⟨rfl, Or.inr ⟨hres0, _, rfl⟩⟩
      · rw [add_nonval_other_eq P s seq vtype env h1 hp hres0]
        exact ⟨rfl, Or.inl rfl⟩

/-- The buffers after one entry-adding call: the buffer of the other stream is
untouched; the buffer of the stream of the call is the one `reserve_kmd`
left, or that buffer with one record appended (and then `reserve_kmd`
returned `0`). -/
theorem step_appends (P : params) (s : kvset_builder) (o : op) (sec : Bool)
    (ht : op_target o = some sec) :
    stream_buf (step P s o).2 (!sec) = stream_buf s (!sec) ∧
    (stream_buf (step P s o).2 sec = (reserve_kmd (op_malloc o) (stream_buf s sec)).2 ∨
      ((reserve_kmd (op_malloc o) (stream_buf s sec)).1 = 0 ∧
        ∃ r, stream_buf (step P s o).2 sec =
          kmd_add P (reserve_kmd (op_malloc o) (stream_buf s sec)).2 r)) := by
  cases o with
  | add_val seq vdata vlen complen c1 env =>
    obtain ⟨h1, h2⟩ := add_val_bufs P s seq vdata vlen complen c1 env
    simp only [op_target, Option.some.injEq] at ht
    subst ht
    by_cases hp : vdata = .HSE_CORE_TOMB_PFX
    · simpa [hp, stream_buf, step, op_malloc] using h1 hp
    · simpa [hp, stream_buf, step, op_malloc] using h2 hp
  | add_vref seq vbidx vboff vlen complen env =>
    simp only [op_target, Option.some.injEq] at ht
    subst ht
    simpa [stream_buf, step, op_malloc] using add_vref_bufs P s seq vbidx vboff vlen complen env
  | add_nonval seq vtype env =>
    obtain ⟨h1, h2⟩ := add_nonval_bufs P s seq vtype env
    simp only [op_target, Option.some.injEq] at ht
    subst ht
    by_cases hp : vtype = .vtype_ptomb
    · simpa [hp, stream_buf, step, op_malloc] using h1 hp
    · simpa [hp, stream_buf, step, op_malloc] using h2 hp
  | add_key kobj env => simp [op_target] at ht

theorem kmd_add_null (P : params) (ki : kmd_info) (r : kmd_rec) (h : kmd_null_ok ki) :
    kmd_null_ok (kmd_add P ki r) := by
  unfold kmd_null_ok kmd_add at *
  intro hn
  apply h
  cases hk : ki.kmd with
  | none => rfl
  | some buf =>
    rw [hk] at hn
    simp at hn

theorem add_key_bufs (P : params) (s : kvset_builder) (kobj : Option (List Nat))
    (env : add_key_env) :
    (kvset_builder_add_key P s kobj env).2.main.kmd = s.main.kmd ∧
    (kvset_builder_add_key P s kobj env).2.main.kmd_size = s.main.kmd_size ∧
    (kvset_builder_add_key P s kobj env).2.sec.kmd = s.sec.kmd ∧
    (kvset_builder_add_key P s kobj env).2.sec.kmd_size = s.sec.kmd_size := by
  cases kobj with
  | none => exact ⟨rfl, rfl, rfl, rfl⟩
  | some key =>
    obtain ⟨-, p1, p2, he⟩ := add_key_commit_stats P s key env
    obtain ⟨-, q1, q2⟩ := he (add_key_ptomb P s key env).2 (add_key_ptomb P s key env).1
    unfold kvset_builder_add_key
    dsimp only
    split_ifs
    · exact ⟨rfl, rfl, rfl, rfl⟩
    · unfold add_key_commit
      dsimp only
      split_ifs
      · rw [p1, p2]
        exact ⟨rfl, rfl, rfl, rfl⟩
      · rw [q1, q2, p1, p2]
        exact ⟨rfl, rfl, rfl, rfl⟩
      · unfold add_key_reset
        dsimp only
        rw [q1, q2, p1, p2]
        exact ⟨rfl, rfl, rfl, rfl⟩

theorem step_null_ok (P : params) (s : kvset_builder) (o : op)
    (h : kmd_null_ok s.main ∧ kmd_null_ok s.sec) :
    kmd_null_ok (step P s o).2.main ∧ kmd_null_ok (step P s o).2.sec := by
  cases ht : op_target o with
  | none =>
    cases o with
    | add_key kobj env =>
      obtain ⟨e1, e2, e3, e4⟩ := add_key_bufs P s kobj env
      unfold kmd_null_ok at h ⊢
      simp only [step]
      rw [e1, e2, e3, e4]
      exact h
    | add_val seq vdata vlen complen c1 env => simp [op_target] at ht
    | add_vref seq vbidx vboff vlen complen env => simp [op_target] at ht
    | add_nonval seq vtype env => simp [op_target] at ht
  | some sec =>
    obtain ⟨h1, h2⟩ := step_appends P s o sec ht
    have hs : kmd_null_ok (stream_buf s sec) := by
      cases sec
      · exact h.1
      · exact h.2
    have ht2 : kmd_null_ok (stream_buf (step P s o).2 sec) := by
      rcases h2 with h2 | ⟨-, r, h2⟩
      · rw [h2]
        exact reserve_kmd_null _ _ hs
      · rw [h2]
        exact kmd_add_null P _ r (reserve_kmd_null _ _ hs)
    cases sec
    · exact ⟨ht2, by
        have e : (step P s o).2.sec = s.sec := h1
        rw [e]
        exact h.2⟩
    · exact ⟨by
        have e : (step P s o).2.main = s.main := h1
        rw [e]
        exact h.1, ht2⟩

theorem run_any_null_ok (P : params) (ops : List op) (s : kvset_builder)
    (h : kmd_null_ok s.main ∧ kmd_null_ok s.sec) :
    kmd_null_ok (run_any P s ops).main ∧ kmd_null_ok (run_any P s ops).sec := by
  induction ops generalizing s with
  | nil => exact h
  | cons o os ih =>
    simp only [run_any]
    exact ih _ (step_null_ok P s o h)

/-- C29: buffer safety of the appends.  Take any state reached from a created
builder by `add_val`, `add_vref`, `add_nonval` and `add_key` calls (whatever
they return), and one more entry-adding call on it; `sec` names the stream
whose buffer the call reserves, and `kmd_used + 256` of that buffer fits an
unsigned int.  The buffer of the other stream is untouched by the call.  The
buffer of the stream of the call is afterwards either the one `reserve_kmd`
left (nothing was appended), or that buffer with one record appended, and then
`reserve_kmd` had returned `0` and the buffer it left, the one the encoder
wrote to, had `kmd_used + 256 ≤ kmd_size` and a pointer that is not null. -/
theorem kmd_append_reserved (P : params) (cn : cn_t) (cenv : create_env) (b : kvset_builder)
    (cl : List ext_call) (ops : List op) (o : op) (sec : Bool)
    (hc : kvset_builder_create P cn cenv = (.ok, some b, cl))
    (ht : op_target o = some sec)
    (hov : (stream_buf (run_any P b ops) sec).kmd_used + 256 < UINT_MOD) :
    stream_buf (step P (run_any P b ops) o).2 (!sec) = stream_buf (run_any P b ops) (!sec) ∧
    (stream_buf (step P (run_any P b ops) o).2 sec =
        (reserve_kmd (op_malloc o) (stream_buf (run_any P b ops) sec)).2 ∨
      ((reserve_kmd (op_malloc o) (stream_buf (run_any P b ops) sec)).1 = 0 ∧
        kmd_ready (reserve_kmd (op_malloc o) (stream_buf (run_any P b ops) sec)).2 ∧
        ∃ r, stream_buf (step P (run_any P b ops) o).2 sec =
          kmd_add P (reserve_kmd (op_malloc o) (stream_buf (run_any P b ops) sec)).2 r)) := by
  have hb := create_ok_eq P cn cenv b cl hc
  have h0 : kmd_null_ok b.main ∧ kmd_null_ok b.sec := by
    rw [hb]
    exact ⟨fun _ => rfl, fun _ => rfl⟩
  have hn := run_any_null_ok P ops b h0
  have hs : kmd_null_ok (stream_buf (run_any P b ops) sec) := by
    cases sec
    · exact hn.1
    · exact hn.2
  obtain ⟨h1, h2⟩ := step_appends P (run_any P b ops) o sec ht
  refine ⟨h1, ?_⟩
  rcases h2 with h2 | ⟨hres, r, h2⟩
  · exact Or.inl h2
  · exact Or.inr ⟨hres, reserve_kmd_ready _ _ hs hov hres, r, h2⟩

theorem kmd_append_reserved_witness :
    (step hse_params (run_any hse_params (fresh_builder hse_params cn_plain) ops_30_20_10)
        (.add_nonval 5 .vtype_ptomb env_good)).2.main =
      (run_any hse_params (fresh_builder hse_params cn_plain) ops_30_20_10).main ∧
    ((step hse_params (run_any hse_params (fresh_builder hse_params cn_plain) ops_30_20_10)
          (.add_nonval 5 .vtype_ptomb env_good)).2.sec =
        (reserve_kmd env_good.malloc_kmd
          (run_any hse_params (fresh_builder hse_params cn_plain) ops_30_20_10).sec).2 ∨
      ((reserve_kmd env_good.malloc_kmd
          (run_any hse_params (fresh_builder hse_params cn_plain) ops_30_20_10).sec).1 = 0 ∧
        kmd_ready (reserve_kmd env_good.malloc_kmd
          (run_any hse_params (fresh_builder hse_params cn_plain) ops_30_20_10).sec).2 ∧
        ∃ r, (step hse_params (run_any hse_params (fresh_builder hse_params cn_plain) ops_30_20_10)
            (.add_nonval 5 .vtype_ptomb env_good)).2.sec =
          kmd_add hse_params (reserve_kmd env_good.malloc_kmd
            (run_any hse_params (fresh_builder hse_params cn_plain) ops_30_20_10).sec).2 r)) :=
  kmd_append_reserved hse_params cn_plain { malloc := true, kbb_create := .ok, vbb_create := .ok }
    (fresh_builder hse_params cn_plain) [ext_call.kbb_create, ext_call.vbb_create] ops_30_20_10
    (.add_nonval 5 .vtype_ptomb env_good) true (by rfl) (by rfl) (by decide)

/-! ## `last_ptseq` -/

/-- C22: `kvset_builder_merge_vblocks`.  When the finish of the value-block writer
of `src` fails, its error is returned, `src.vblk_baseidx` is unchanged and no
call is made on the writer of `dst`.  Otherwise `src.vblk_baseidx` becomes the
block count of the writer of `dst` read after the finish and before the splice
(the splice is the second call on that writer), whether or not the splice
succeeds, and the error of the splice is what the function returns.  With the
writer of `dst` holding `blocks` and a splice that appends the finished blocks
of `src`, the merge returns `0`, the block count of `dst` afterwards is
`src.vblk_baseidx` plus the number of blocks of `src` (the condition of the
assertion), and block `i` of `src` is block `src.vblk_baseidx + i` of `dst`. -/
theorem merge_vblocks_post (dst src : kvset_builder) :
    (∀ env, env.vbb_finish.1 ≠ .ok →
      (kvset_builder_merge_vblocks dst src env).1 = env.vbb_finish.1 ∧
      (kvset_builder_merge_vblocks dst src env).2.1.vblk_baseidx = src.vblk_baseidx ∧
      (kvset_builder_merge_vblocks dst src env).2.2 = []) ∧
    (∀ env, env.vbb_finish.1 = .ok →
      (kvset_builder_merge_vblocks dst src env).1 = env.vbb_blk_list_merge ∧
      (kvset_builder_merge_vblocks dst src env).2.1.vblk_baseidx
        = env.blk_count_before % UINT_MOD ∧
      (kvset_builder_merge_vblocks dst src env).2.2.take 2 =
        [merge_call.vbb_get_blk_count dst.vbb,
          merge_call.vbb_blk_list_merge dst.vbb src.vbb env.vbb_finish.2]) ∧
    (∀ blocks fin l, fin.1 = .ok → fin.2.blks = some l → fin.2.n_blks = l.length →
      blocks.length + l.length < UINT_MOD →
      (kvset_builder_merge_vblocks dst src (merge_env_of blocks fin)).1 = .ok ∧
      (kvset_builder_merge_vblocks dst src (merge_env_of blocks fin)).2.1.vblk_baseidx
        = vbb_get_blk_count blocks ∧
      vbb_get_blk_count (vbb_blk_list_merge blocks fin.2) =
        (kvset_builder_merge_vblocks dst src (merge_env_of blocks fin)).2.1.vblk_baseidx
          + fin.2.n_blks ∧
      merge_count_ok (merge_env_of blocks fin) ∧
      ∀ i, i < l.length →
        (vbb_blk_list_merge blocks fin.2)[
          (kvset_builder_merge_vblocks dst src (merge_env_of blocks fin)).2.1.vblk_baseidx + i]?
          = l[i]?) := by
  refine ⟨?_, ?_, ?_⟩
  · intro env h
    unfold kvset_builder_merge_vblocks
    dsimp only
    rw [if_pos h]
    exact ⟨rfl, rfl, rfl⟩
  · intro env h
    unfold kvset_builder_merge_vblocks
    dsimp only
    rw [if_neg (by rw [h]; simp)]
    by_cases hm : env.vbb_blk_list_merge ≠ .ok
    · rw [if_pos hm]
      exact ⟨rfl, rfl, rfl⟩
    · rw [if_neg hm]
      exact ⟨(not_not.mp hm).symm, rfl, rfl⟩
  · intro blocks fin l hf hl hn hlt
    have hb : blocks.length % UINT_MOD = blocks.length := Nat.mod_eq_of_lt (by omega)
    have hbase : (kvset_builder_merge_vblocks dst src (merge_env_of blocks fin)).2.1.vblk_baseidx
        = blocks.length := by
      unfold kvset_builder_merge_vblocks merge_env_of vbb_get_blk_count
      dsimp only
      rw [if_neg (by rw [hf]; simp), if_neg (by simp)]
      exact hb
    refine ⟨?_, ?_, ?_, ?_, ?_⟩
    · unfold kvset_builder_merge_vblocks merge_env_of
      dsimp only
      rw [if_neg (by rw [hf]; simp), if_neg (by simp)]
    · rw [hbase]
      rfl
    · rw [hbase, hn]
      unfold vbb_get_blk_count vbb_blk_list_merge
      rw [hl]
      simp
    · unfold merge_count_ok merge_env_of vbb_get_blk_count vbb_blk_list_merge
      dsimp only
      rw [hl, hn]
      simp only [Option.getD_some, List.length_append]
      rw [hb, Nat.mod_eq_of_lt (show l.length < UINT_MOD by omega)]
    · intro i hi
      rw [hbase]
      unfold vbb_blk_list_merge
      rw [hl]
      simp only [Option.getD_some]
      rw [List.getElem?_append_right (by omega)]
      simp

theorem merge_vblocks_post_witness :
    (kvset_builder_merge_vblocks bld_after_5a (fresh_builder hse_params cn_plain)
      merge_env_finish_fails).1 = .other 9 ∧
    (kvset_builder_merge_vblocks bld_after_5a (fresh_builder hse_params cn_plain)
      merge_env_finish_fails).2.2 = [] ∧
    (kvset_builder_merge_vblocks bld_after_5a (fresh_builder hse_params cn_plain)
      (merge_env_of [11, 12, 13] fin_two_blocks)).2.1.vblk_baseidx = 3 ∧
    vbb_blk_list_merge [11, 12, 13] fin_two_blocks.2 = [11, 12, 13, 31, 32] ∧
    merge_count_ok (merge_env_of [11, 12, 13] fin_two_blocks) :=
  ⟨((merge_vblocks_post bld_after_5a (fresh_builder hse_params cn_plain)).1
      merge_env_finish_fails (by decide)).1,
    ((merge_vblocks_post bld_after_5a (fresh_builder hse_params cn_plain)).1
      merge_env_finish_fails (by decide)).2.2,
    ((merge_vblocks_post bld_after_5a (fresh_builder hse_params cn_plain)).2.2
      [11, 12, 13] fin_two_blocks [31, 32] rfl rfl rfl (by decide)).2.1,
    by decide,
    ((merge_vblocks_post bld_after_5a (fresh_builder hse_params cn_plain)).2.2
      [11, 12, 13] fin_two_blocks [31, 32] rfl rfl rfl (by decide)).2.2.2.1⟩

/-! ## Finish without kblocks, for every public operation -/

/-- What one public operation leaves of the handles, the block lists and the call
log: the handles and the block lists are untouched, and the calls it logs
hold no `vbb_destroy` on a live handle and, unless the builder was the `src`
of a merge, no `vbb_finish`. -/
theorem pub_step_frame (P : params) (s : kvset_builder) (o : pub_op) :
    (pub_step P s o).vbb = s.vbb ∧ (pub_step P s o).kbb = s.kbb ∧
    (pub_step P s o).vblk_list = s.vblk_list ∧
    ∃ nc, (pub_step P s o).calls = s.calls ++ nc ∧ vbb_destroy_count nc = 0 ∧
      (is_merge_src o = false → vbb_finish_count nc = 0) := by
  cases o with
  | stream o =>
    obtain ⟨-, h2, h3, -, h5, -⟩ := step_handles P s o
    obtain ⟨nc, hcalls, hadd⟩ := step_calls P s o
    obtain ⟨c1, c2⟩ := count_of_add_calls nc hadd
    exact ⟨h3, h2, h5, nc, hcalls, c1, fun _ => c2⟩
  | merge_src dst env =>
    refine ⟨?_, ?_, ?_, [ext_call.vbb_finish], ?_, rfl, ?_⟩
    · simp only [pub_step, kvset_builder_merge_vblocks]
      split_ifs <;> rfl
    · simp only [pub_step, kvset_builder_merge_vblocks]
      split_ifs <;> rfl
    · simp only [pub_step, kvset_builder_merge_vblocks]
      split_ifs <;> rfl
    · simp only [pub_step, kvset_builder_merge_vblocks]
      split_ifs <;> rfl
    · intro h
      simp [is_merge_src] at h
  | merge_dst src env => exact ⟨rfl, rfl, rfl, [], by simp [pub_step], rfl, fun _ => rfl⟩
  | set_agegroup age =>
    exact ⟨rfl, rfl, rfl, [], by simp [pub_step, kvset_builder_set_agegroup], rfl, fun _ => rfl⟩
  | set_merge_stats stats =>
    exact ⟨rfl, rfl, rfl, [], by simp [pub_step, kvset_builder_set_merge_stats], rfl,
      fun _ => rfl⟩

theorem run_pub_frame (P : params) (ops : List pub_op) (s : kvset_builder) :
    (run_pub P s ops).vbb = s.vbb ∧ (run_pub P s ops).kbb = s.kbb ∧
    (run_pub P s ops).vblk_list = s.vblk_list ∧
    ∃ nc, (run_pub P s ops).calls = s.calls ++ nc ∧ vbb_destroy_count nc = 0 ∧
      ((∀ o ∈ ops, is_merge_src o = false) → vbb_finish_count nc = 0) := by
  induction ops generalizing s with
  | nil => exact ⟨rfl, rfl, rfl, [], by simp [run_pub], rfl, fun _ => rfl⟩
  | cons o os ih =>
    simp only [run_pub]
    obtain ⟨a1, a2, a3, na, a4, a5, a6⟩ := ih (pub_step P s o)
    obtain ⟨b1, b2, b3, nb, b4, b5, b6⟩ := pub_step_frame P s o
    refine ⟨a1.trans b1, a2.trans b2, a3.trans b3, nb ++ na, ?_, ?_, ?_⟩
    · rw [a4, b4, List.append_assoc]
    · rw [vbb_destroy_count_append, a5, b5]
    · intro h
      rw [vbb_finish_count_append, b6 (h o (List.mem_cons_self _ _)),
        a6 (fun q hq => h q (List.mem_cons_of_mem _ hq))]

theorem run_pub_reachable (P : params) (cn : cn_t) (cenv : create_env) (b : kvset_builder)
    (cl : List ext_call) (ops : List pub_op)
    (hc : kvset_builder_create P cn cenv = (.ok, some b, cl)) :
    (run_pub P b ops).vbb = true ∧ (run_pub P b ops).kbb = true ∧
    (run_pub P b ops).vblk_list = { blks := none, n_blks := 0 } ∧
    vbb_destroy_count (run_pub P b ops).calls = 0 ∧
    ((∀ o ∈ ops, is_merge_src o = false) → vbb_finish_count (run_pub P b ops).calls = 0) := by
  have hb := create_ok_eq P cn cenv b cl hc
  obtain ⟨h1, h2, h3, nc, hcalls, c1, c2⟩ := run_pub_frame P ops b
  rw [h1, h2, h3, hcalls, vbb_destroy_count_append, c1, hb]
  refine ⟨rfl, rfl, rfl, rfl, ?_⟩
  intro h
  rw [vbb_finish_count_append, c2 h]
  rfl

/-- C19: take a builder obtained from `kvset_builder_create` and driven through the
public operations: the streaming calls, `kvset_builder_merge_vblocks` in
either role and the two setters.  When the key-block writer's finish succeeds
with zero kblocks, `kvset_builder_get_mblocks` returns `0` with an empty `kblks`
and an empty `vblks`; the calls it makes are `kbb_finish` and one `vbb_destroy`
on the live handle, so it never calls `vbb_finish` (the call log holds as many
`vbb_finish` as before it, none at all unless the builder was the `src` of a
merge); it clears the builder's `vbb`, so that the later
`kvset_builder_destroy` passes a null handle and the value-block writer is
destroyed exactly once over the whole life of the builder.  With at least one
kblock and a successful `vbb_finish` the `vblks` are exactly the list
`vbb_finish` produced.  The last part holds in every state of a builder, reached
or not: with zero kblocks `get_mblocks` returns `0`, makes the two calls
`kbb_finish` and `vbb_destroy`, clears `vbb`, and the later destroy passes a
null handle. -/
theorem finish_without_kblocks (P : params) (cn : cn_t) (cenv : create_env) (b : kvset_builder)
    (cl : List ext_call) (ops : List pub_op) (mblks : kvset_mblocks) (env : finish_env)
    (hc : kvset_builder_create P cn cenv = (.ok, some b, cl))
    (hk : env.kbb_finish.1 = .ok) :
    (env.kbb_finish.2.n_blks = 0 →
      (kvset_builder_get_mblocks P (run_pub P b ops) mblks env).1 = .ok ∧
      (kvset_builder_get_mblocks P (run_pub P b ops) mblks env).2.2.kblks = env.kbb_finish.2 ∧
      (kvset_builder_get_mblocks P (run_pub P b ops) mblks env).2.2.kblks.n_blks = 0 ∧
      (kvset_builder_get_mblocks P (run_pub P b ops) mblks env).2.2.vblks
        = { blks := none, n_blks := 0 } ∧
      (kvset_builder_get_mblocks P (run_pub P b ops) mblks env).2.1.calls =
        (run_pub P b ops).calls ++
          [ext_call.kbb_finish (run_pub P b ops).seqno_min (run_pub P b ops).seqno_max,
            ext_call.vbb_destroy true] ∧
      (kvset_builder_get_mblocks P (run_pub P b ops) mblks env).2.1.vbb = false ∧
      kvset_builder_destroy (some (kvset_builder_get_mblocks P (run_pub P b ops) mblks env).2.1) =
        [ext_call.abort_mblocks { blks := none, n_blks := 0 },
          ext_call.abort_mblocks { blks := none, n_blks := 0 },
          ext_call.kbb_destroy true, ext_call.vbb_destroy false] ∧
      vbb_finish_count
        ((kvset_builder_get_mblocks P (run_pub P b ops) mblks env).2.1.calls ++
          kvset_builder_destroy
            (some (kvset_builder_get_mblocks P (run_pub P b ops) mblks env).2.1))
        = vbb_finish_count (run_pub P b ops).calls ∧
      ((∀ o ∈ ops, is_merge_src o = false) →
        vbb_finish_count
          ((kvset_builder_get_mblocks P (run_pub P b ops) mblks env).2.1.calls ++
            kvset_builder_destroy
              (some (kvset_builder_get_mblocks P (run_pub P b ops) mblks env).2.1)) = 0) ∧
      vbb_destroy_count
        ((kvset_builder_get_mblocks P (run_pub P b ops) mblks env).2.1.calls ++
          kvset_builder_destroy
            (some (kvset_builder_get_mblocks P (run_pub P b ops) mblks env).2.1)) = 1) ∧
    (env.kbb_finish.2.n_blks ≠ 0 → env.vbb_finish.1 = .ok →
      (kvset_builder_get_mblocks P (run_pub P b ops) mblks env).1 = .ok ∧
      (kvset_builder_get_mblocks P (run_pub P b ops) mblks env).2.2.kblks = env.kbb_finish.2 ∧
      (kvset_builder_get_mblocks P (run_pub P b ops) mblks env).2.2.vblks = env.vbb_finish.2 ∧
      (kvset_builder_get_mblocks P (run_pub P b ops) mblks env).2.1.calls =
        (run_pub P b ops).calls ++
          [ext_call.kbb_finish (run_pub P b ops).seqno_min (run_pub P b ops).seqno_max,
            ext_call.vbb_finish]) ∧
    (∀ s : kvset_builder, env.kbb_finish.2.n_blks = 0 →
      (kvset_builder_get_mblocks P s mblks env).1 = .ok ∧
      (kvset_builder_get_mblocks P s mblks env).2.2.kblks = env.kbb_finish.2 ∧
      (kvset_builder_get_mblocks P s mblks env).2.2.vblks = s.vblk_list ∧
      (kvset_builder_get_mblocks P s mblks env).2.1.calls =
        s.calls ++ [ext_call.kbb_finish s.seqno_min s.seqno_max, ext_call.vbb_destroy s.vbb] ∧
      (kvset_builder_get_mblocks P s mblks env).2.1.vbb = false ∧
      kvset_builder_destroy (some (kvset_builder_get_mblocks P s mblks env).2.1) =
        [ext_call.abort_mblocks { blks := none, n_blks := 0 },
          ext_call.abort_mblocks { blks := none, n_blks := 0 },
          ext_call.kbb_destroy s.kbb, ext_call.vbb_destroy false]) := by
  obtain ⟨hv, hkb, hvl, hd, hf⟩ := run_pub_reachable P cn cenv b cl ops hc
  have hany : ∀ s : kvset_builder, env.kbb_finish.2.n_blks = 0 →
      (kvset_builder_get_mblocks P s mblks env).1 = .ok ∧
      (kvset_builder_get_mblocks P s mblks env).2.2.kblks = env.kbb_finish.2 ∧
      (kvset_builder_get_mblocks P s mblks env).2.2.vblks = s.vblk_list ∧
      (kvset_builder_get_mblocks P s mblks env).2.1.calls =
        s.calls ++ [ext_call.kbb_finish s.seqno_min s.seqno_max, ext_call.vbb_destroy s.vbb] ∧
      (kvset_builder_get_mblocks P s mblks env).2.1.vbb = false ∧
      kvset_builder_destroy (some (kvset_builder_get_mblocks P s mblks env).2.1) =
        [ext_call.abort_mblocks { blks := none, n_blks := 0 },
          ext_call.abort_mblocks { blks := none, n_blks := 0 },
          ext_call.kbb_destroy s.kbb, ext_call.vbb_destroy false] := by
    intro s hn
    obtain ⟨-, f0, -⟩ := finish_cases s env
    have hfin := f0 hk hn
    have hok : (kvset_builder_finish s env).1 = .ok := by rw [hfin]
    obtain ⟨g1, g2, g3, g4⟩ := get_mblocks_of_finish_ok P s mblks env hok
    rw [g2, g3, g4, hfin]
    exact ⟨g1, rfl, rfl, rfl, rfl, rfl⟩
  refine ⟨?_, ?_, hany⟩
  · intro hn
    obtain ⟨a1, a2, a3, a4, a5, a6⟩ := hany (run_pub P b ops) hn
    have hcount : vbb_finish_count
        ((kvset_builder_get_mblocks P (run_pub P b ops) mblks env).2.1.calls ++
          kvset_builder_destroy
            (some (kvset_builder_get_mblocks P (run_pub P b ops) mblks env).2.1))
        = vbb_finish_count (run_pub P b ops).calls := by
      rw [a4, a6, vbb_finish_count_append, vbb_finish_count_append]
      rfl
    refine ⟨a1, a2, by rw [a2]; exact hn, by rw [a3, hvl], by rw [a4, hv], a5,
      by rw [a6, hkb], hcount, ?_, ?_⟩
    · intro hm
      rw [hcount, hf hm]
    · rw [a4, a6, vbb_destroy_count_append, vbb_destroy_count_append, hd, hv]
      rfl
  · intro hn hvf
    obtain ⟨-, -, f1⟩ := finish_cases (run_pub P b ops) env
    have hfin := f1 hk hn
    have hok : (kvset_builder_finish (run_pub P b ops) env).1 = .ok := by rw [hfin]; exact hvf
    obtain ⟨g1, g2, g3, g4⟩ := get_mblocks_of_finish_ok P (run_pub P b ops) mblks env hok
    rw [g2, g3, g4, hfin]
    exact ⟨g1, rfl, rfl, rfl⟩

theorem finish_without_kblocks_witness :
    (kvset_builder_get_mblocks hse_params
      (run_pub hse_params (fresh_builder hse_params cn_plain) ops_merged) mblks_zero
      fin_env_no_kblock).1 = .ok ∧
    (kvset_builder_get_mblocks hse_params
      (run_pub hse_params (fresh_builder hse_params cn_plain) ops_merged) mblks_zero
      fin_env_no_kblock).2.2.vblks = { blks := none, n_blks := 0 } ∧
    (kvset_builder_get_mblocks hse_params
      (run_pub hse_params (fresh_builder hse_params cn_plain) ops_merged) mblks_zero
      fin_env_no_kblock).2.1.vbb = false ∧
    vbb_destroy_count
      ((kvset_builder_get_mblocks hse_params
          (run_pub hse_params (fresh_builder hse_params cn_plain) ops_merged) mblks_zero
          fin_env_no_kblock).2.1.calls ++
        kvset_builder_destroy
          (some (kvset_builder_get_mblocks hse_params
            (run_pub hse_params (fresh_builder hse_params cn_plain) ops_merged) mblks_zero
            fin_env_no_kblock).2.1)) = 1 ∧
    vbb_finish_count
      ((kvset_builder_get_mblocks hse_params
          (run_pub hse_params (fresh_builder hse_params cn_plain) ops_mixed_pub) mblks_zero
          fin_env_no_kblock).2.1.calls ++
        kvset_builder_destroy
          (some (kvset_builder_get_mblocks hse_params
            (run_pub hse_params (fresh_builder hse_params cn_plain) ops_mixed_pub) mblks_zero
            fin_env_no_kblock).2.1)) = 0 ∧
    vbb_finish_count
      (run_pub hse_params (fresh_builder hse_params cn_plain) ops_merged).calls = 1 :=
  ⟨((finish_without_kblocks hse_params cn_plain
      { malloc := true, kbb_create := .ok, vbb_create := .ok }
      (fresh_builder hse_params cn_plain) [ext_call.kbb_create, ext_call.vbb_create] ops_merged
      mblks_zero fin_env_no_kblock (by rfl) rfl).1 rfl).1,
    ((finish_without_kblocks hse_params cn_plain
      { malloc := true, kbb_create := .ok, vbb_create := .ok }
      (fresh_builder hse_params cn_plain) [ext_call.kbb_create, ext_call.vbb_create] ops_merged
      mblks_zero fin_env_no_kblock (by rfl) rfl).1 rfl).2.2.2.1,
    ((finish_without_kblocks hse_params cn_plain
      { malloc := true, kbb_create := .ok, vbb_create := .ok }
      (fresh_builder hse_params cn_plain) [ext_call.kbb_create, ext_call.vbb_create] ops_merged
      mblks_zero fin_env_no_kblock (by rfl) rfl).1 rfl).2.2.2.2.2.1,
    ((finish_without_kblocks hse_params cn_plain
      { malloc := true, kbb_create := .ok, vbb_create := .ok }
      (fresh_builder hse_params cn_plain) [ext_call.kbb_create, ext_call.vbb_create] ops_merged
      mblks_zero fin_env_no_kblock (by rfl) rfl).1 rfl).2.2.2.2.2.2.2.2.2,
    ((finish_without_kblocks hse_params cn_plain
      { malloc := true, kbb_create := .ok, vbb_create := .ok }
      (fresh_builder hse_params cn_plain) [ext_call.kbb_create, ext_call.vbb_create]
      ops_mixed_pub mblks_zero fin_env_no_kblock (by rfl) rfl).1 rfl).2.2.2.2.2.2.2.2.1
      (by decide),
    by decide⟩

end KvsetBuilder
